import Mathlib

/-!
drt-go-chain-p2p: the message orchestration layer.

A shallow embedding of the inbound envelope check, the pubsub callback, the
broadcast admission path and the connection-monitor wrapper of
`libp2p/netMessenger.go` and `libp2p/connectionMonitorWrapper.go`.

Collaborators that live outside the repository (denial evaluator, marshaller,
message processors, throttler, host network) are passed in as records of
functions over explicit state; every call the code makes on a collaborator
whose effect is not part of the state is appended to a chronological event log.
-/

namespace P2P

/-! ## Basic data -/

/-- One octet of a Go byte slice. -/
abbrev Byte := Fin 256

/-- The Go type `core.PeerID`, a string of raw bytes. -/
abbrev PeerID := List Byte

/-- The Go type `time.Duration`: a signed count of nanoseconds. -/
abbrev Duration := Int

/-- The Go constant `time.Second`. -/
def Second : Duration := 1000000000

/-- The Go constant `time.Minute`. -/
def Minute : Duration := 60 * Second

/-- The whole-second count `int64(d.Seconds())` of a duration (the float result of
`Seconds` is exact for durations that are a multiple of a second, as the ones used here). -/
def Duration.Seconds (d : Duration) : Int := Int.tdiv d Second

/-- Reduction of a mathematical integer to the value an `int64` register holds. -/
def wrap64 (x : Int) : Int := (x + 2 ^ 63) % 2 ^ 64 - 2 ^ 63

/-- A reading of the sync clock (`time.Time`): seconds since the epoch and the
nanoseconds within that second. -/
structure Time where
  sec : Int
  nsec : Fin 1000000000
  deriving DecidableEq

/-- The Go method `Time.Unix`: seconds since the epoch. -/
def Time.Unix (t : Time) : Int := t.sec

/-- The Go method `Time.Add`, on the range where the sum is representable. -/
def Time.Add (t : Time) (d : Duration) : Time :=
  let total : Int := t.sec * 1000000000 + (t.nsec.val : Int) + d
  ⟨total / 1000000000, ⟨(total % 1000000000).toNat, by omega⟩⟩

/-! ## Errors -/

/-- The sentinel errors of package `p2p` that the modelled code raises. -/
inductive Sentinel where
  | ErrMessageTooNew
  | ErrMessageTooOld
  | ErrMessageTooLarge
  | ErrEmptyBufferToSend
  | ErrTooManyGoroutines
  | ErrNilValidator
  | ErrNilPeerDenialEvaluator
  | ErrMessageProcessorAlreadyDefined
  | ErrMessageProcessorDoesNotExists
  | ErrNilPeersRatingHandler
  | ErrNilFetchPeersOnTopicHandler
  | ErrInvalidDurationProvided
  | ErrInvalidTCPAddress
  | ErrInvalidQUICAddress
  | ErrInvalidWSAddress
  | ErrInvalidWebTransportAddress
  | ErrNoTransportsDefined
  deriving DecidableEq

/-- A Go `error` value: a sentinel, a sentinel wrapped by `fmt.Errorf("%w, ...")` together
with the integers formatted into the text, or an error produced by a collaborator. -/
inductive GoError where
  | sentinel (s : Sentinel)
  | wrapped (s : Sentinel) (args : List Int)
  | collaborator (code : Nat)
  deriving DecidableEq

/-- The Go predicate `errors.Is(e, s)`. -/
def GoError.Is : GoError → Sentinel → Bool
  | .sentinel s, t => decide (s = t)
  | .wrapped s _, t => decide (s = t)
  | .collaborator _, _ => false

/-! ## Constants of `netMessenger.go` -/

def pubsubTimeCacheDuration : Duration := 10 * Minute

def acceptMessagesInAdvanceDuration : Duration := 20 * Second

def messageHeader : Nat := 64 * 1024

def maxSendBuffSize : Nat := (1 <<< 21) - messageHeader

/-! ## Envelope freshness and buffer validation -/

/-- The source function `validMessageByTimestamp`, on the clock reading `now` and the
message timestamp; `none` is the nil error. -/
def validMessageByTimestamp (now : Time) (timestamp : Int) : Option GoError :=
  let isInFuture : Bool := decide ((now.Add acceptMessagesInAdvanceDuration).Unix < timestamp)
  if isInFuture then
    some (.wrapped .ErrMessageTooNew [now.Unix, timestamp])
  else
    let past : Int := wrap64 (now.Unix - pubsubTimeCacheDuration.Seconds)
    if timestamp < past then
      some (.wrapped .ErrMessageTooOld [now.Unix, timestamp])
    else
      none

/-- The source function `checkSendableData`. -/
def checkSendableData (buff : List Byte) : Option GoError :=
  if buff.length > maxSendBuffSize then
    some (.wrapped .ErrMessageTooLarge [(buff.length : Int), (maxSendBuffSize : Int)])
  else if buff.length = 0 then
    some (.sentinel .ErrEmptyBufferToSend)
  else
    none

/-! ## Messages -/

/-- The envelope `data.TopicMessage` placed around every payload. -/
structure TopicMessage where
  Version : Nat
  Payload : List Byte
  Timestamp : Int
  deriving DecidableEq

/-- The interface `p2p.Marshalizer`, at the one type it is used with here. -/
structure Marshalizer where
  Marshal : TopicMessage → Except GoError (List Byte)
  Unmarshal : List Byte → Except GoError TopicMessage

/-- The fields of a raw `pubsub.Message` that the modelled code reads or sets. -/
structure PubsubMessage where
  From : List Byte
  Data : List Byte
  Seqno : List Byte
  Topic : String
  Signature : List Byte
  deriving DecidableEq

/-- The decoded message behind the interface `p2p.MessageP2P`; the accessor methods of
the interface are the fields. -/
structure Message where
  From : List Byte
  Data : List Byte
  SeqNo : List Byte
  Topic : String
  Timestamp : Int
  Peer : PeerID
  deriving DecidableEq

/-- The struct `SendableData` queued on an outgoing channel; `Sk` is the optional
private key of the private-key broadcast variants. -/
structure SendableData where
  Buff : List Byte
  Topic : String
  Sk : Option (List Byte)
  ID : PeerID
  deriving DecidableEq

/-- A `network.Conn` of the host, identified by its remote peer and connection id. -/
structure Conn where
  RemotePeer : PeerID
  ID : Nat
  deriving DecidableEq

/-! ## Collaborators and state -/

/-- The interface `p2p.PeerDenialEvaluator`, over the evaluator's own state. The error
of `UpsertPeerID` is returned next to the new state. -/
structure PeerDenialEvaluator (σ : Type) where
  IsDenied : σ → PeerID → Bool
  UpsertPeerID : σ → PeerID → Duration → σ × Option GoError

/-- The interface `p2p.MessageProcessor`, over the application's own state. -/
structure MessageProcessor (τ : Type) where
  ProcessReceivedMessage : τ → Message → PeerID → τ × Option GoError

/-- The counting throttler `throttler.NumGoRoutinesThrottler` of the core library. -/
structure NumGoRoutinesThrottler where
  max : Int
  counter : Int
  deriving DecidableEq

def NumGoRoutinesThrottler.CanProcess (t : NumGoRoutinesThrottler) : Bool :=
  decide (t.counter < t.max)

def NumGoRoutinesThrottler.StartProcessing (t : NumGoRoutinesThrottler) :
    NumGoRoutinesThrottler :=
  { t with counter := t.counter + 1 }

def NumGoRoutinesThrottler.EndProcessing (t : NumGoRoutinesThrottler) :
    NumGoRoutinesThrottler :=
  { t with counter := t.counter - 1 }

/-- A call made on a collaborator, recorded in the order the code makes it.
`Enqueue c d` is the send of `d` on `outgoingPLB.GetChannelOrDefault(c)`;
`MonitorConnected` is the forwarded `ConnectionMonitor.Connected`. -/
inductive Event where
  | UpsertPeerID (pid : PeerID) (banDuration : Duration)
  | AddIncomingMessage (topic : String) (size : Nat) (isRejected : Bool)
  | AddOutgoingMessage (topic : String) (size : Nat) (isRejected : Bool)
  | IncreaseRating (pid : PeerID)
  | ProcessReceivedMessage (index : Nat) (msg : Message) (fromConnectedPeer : PeerID)
      (err : Option GoError)
  | Enqueue (channel : String) (data : SendableData)
  | ConnClose (conn : Conn)
  | MonitorConnected (conn : Conn)
  | ClosePeer (pid : PeerID)
  | FetchPeersOnTopic (topic : String)
  | AddPeer (pid : PeerID)
  | DirectSend (topic : String) (buff : List Byte) (peer : PeerID)
  deriving DecidableEq

/-- The mutable surroundings of the messenger: the state of the denial evaluator, the
state of the application behind the message processors, the throttler and the log of
collaborator calls. -/
structure World (σ τ : Type) where
  denial : σ
  app : τ
  throttler : NumGoRoutinesThrottler
  log : List Event

/-- Appends one collaborator call to the log. -/
def World.emit {σ τ : Type} (w : World σ τ) (e : Event) : World σ τ :=
  { w with log := w.log ++ [e] }

/-- The host network seen by the connection-monitor wrapper: the result of `Peers()`. -/
structure Network where
  Peers : List PeerID

/-- The struct `connectionMonitorWrapper`: the host network and the current denial
evaluator; the embedded inner monitor is a collaborator reached through the log. -/
structure connectionMonitorWrapper (σ : Type) where
  network : Network
  peerDenialEvaluator : PeerDenialEvaluator σ

/-- The getter `connectionMonitorWrapper.PeerDenialEvaluator`. -/
def connectionMonitorWrapper.PeerDenialEvaluator {σ : Type}
    (cmw : connectionMonitorWrapper σ) : PeerDenialEvaluator σ :=
  cmw.peerDenialEvaluator

/-- The snapshot interface of the per-topic processor set: the result of `getList`,
the identifiers and the handlers in the order the set hands them out. -/
structure topicProcessors (τ : Type) where
  getList : List String × List (MessageProcessor τ)

/-- The sync clock `p2p.SyncTimer`: the reading `CurrentTime` returns. -/
structure SyncTimer where
  CurrentTime : Time

/-- The parts of `networkMessenger` that the modelled methods use. `NewMessage`,
`currentTopicMessageVersion` and `WrongP2PMessageBlacklistDuration` are declared in other
files of the repository and are taken as parameters, like the secp256k1 key decoder of
the libp2p crypto library. -/
structure networkMessenger (σ τ : Type) where
  ID : PeerID
  marshalizer : Marshalizer
  syncTimer : SyncTimer
  connMonitorWrapper : connectionMonitorWrapper σ
  NewMessage : PubsubMessage → Marshalizer → Except GoError Message
  UnmarshalSecp256k1PrivateKey : List Byte → Except GoError (List Byte)
  currentTopicMessageVersion : Nat
  WrongP2PMessageBlacklistDuration : Duration

/-! ## Inbound pipeline of `netMessenger.go` -/

/-- The source function `processDebugMessage`. -/
def processDebugMessage {σ τ : Type} (netMes : networkMessenger σ τ) (topic : String)
    (fromConnectedPeer : PeerID) (size : Nat) (isRejected : Bool) (w : World σ τ) :
    World σ τ :=
  if fromConnectedPeer = netMes.ID then
    w.emit (.AddOutgoingMessage topic size isRejected)
  else
    w.emit (.AddIncomingMessage topic size isRejected)

/-- The source function `blacklistPid`. An error of `UpsertPeerID` is only logged by the
source, so it does not show in the result. -/
def blacklistPid {σ τ : Type} (netMes : networkMessenger σ τ) (pid : PeerID)
    (banDuration : Duration) (w : World σ τ) : World σ τ :=
  if netMes.connMonitorWrapper.PeerDenialEvaluator.IsDenied w.denial pid then
    w
  else if pid.length = 0 then
    w
  else
    let r := netMes.connMonitorWrapper.PeerDenialEvaluator.UpsertPeerID w.denial pid banDuration
    { w with denial := r.1, log := w.log ++ [Event.UpsertPeerID pid banDuration] }

/-- The source function `transformAndCheckMessage`. -/
def transformAndCheckMessage {σ τ : Type} (netMes : networkMessenger σ τ)
    (pbMsg : PubsubMessage) (pid : PeerID) (topic : String) (w : World σ τ) :
    Except GoError Message × World σ τ :=
  match netMes.NewMessage pbMsg netMes.marshalizer with
  | .error errUnmarshal =>
    let pidFrom : PeerID := pbMsg.From
    let w1 := blacklistPid netMes pid netMes.WrongP2PMessageBlacklistDuration w
    let w2 := blacklistPid netMes pidFrom netMes.WrongP2PMessageBlacklistDuration w1
    (.error errUnmarshal, w2)
  | .ok msg =>
    match validMessageByTimestamp netMes.syncTimer.CurrentTime msg.Timestamp with
    | some err => (.error err, processDebugMessage netMes topic pid msg.Data.length true w)
    | none => (.ok msg, w)

/-- The loop `for index, handler := range handlers` of `pubsubCallback`, started at
`index` with the current value of `messageOk`. -/
def processHandlers {σ τ : Type} (msg : Message) (fromConnectedPeer : PeerID) :
    Nat → List (MessageProcessor τ) → Bool → World σ τ → Bool × World σ τ
  | _, [], messageOk, w => (messageOk, w)
  | index, handler :: rest, messageOk, w =>
    let r := handler.ProcessReceivedMessage w.app msg fromConnectedPeer
    let w1 : World σ τ :=
      { w with app := r.1,
               log := w.log ++ [Event.ProcessReceivedMessage index msg fromConnectedPeer r.2] }
    processHandlers msg fromConnectedPeer (index + 1) rest
      (if r.2.isSome then false else messageOk) w1

/-- The closure returned by the source function `pubsubCallback`. -/
def pubsubCallback {σ τ : Type} (netMes : networkMessenger σ τ)
    (topicProcs : topicProcessors τ) (topic : String) (pid : PeerID)
    (message : PubsubMessage) (w : World σ τ) : Bool × World σ τ :=
  let fromConnectedPeer : PeerID := pid
  match transformAndCheckMessage netMes message fromConnectedPeer topic w with
  | (.error _, w1) => (false, w1)
  | (.ok msg, w1) =>
    let handlers := topicProcs.getList.2
    let r := processHandlers msg fromConnectedPeer 0 handlers true w1
    let messageOk := r.1
    let w3 := processDebugMessage netMes topic fromConnectedPeer message.Data.length
      (!messageOk) r.2
    let w4 := if messageOk then w3.emit (.IncreaseRating fromConnectedPeer) else w3
    (messageOk, w4)

/-! ## Outbound path of `netMessenger.go` -/

/-- The source function `createMessageBytes`; the empty list is the nil slice. -/
def createMessageBytes {σ τ : Type} (netMes : networkMessenger σ τ) (buff : List Byte) :
    List Byte :=
  let message : TopicMessage :=
    { Version := netMes.currentTopicMessageVersion,
      Payload := buff,
      Timestamp := netMes.syncTimer.CurrentTime.Unix }
  match netMes.marshalizer.Marshal message with
  | .error _ => []
  | .ok buffToSend => buffToSend

/-- The source function `BroadcastOnChannelBlocking`. -/
def BroadcastOnChannelBlocking {σ τ : Type} (netMes : networkMessenger σ τ)
    (channel topic : String) (buff : List Byte) (w : World σ τ) :
    Option GoError × World σ τ :=
  match checkSendableData buff with
  | some err => (some err, w)
  | none =>
    if !w.throttler.CanProcess then
      (some (.sentinel .ErrTooManyGoroutines), w)
    else
      let w1 : World σ τ := { w with throttler := w.throttler.StartProcessing }
      let sendable : SendableData :=
        { Buff := buff, Topic := topic, Sk := none, ID := netMes.ID }
      let w2 := w1.emit (.Enqueue channel sendable)
      let w3 : World σ τ := { w2 with throttler := w2.throttler.EndProcessing }
      (none, w3)

/-- The source function `BroadcastOnChannelBlockingUsingPrivateKey`. -/
def BroadcastOnChannelBlockingUsingPrivateKey {σ τ : Type} (netMes : networkMessenger σ τ)
    (channel topic : String) (buff : List Byte) (pid : PeerID) (skBytes : List Byte)
    (w : World σ τ) : Option GoError × World σ τ :=
  let id : PeerID := pid
  match netMes.UnmarshalSecp256k1PrivateKey skBytes with
  | .error err => (some err, w)
  | .ok sk =>
    match checkSendableData buff with
    | some err => (some err, w)
    | none =>
      if !w.throttler.CanProcess then
        (some (.sentinel .ErrTooManyGoroutines), w)
      else
        let w1 : World σ τ := { w with throttler := w.throttler.StartProcessing }
        let sendable : SendableData :=
          { Buff := buff, Topic := topic, Sk := some sk, ID := id }
        let w2 := w1.emit (.Enqueue channel sendable)
        let w3 : World σ τ := { w2 with throttler := w2.throttler.EndProcessing }
        (none, w3)

/-! ## `connectionMonitorWrapper.go` -/

/-- The source method `connectionMonitorWrapper.Connected`. -/
def connectionMonitorWrapper.Connected {σ τ : Type} (cmw : connectionMonitorWrapper σ)
    (conn : Conn) (w : World σ τ) : World σ τ :=
  let peerBlackList := cmw.peerDenialEvaluator
  let pid := conn.RemotePeer
  if peerBlackList.IsDenied w.denial pid then
    w.emit (.ConnClose conn)
  else
    w.emit (.MonitorConnected conn)

/-- The loop `for _, pid := range peers` of `CheckConnectionsBlocking`. -/
def sweepPeers {σ τ : Type} (peerDenialEvaluator : PeerDenialEvaluator σ) :
    List PeerID → World σ τ → World σ τ
  | [], w => w
  | pid :: rest, w =>
    if peerDenialEvaluator.IsDenied w.denial pid then
      sweepPeers peerDenialEvaluator rest (w.emit (.ClosePeer pid))
    else
      sweepPeers peerDenialEvaluator rest w

/-- The source method `connectionMonitorWrapper.CheckConnectionsBlocking`. -/
def connectionMonitorWrapper.CheckConnectionsBlocking {σ τ : Type}
    (cmw : connectionMonitorWrapper σ) (w : World σ τ) : World σ τ :=
  let peers := cmw.network.Peers
  let peerDenialEvaluator := cmw.peerDenialEvaluator
  sweepPeers peerDenialEvaluator peers w

/-- The source method `connectionMonitorWrapper.SetPeerDenialEvaluator`; `none` is the
nil handler. -/
def connectionMonitorWrapper.SetPeerDenialEvaluator {σ : Type}
    (cmw : connectionMonitorWrapper σ) (handler : Option (P2P.PeerDenialEvaluator σ)) :
    Option GoError × connectionMonitorWrapper σ :=
  match handler with
  | none => (some (.sentinel .ErrNilPeerDenialEvaluator), cmw)
  | some h => (none, { cmw with peerDenialEvaluator := h })

/-- The source function `newConnectionMonitorWrapper`. -/
def newConnectionMonitorWrapper {σ : Type} (network : Network)
    (peerDenialEvaluator : PeerDenialEvaluator σ) : connectionMonitorWrapper σ :=
  { network := network, peerDenialEvaluator := peerDenialEvaluator }

/-- Modelled from the spec: the default evaluator `disabled.PeerDenialEvaluator`, of which
only the test is among the modelled files. It is the deny-nothing evaluator: `IsDenied`
answers false and `UpsertPeerID` returns nil and keeps nothing. -/
def disabled.PeerDenialEvaluator : P2P.PeerDenialEvaluator Unit where
  IsDenied := fun _ _ => false
  UpsertPeerID := fun s _ _ => (s, none)

/-- The wrapper `createConnectionMonitor` installs: `newConnectionMonitorWrapper` on the
host network with `&disabled.PeerDenialEvaluator{}`. -/
def createConnectionMonitor (network : Network) : connectionMonitorWrapper Unit :=
  newConnectionMonitorWrapper network disabled.PeerDenialEvaluator

/-! ## Go maps -/

/-- A Go `map[string]α`: the keys present, in the order a `range` loop visits them (which
the Go runtime leaves unspecified), and the value stored under each key. -/
structure GoMap (α : Type) where
  keys : List String
  val : String → Option α

/-- The result of `make(map[string]α)`. -/
def GoMap.empty {α : Type} : GoMap α := ⟨[], fun _ => none⟩

/-- The two-value read `v, ok := m[k]`: `none` when the key is absent. -/
def GoMap.lookup {α : Type} (m : GoMap α) (k : String) : Option α :=
  if k ∈ m.keys then m.val k else none

/-- The assignment `m[k] = v`. -/
def GoMap.store {α : Type} (m : GoMap α) (k : String) (v : α) : GoMap α :=
  ⟨if k ∈ m.keys then m.keys else m.keys ++ [k], Function.update m.val k (some v)⟩

/-- The statement `delete(m, k)`. -/
def GoMap.delete {α : Type} (m : GoMap α) (k : String) : GoMap α :=
  ⟨m.keys.filter (fun j => decide (j ≠ k)), m.val⟩

/-! ## Topic-processor registry of `netMessenger.go` -/

/-- Modelled from the spec: the constructor `newTopicProcessors` of the per-topic
processor set (`topicProcessors.go` is not among the modelled files): an empty ordered
mapping from identifier to validator. -/
def newTopicProcessors {τ : Type} : topicProcessors τ := ⟨([], [])⟩

/-- Modelled from the spec: `topicProcessors.addTopicProcessor`. A duplicate identifier on
the same topic is an error; a new identifier is added after the registered ones. -/
def topicProcessors.addTopicProcessor {τ : Type} (tp : topicProcessors τ)
    (identifier : String) (processor : MessageProcessor τ) :
    Except GoError (topicProcessors τ) :=
  if identifier ∈ tp.getList.1 then
    .error (.wrapped .ErrMessageProcessorAlreadyDefined [])
  else
    .ok ⟨(tp.getList.1 ++ [identifier], tp.getList.2 ++ [processor])⟩

/-- Modelled from the spec: `topicProcessors.removeTopicProcessor`. It removes the entry
of the identifier and fails when the identifier has no entry. -/
def topicProcessors.removeTopicProcessor {τ : Type} (tp : topicProcessors τ)
    (identifier : String) : Except GoError (topicProcessors τ) :=
  if identifier ∈ tp.getList.1 then
    .ok ⟨(((tp.getList.1.zip tp.getList.2).filter
      (fun e => decide (e.1 ≠ identifier))).unzip)⟩
  else
    .error (.wrapped .ErrMessageProcessorDoesNotExists [])

/-- The validator registry of the pubsub instance `netMes.pb`, over the pubsub's own
state; each call returns the new state and the error. -/
structure PubSub (π : Type) where
  RegisterTopicValidator : π → String → π × Option GoError
  UnregisterTopicValidator : π → String → π × Option GoError

/-- The state guarded by `mutTopics` that the registry methods touch: the map
`processors`, whose values are pointers and may be nil, and the state of the pubsub. -/
structure TopicsState (τ π : Type) where
  processors : GoMap (Option (topicProcessors τ))
  pb : π

/-- The read `netMes.processors[topic]`: nil both for an absent key and for a key that
holds a nil pointer. -/
def TopicsState.processorsAt {τ π : Type} (s : TopicsState τ π) (topic : String) :
    Option (topicProcessors τ) :=
  (s.processors.lookup topic).join

/-- The source method `RegisterMessageProcessor`; `none` is the nil handler. The text
that wraps an error of `addTopicProcessor` with the topic name leaves the error chain as
it is. -/
def RegisterMessageProcessor {τ π : Type} (pb : PubSub π) (topic identifier : String)
    (handler : Option (MessageProcessor τ)) (s : TopicsState τ π) :
    Option GoError × TopicsState τ π :=
  match handler with
  | none => (some (.wrapped .ErrNilValidator []), s)
  | some h =>
    match s.processorsAt topic with
    | none =>
      let topicProcs : topicProcessors τ := newTopicProcessors
      let s1 : TopicsState τ π :=
        { s with processors := s.processors.store topic (some topicProcs) }
      let r := pb.RegisterTopicValidator s1.pb topic
      let s2 : TopicsState τ π := { s1 with pb := r.1 }
      match r.2 with
      | some err => (some err, s2)
      | none =>
        match topicProcs.addTopicProcessor identifier h with
        | .error err => (some err, s2)
        | .ok added =>
          (none, { s2 with processors := s2.processors.store topic (some added) })
    | some topicProcs =>
      match topicProcs.addTopicProcessor identifier h with
      | .error err => (some err, s)
      | .ok added => (none, { s with processors := s.processors.store topic (some added) })

/-- The source method `UnregisterMessageProcessor`. -/
def UnregisterMessageProcessor {τ π : Type} (pb : PubSub π) (topic identifier : String)
    (s : TopicsState τ π) : Option GoError × TopicsState τ π :=
  match s.processorsAt topic with
  | none => (none, s)
  | some topicProcs =>
    match topicProcs.removeTopicProcessor identifier with
    | .error err => (some err, s)
    | .ok removed =>
      let s1 : TopicsState τ π :=
        { s with processors := s.processors.store topic (some removed) }
      let identifiers := removed.getList.1
      if identifiers.length = 0 then
        let s2 : TopicsState τ π := { s1 with processors := s1.processors.store topic none }
        let r := pb.UnregisterTopicValidator s2.pb topic
        (r.2, { s2 with pb := r.1 })
      else
        (none, s1)

/-- The loop `for topic := range netMes.processors` of `UnregisterAllMessageProcessors`,
over the keys still to be visited. -/
def unregisterAllLoop {τ π : Type} (pb : PubSub π) :
    List String → TopicsState τ π → Option GoError × TopicsState τ π
  | [], s => (none, s)
  | topic :: rest, s =>
    let r := pb.UnregisterTopicValidator s.pb topic
    match r.2 with
    | some err => (some err, { s with pb := r.1 })
    | none =>
      unregisterAllLoop pb rest
        { s with pb := r.1, processors := s.processors.delete topic }

/-- The source method `UnregisterAllMessageProcessors`. -/
def UnregisterAllMessageProcessors {τ π : Type} (pb : PubSub π) (s : TopicsState τ π) :
    Option GoError × TopicsState τ π :=
  unregisterAllLoop pb s.processors.keys s

/-- The source method `directMessageHandler`. The goroutine it starts is run to its end
before the method returns. -/
def directMessageHandler {σ τ : Type} (netMes : networkMessenger σ τ)
    (processors : GoMap (Option (topicProcessors τ))) (message : PubsubMessage)
    (fromConnectedPeer : PeerID) (w : World σ τ) : Option GoError × World σ τ :=
  let topic := message.Topic
  match transformAndCheckMessage netMes message fromConnectedPeer topic w with
  | (.error err, w1) => (some err, w1)
  | (.ok msg, w1) =>
    match (processors.lookup topic).join with
    | none => (some (.wrapped .ErrNilValidator []), w1)
    | some topicProcs =>
      let handlers := topicProcs.getList.2
      let r := processHandlers msg fromConnectedPeer 0 handlers true w1
      let messageOk := r.1
      let w2 := r.2.emit (.AddIncomingMessage msg.Topic msg.Data.length (!messageOk))
      let w3 := if messageOk then w2.emit (.IncreaseRating fromConnectedPeer) else w2
      (none, w3)

/-! ## Shutdown of `netMessenger.go` -/

/-- The results of the subcomponent closes that `Close` awaits, named as in the source;
`none` is the nil error. -/
structure CloseResults where
  errHost : Option GoError
  errConnWatcher : Option GoError
  errOplb : Option GoError
  errPoc : Option GoError
  errConnMonitor : Option GoError
  errDebugger : Option GoError
  errPeerStore : Option GoError
  deriving DecidableEq

/-- A shutdown step of a component of the messenger. -/
inductive ShutdownStep where
  | host
  | connectionsWatcher
  | outgoingPLB
  | peersOnChannel
  | connMonitor
  | cancelFunc
  | debugger
  | peerstore
  | pubsub
  | directSender
  deriving DecidableEq

/-- The running state of `Close`: the variable `err` and the steps invoked so far. -/
structure CloseState where
  err : Option GoError
  steps : List ShutdownStep
  deriving DecidableEq

/-- One block of `Close` that records the component's error: the step is invoked and
`err` is overwritten when the step failed. -/
def CloseState.record (st : CloseState) (step : ShutdownStep) (e : Option GoError) :
    CloseState :=
  { err := if e.isSome then e else st.err, steps := st.steps ++ [step] }

/-- One block of `Close` that only logs the component's error, and the call of
`cancelFunc`: the step is invoked and `err` is left as it is. -/
def CloseState.invoke (st : CloseState) (step : ShutdownStep) : CloseState :=
  { st with steps := st.steps ++ [step] }

/-- The source method `networkMessenger.Close`: the returned error and the steps invoked,
in order. -/
def networkMessenger.Close (r : CloseResults) : Option GoError × List ShutdownStep :=
  let st : CloseState := ⟨none, []⟩
  let st := st.record .host r.errHost
  let st := st.record .connectionsWatcher r.errConnWatcher
  let st := st.record .outgoingPLB r.errOplb
  let st := st.invoke .peersOnChannel
  let st := st.invoke .connMonitor
  let st := st.invoke .cancelFunc
  let st := st.record .debugger r.errDebugger
  let st := st.record .peerstore r.errPeerStore
  (st.err, st.steps)

/-! ## `peersOnChannel.go` -/

/-- The struct `peersOnChannel`, over the state of its surroundings: the two maps, the
intervals, and the two handlers, which read the surroundings. A stored peer list is never
nil, it comes from `make`. -/
structure peersOnChannel (ν : Type) where
  peers : GoMap (List PeerID)
  lastUpdated : GoMap Time
  refreshInterval : Duration
  ttlInterval : Duration
  fetchPeersHandler : ν → String → List PeerID
  getTimeHandler : ν → Time

/-- The source method `updateConnectedPeersOnTopic`. -/
def peersOnChannel.updateConnectedPeersOnTopic {ν : Type} (poc : peersOnChannel ν) (env : ν)
    (topic : String) (connectedPeers : List PeerID) : peersOnChannel ν :=
  { poc with peers := poc.peers.store topic connectedPeers,
             lastUpdated := poc.lastUpdated.store topic (poc.getTimeHandler env) }

/-- The loop `for i, pid := range list` of `refreshPeersOnTopic`: the converted peers and
the `AddPeer` calls on the rating handler. -/
def convertPeers : List PeerID → List PeerID × List Event
  | [] => ([], [])
  | pid :: rest =>
    let peerID : PeerID := pid
    let r := convertPeers rest
    (peerID :: r.1, Event.AddPeer peerID :: r.2)

/-- The source method `refreshPeersOnTopic`: the returned peers, the new cache and the
collaborator calls made. -/
def peersOnChannel.refreshPeersOnTopic {ν : Type} (poc : peersOnChannel ν) (env : ν)
    (topic : String) : List PeerID × peersOnChannel ν × List Event :=
  let list := poc.fetchPeersHandler env topic
  let r := convertPeers list
  let connectedPeers := r.1
  (connectedPeers, poc.updateConnectedPeersOnTopic env topic connectedPeers,
    Event.FetchPeersOnTopic topic :: r.2)

/-- The source method `ConnectedPeersOnChannel`. -/
def peersOnChannel.ConnectedPeersOnChannel {ν : Type} (poc : peersOnChannel ν) (env : ν)
    (topic : String) : List PeerID × peersOnChannel ν × List Event :=
  match poc.peers.lookup topic with
  | some peers => (peers, poc, [])
  | none => poc.refreshPeersOnTopic env topic

/-- The source method `peersOnChannel.Close`, after its call of `cancelFunc`. -/
def peersOnChannel.Close {ν : Type} (_poc : peersOnChannel ν) : Option GoError := none

/-- A non-nil `p2p.PeersRatingHandler`; the calls the cache makes on it are the `AddPeer`
events. -/
structure PeersRatingHandler where
  id : Nat
  deriving DecidableEq

/-- The source function `newPeersOnChannel`; `none` is a nil argument and `clockTime` is
the method the constructor installs as `getTimeHandler`. -/
def newPeersOnChannel {ν : Type} (peersRatingHandler : Option PeersRatingHandler)
    (fetchPeersHandler : Option (ν → String → List PeerID))
    (refreshInterval ttlInterval : Duration) (clockTime : ν → Time) :
    Except GoError (peersOnChannel ν) :=
  match peersRatingHandler with
  | none => .error (.sentinel .ErrNilPeersRatingHandler)
  | some _ =>
    match fetchPeersHandler with
    | none => .error (.sentinel .ErrNilFetchPeersOnTopicHandler)
    | some fetch =>
      if refreshInterval = 0 then
        .error (.sentinel .ErrInvalidDurationProvided)
      else if ttlInterval = 0 then
        .error (.sentinel .ErrInvalidDurationProvided)
      else
        .ok { peers := GoMap.empty,
              lastUpdated := GoMap.empty,
              refreshInterval := refreshInterval,
              ttlInterval := ttlInterval,
              fetchPeersHandler := fetch,
              getTimeHandler := clockTime }

/-- Saturation of a mathematical integer to the `int64` range. -/
def clamp64 (x : Int) : Int :=
  if x > 2 ^ 63 - 1 then 2 ^ 63 - 1 else if x < -(2 ^ 63) then -(2 ^ 63) else x

/-- The Go method `Time.Sub` on wall-clock readings: the difference in nanoseconds,
saturated to the range of `time.Duration`. -/
def Time.Sub (t u : Time) : Duration :=
  clamp64 ((t.sec - u.sec) * 1000000000 + ((t.nsec.val : Int) - (u.nsec.val : Int)))

/-- The first loop of one pass of `refreshPeersOnAllKnownTopics`: the topics of
`lastUpdated` whose entry is older than `ttlInterval`. -/
def peersOnChannel.listTopicsToBeRefreshed {ν : Type} (poc : peersOnChannel ν) (env : ν) :
    List String :=
  poc.lastUpdated.keys.filter (fun topic =>
    match poc.lastUpdated.lookup topic with
    | some lastRefreshed =>
      decide ((poc.getTimeHandler env).Sub lastRefreshed > poc.ttlInterval)
    | none => false)

/-- The second loop of one pass of `refreshPeersOnAllKnownTopics`: every listed topic is
refreshed in turn; the collaborator calls are collected. -/
def refreshTopics {ν : Type} (env : ν) :
    List String → peersOnChannel ν → List Event → peersOnChannel ν × List Event
  | [], poc, calls => (poc, calls)
  | topic :: rest, poc, calls =>
    let r := poc.refreshPeersOnTopic env topic
    refreshTopics env rest r.2.1 (calls ++ r.2.2)

/-- One pass of the loop of the source method `refreshPeersOnAllKnownTopics`, after its
timer has fired. -/
def peersOnChannel.refreshPeersOnAllKnownTopics {ν : Type} (poc : peersOnChannel ν)
    (env : ν) : peersOnChannel ν × List Event :=
  let listTopicsToBeRefreshed := poc.listTopicsToBeRefreshed env
  refreshTopics env listTopicsToBeRefreshed poc []

/-! ## Transports and node construction of `netMessenger.go` -/

/-- The field `TCP` of `config.TransportConfig`. -/
structure TCPConfig where
  ListenAddress : String
  PreventPortReuse : Bool

/-- The struct `config.TransportConfig`. -/
structure TransportConfig where
  TCP : TCPConfig
  QUICAddress : String
  WebSocketAddress : String
  WebTransportAddress : String

/-- The libp2p transport options that `parseTransportOptions` builds. -/
inductive TransportOption where
  | tcp (disableReuseport : Bool)
  | quic
  | websocket
  | webtransport
  deriving DecidableEq

/-- The count `strings.Count(str, "%d")` of non-overlapping occurrences of the markup,
on the characters of the string. -/
def countIntMarkup : List Char → Nat
  | [] => 0
  | [_] => 0
  | c1 :: c2 :: rest =>
    if c1 = '%' ∧ c2 = 'd' then 1 + countIntMarkup rest else countIntMarkup (c2 :: rest)

/-- The source function `strictCheckStringForIntMarkup`. -/
def strictCheckStringForIntMarkup (str : String) : Bool :=
  countIntMarkup str.toList == 1

/-- The end of `parseTransportOptions`: the check that some address was collected. -/
def parseTransportOptions.finish (options : List TransportOption) (addresses : List String) :
    Except GoError (List TransportOption × List String) :=
  if addresses.length = 0 then .error (.sentinel .ErrNoTransportsDefined)
  else .ok (options, addresses)

/-- The WebTransport block of `parseTransportOptions` and what follows it. -/
def parseTransportOptions.fromWebTransport (sprintf : String → Int → String)
    (configs : TransportConfig) (port : Int) (options : List TransportOption)
    (addresses : List String) : Except GoError (List TransportOption × List String) :=
  let webTransportAddress := configs.WebTransportAddress
  if webTransportAddress.length > 0 then
    if !strictCheckStringForIntMarkup webTransportAddress then
      .error (.sentinel .ErrInvalidWebTransportAddress)
    else
      parseTransportOptions.finish (options ++ [.webtransport])
        (addresses ++ [sprintf webTransportAddress port])
  else
    parseTransportOptions.finish options addresses

/-- The WebSocket block of `parseTransportOptions` and what follows it. -/
def parseTransportOptions.fromWebSocket (sprintf : String → Int → String)
    (configs : TransportConfig) (port : Int) (options : List TransportOption)
    (addresses : List String) : Except GoError (List TransportOption × List String) :=
  let webSocketAddress := configs.WebSocketAddress
  if webSocketAddress.length > 0 then
    if !strictCheckStringForIntMarkup webSocketAddress then
      .error (.sentinel .ErrInvalidWSAddress)
    else
      parseTransportOptions.fromWebTransport sprintf configs port (options ++ [.websocket])
        (addresses ++ [sprintf webSocketAddress port])
  else
    parseTransportOptions.fromWebTransport sprintf configs port options addresses

/-- The QUIC block of `parseTransportOptions` and what follows it. -/
def parseTransportOptions.fromQUIC (sprintf : String → Int → String)
    (configs : TransportConfig) (port : Int) (options : List TransportOption)
    (addresses : List String) : Except GoError (List TransportOption × List String) :=
  let quicAddress := configs.QUICAddress
  if quicAddress.length > 0 then
    if !strictCheckStringForIntMarkup quicAddress then
      .error (.sentinel .ErrInvalidQUICAddress)
    else
      parseTransportOptions.fromWebSocket sprintf configs port (options ++ [.quic])
        (addresses ++ [sprintf quicAddress port])
  else
    parseTransportOptions.fromWebSocket sprintf configs port options addresses

/-- The source function `parseTransportOptions`; `sprintf` is `fmt.Sprintf` applied to a
template and the port. -/
def parseTransportOptions (sprintf : String → Int → String) (configs : TransportConfig)
    (port : Int) : Except GoError (List TransportOption × List String) :=
  let options : List TransportOption := []
  let addresses : List String := []
  let tcpAddress := configs.TCP.ListenAddress
  if tcpAddress.length > 0 then
    if !strictCheckStringForIntMarkup tcpAddress then
      .error (.sentinel .ErrInvalidTCPAddress)
    else
      parseTransportOptions.fromQUIC sprintf configs port
        (options ++ [.tcp configs.TCP.PreventPortReuse])
        (addresses ++ [sprintf tcpAddress port])
  else
    parseTransportOptions.fromQUIC sprintf configs port options addresses

def maxRetriesIfBindError : Nat := 10

/-- A messenger built by `constructNode`, named by the port it listens on. -/
structure Node where
  port : Nat
  deriving DecidableEq

/-- The loop of `constructNodeWithPortRetry` with `remaining` iterations to go, at
iteration `i`. `constructNode i` is the outcome of the call made in iteration `i` and
`isBindError` is the test `strings.Contains(err.Error(), msgBindError)`. The result is the
returned pair and the number of calls of `constructNode` made. -/
def constructNodeLoop (constructNode : Nat → Except GoError Node)
    (isBindError : GoError → Bool) :
    Nat → Nat → Option GoError → (Option Node × Option GoError) × Nat
  | 0, i, lastErr => ((none, lastErr), i)
  | remaining + 1, i, _ =>
    match constructNode i with
    | .ok p2pNode => ((some p2pNode, none), i + 1)
    | .error err =>
      if !isBindError err then ((none, some err), i + 1)
      else constructNodeLoop constructNode isBindError remaining (i + 1) (some err)

/-- The source function `constructNodeWithPortRetry`. -/
def constructNodeWithPortRetry (constructNode : Nat → Except GoError Node)
    (isBindError : GoError → Bool) : (Option Node × Option GoError) × Nat :=
  constructNodeLoop constructNode isBindError maxRetriesIfBindError 0 none

/-! ## Direct sending and topic creation of `netMessenger.go` -/

/-- The interface `p2p.DirectSender` as `SendToConnectedPeer` uses it: the error `Send`
returns and the sequence number `NextSequenceNumber` hands out. -/
structure DirectSender where
  Send : String → List Byte → PeerID → Option GoError
  NextSequenceNumber : List Byte

/-- The source method `sendDirectToSelf`. -/
def sendDirectToSelf {σ τ : Type} (netMes : networkMessenger σ τ) (ds : DirectSender)
    (processors : GoMap (Option (topicProcessors τ))) (topic : String) (buff : List Byte)
    (w : World σ τ) : Option GoError × World σ τ :=
  let msg : PubsubMessage :=
    { From := netMes.ID,
      Data := buff,
      Seqno := ds.NextSequenceNumber,
      Topic := topic,
      Signature := netMes.ID }
  directMessageHandler netMes processors msg netMes.ID w

/-- The source method `SendToConnectedPeer`. -/
def SendToConnectedPeer {σ τ : Type} (netMes : networkMessenger σ τ) (ds : DirectSender)
    (processors : GoMap (Option (topicProcessors τ))) (topic : String) (buff : List Byte)
    (peerID : PeerID) (w : World σ τ) : Option GoError × World σ τ :=
  match checkSendableData buff with
  | some err => (some err, w)
  | none =>
    let buffToSend := createMessageBytes netMes buff
    if buffToSend.length = 0 then
      (none, w)
    else if peerID = netMes.ID then
      sendDirectToSelf netMes ds processors topic buffToSend w
    else
      let err := ds.Send topic buffToSend peerID
      let w1 := w.emit (.DirectSend topic buffToSend peerID)
      let w2 := w1.emit (.AddOutgoingMessage topic buffToSend.length err.isSome)
      (err, w2)

/-- The pubsub and load-balancer calls of `CreateTopic` with their outcomes: `pb.Join`,
`topic.Subscribe` and `outgoingPLB.AddChannel`. A topic handle and a subscription are
named by a number. -/
structure TopicCollaborators where
  Join : String → Except GoError Nat
  Subscribe : Nat → Except GoError Nat
  AddChannel : String → Option GoError

/-- The maps `topics` and `subscriptions` of the messenger. -/
structure JoinedTopics where
  topics : GoMap Nat
  subscriptions : GoMap Nat

/-- The source method `CreateTopic`. The goroutine that drains the subscription has no
effect on the two maps, and the text `for topic <name>` that wraps an error of `Join` or
`Subscribe` leaves the error chain as it is. -/
def CreateTopic (c : TopicCollaborators) (name : String) (createChannelForTopic : Bool)
    (s : JoinedTopics) : Option GoError × JoinedTopics :=
  if name ∈ s.topics.keys then
    (none, s)
  else
    match c.Join name with
    | .error err => (some err, s)
    | .ok topic =>
      let s1 : JoinedTopics := { s with topics := s.topics.store name topic }
      match c.Subscribe topic with
      | .error err => (some err, s1)
      | .ok subscrRequest =>
        let s2 : JoinedTopics :=
          { s1 with subscriptions := s1.subscriptions.store name subscrRequest }
        let err := if createChannelForTopic then c.AddChannel name else none
        (err, s2)

/-- The source method `HasTopic`. -/
def HasTopic (s : JoinedTopics) (name : String) : Bool :=
  decide (name ∈ s.topics.keys)

/-! ## Connected-peers information of `netMessenger.go` -/

/-- The type `core.P2PPeerType`, an `int` with three named values; `other` stands for
every value without a name. -/
inductive P2PPeerType where
  | UnknownPeer
  | ValidatorPeer
  | ObserverPeer
  | other (code : Nat)
  deriving DecidableEq

/-- The type `core.P2PPeerSubType`, a `uint32` with two named values. -/
inductive P2PPeerSubType where
  | RegularPeer
  | FullHistoryObserver
  | other (code : Nat)
  deriving DecidableEq

/-- The struct `core.P2PPeerInfo`, with the fields the messenger reads. -/
structure P2PPeerInfo where
  PeerType : P2PPeerType
  PeerSubType : P2PPeerSubType
  ShardID : Nat
  deriving DecidableEq

/-- The source method `unknownPeerShardResolver.GetPeerInfo`. -/
def unknownPeerShardResolver.GetPeerInfo (_pid : PeerID) : P2PPeerInfo :=
  { PeerType := .UnknownPeer, PeerSubType := .RegularPeer, ShardID := 0 }

/-- A Go map keyed by a shard id (`map[uint32]α`): the keys present and the value under
each key. -/
structure ShardMap (α : Type) where
  keys : List Nat
  val : Nat → α

/-- The result of `make(map[uint32]α)`. -/
def ShardMap.empty {α : Type} [Inhabited α] : ShardMap α := ⟨[], fun _ => default⟩

/-- The read `m[k]`: the zero value of the element type when the key is absent. -/
def ShardMap.get {α : Type} [Inhabited α] (m : ShardMap α) (k : Nat) : α :=
  if k ∈ m.keys then m.val k else default

/-- The update `m[k] = f(m[k])`, as in `m[k] = append(m[k], x)` and `m[k]++`. -/
def ShardMap.modify {α : Type} [Inhabited α] (m : ShardMap α) (k : Nat) (f : α → α) :
    ShardMap α :=
  ⟨if k ∈ m.keys then m.keys else m.keys ++ [k], Function.update m.val k (f (m.get k))⟩

/-- The struct `p2p.ConnectedPeersInfo`. -/
structure ConnectedPeersInfo where
  SelfShardID : Nat
  UnknownPeers : List String
  Seeders : List String
  IntraShardValidators : ShardMap (List String)
  IntraShardObservers : ShardMap (List String)
  CrossShardValidators : ShardMap (List String)
  CrossShardObservers : ShardMap (List String)
  FullHistoryObservers : ShardMap (List String)
  NumValidatorsOnShard : ShardMap Nat
  NumObserversOnShard : ShardMap Nat
  NumPreferredPeersOnShard : ShardMap Nat
  NumIntraShardValidators : Nat
  NumIntraShardObservers : Nat
  NumCrossShardValidators : Nat
  NumCrossShardObservers : Nat
  NumFullHistoryObservers : Nat

/-- What `GetConnectedPeersInfo` reads from its collaborators: the peers of the host
network, the remote addresses of the connections to a peer, the text form of a peer id,
the peer shard resolver, the sharder and the preferred peers holder. -/
structure PeersInfoSource where
  Peers : List PeerID
  ConnsToPeer : PeerID → List String
  peerString : PeerID → String
  GetPeerInfo : PeerID → P2PPeerInfo
  IsSeeder : PeerID → Bool
  Contains : PeerID → Bool

/-- The connection string `GetConnectedPeersInfo` builds for a peer. -/
def PeersInfoSource.connString (src : PeersInfoSource) (p : PeerID) : String :=
  match src.ConnsToPeer p with
  | [] => "[invalid connection string]"
  | conn :: _ => conn ++ "/p2p/" ++ src.peerString p

/-- The `switch` on the peer type in the loop of `GetConnectedPeersInfo`. -/
def GetConnectedPeersInfo.switchPeerType (src : PeersInfoSource) (selfShardID : Nat)
    (connPeerInfo : ConnectedPeersInfo) (p : PeerID) : ConnectedPeersInfo :=
  let connString := src.connString p
  let pid : PeerID := p
  let peerInfo := src.GetPeerInfo pid
  match peerInfo.PeerType with
  | .UnknownPeer =>
    if src.IsSeeder pid then
      { connPeerInfo with Seeders := connPeerInfo.Seeders ++ [connString] }
    else
      { connPeerInfo with UnknownPeers := connPeerInfo.UnknownPeers ++ [connString] }
  | .ValidatorPeer =>
    let info1 : ConnectedPeersInfo :=
      { connPeerInfo with
        NumValidatorsOnShard :=
          connPeerInfo.NumValidatorsOnShard.modify peerInfo.ShardID (fun n => n + 1) }
    if selfShardID ≠ peerInfo.ShardID then
      { info1 with
        CrossShardValidators :=
          info1.CrossShardValidators.modify peerInfo.ShardID (fun l => l ++ [connString]),
        NumCrossShardValidators := info1.NumCrossShardValidators + 1 }
    else
      { info1 with
        IntraShardValidators :=
          info1.IntraShardValidators.modify peerInfo.ShardID (fun l => l ++ [connString]),
        NumIntraShardValidators := info1.NumIntraShardValidators + 1 }
  | .ObserverPeer =>
    let info1 : ConnectedPeersInfo :=
      { connPeerInfo with
        NumObserversOnShard :=
          connPeerInfo.NumObserversOnShard.modify peerInfo.ShardID (fun n => n + 1) }
    if peerInfo.PeerSubType = .FullHistoryObserver then
      { info1 with
        FullHistoryObservers :=
          info1.FullHistoryObservers.modify peerInfo.ShardID (fun l => l ++ [connString]),
        NumFullHistoryObservers := info1.NumFullHistoryObservers + 1 }
    else if selfShardID ≠ peerInfo.ShardID then
      { info1 with
        CrossShardObservers :=
          info1.CrossShardObservers.modify peerInfo.ShardID (fun l => l ++ [connString]),
        NumCrossShardObservers := info1.NumCrossShardObservers + 1 }
    else
      { info1 with
        IntraShardObservers :=
          info1.IntraShardObservers.modify peerInfo.ShardID (fun l => l ++ [connString]),
        NumIntraShardObservers := info1.NumIntraShardObservers + 1 }
  | .other _ => connPeerInfo

/-- The body of the loop `for _, p := range peers` of `GetConnectedPeersInfo`. -/
def GetConnectedPeersInfo.step (src : PeersInfoSource) (selfShardID : Nat)
    (connPeerInfo : ConnectedPeersInfo) (p : PeerID) : ConnectedPeersInfo :=
  let info1 := GetConnectedPeersInfo.switchPeerType src selfShardID connPeerInfo p
  if src.Contains p then
    { info1 with
      NumPreferredPeersOnShard :=
        info1.NumPreferredPeersOnShard.modify (src.GetPeerInfo p).ShardID (fun n => n + 1) }
  else
    info1

/-- The struct `GetConnectedPeersInfo` starts from, once `SelfShardID` is set. -/
def GetConnectedPeersInfo.init (selfShardID : Nat) : ConnectedPeersInfo :=
  { SelfShardID := selfShardID,
    UnknownPeers := [],
    Seeders := [],
    IntraShardValidators := ShardMap.empty,
    IntraShardObservers := ShardMap.empty,
    CrossShardValidators := ShardMap.empty,
    CrossShardObservers := ShardMap.empty,
    FullHistoryObservers := ShardMap.empty,
    NumValidatorsOnShard := ShardMap.empty,
    NumObserversOnShard := ShardMap.empty,
    NumPreferredPeersOnShard := ShardMap.empty,
    NumIntraShardValidators := 0,
    NumIntraShardObservers := 0,
    NumCrossShardValidators := 0,
    NumCrossShardObservers := 0,
    NumFullHistoryObservers := 0 }

/-- The source method `GetConnectedPeersInfo`, for the messenger whose own id is `self`. -/
def GetConnectedPeersInfo (src : PeersInfoSource) (self : PeerID) : ConnectedPeersInfo :=
  let peers := src.Peers
  let selfPeerInfo := src.GetPeerInfo self
  peers.foldl (GetConnectedPeersInfo.step src selfPeerInfo.ShardID)
    (GetConnectedPeersInfo.init selfPeerInfo.ShardID)

/-- The validator registry of go-libp2p-pubsub, as a list of the topics that have a
validator: registering a second validator for a topic fails, and so does unregistering
the validator of a topic that has none. -/
def gossipSub : PubSub (List String) where
  RegisterTopicValidator := fun validators topic =>
    if topic ∈ validators then (validators, some (.collaborator 10))
    else (validators ++ [topic], none)
  UnregisterTopicValidator := fun validators topic =>
    if topic ∈ validators then (validators.erase topic, none)
    else (validators, some (.collaborator 11))

/-! ## Observations used to state the properties -/

/-- The errors the handlers return when they are called one after the other on
`(msg, fromConnectedPeer)`, each on the application state its predecessor left. -/
def handlerOutcomes {τ : Type} (msg : Message) (fromConnectedPeer : PeerID) :
    τ → List (MessageProcessor τ) → List (Option GoError)
  | _, [] => []
  | app, handler :: rest =>
    (handler.ProcessReceivedMessage app msg fromConnectedPeer).2 ::
      handlerOutcomes msg fromConnectedPeer
        (handler.ProcessReceivedMessage app msg fromConnectedPeer).1 rest

/-- The debug record `processDebugMessage` emits: outgoing when the delivering peer is
the messenger itself, incoming otherwise. -/
def debugRecord (self : PeerID) (topic : String) (fromConnectedPeer : PeerID) (size : Nat)
    (isRejected : Bool) : Event :=
  if fromConnectedPeer = self then .AddOutgoingMessage topic size isRejected
  else .AddIncomingMessage topic size isRejected

/-- The close results in shutdown order: host, connections watcher, outgoing load
balancer, peers-on-channel cache, connection monitor, debugger, peerstore. -/
def CloseResults.inOrder (r : CloseResults) : List (Option GoError) :=
  [r.errHost, r.errConnWatcher, r.errOplb, r.errPoc, r.errConnMonitor, r.errDebugger,
    r.errPeerStore]

/-- The first non-nil error of a list of results, nil when there is none. -/
def firstNonNil : List (Option GoError) → Option GoError
  | [] => none
  | some e :: _ => some e
  | none :: rest => firstNonNil rest

/-- The last non-nil error of a list of results, nil when there is none. -/
def lastNonNil : List (Option GoError) → Option GoError
  | [] => none
  | e :: rest =>
    match lastNonNil rest with
    | some later => some later
    | none => e

/-- The seven buckets of the connected-peers information. -/
inductive Bucket where
  | unknown
  | seeder
  | intraShardValidator
  | crossShardValidator
  | intraShardObserver
  | crossShardObserver
  | fullHistoryObserver
  deriving DecidableEq

/-- Whether a peer type is one of the three named values `UnknownPeer`, `ValidatorPeer`
and `ObserverPeer`. -/
def P2PPeerType.named : P2PPeerType → Bool
  | .UnknownPeer => true
  | .ValidatorPeer => true
  | .ObserverPeer => true
  | .other _ => false

/-- The bucket of a connected peer as the specification words it: an unknown peer is a
seeder if the sharder says so and unknown otherwise; a validator is intra-shard if its
shard is the own shard and cross-shard otherwise; an observer of the full-history subtype
is a full-history observer whatever its shard, any other observer is intra- or
cross-shard by its shard. A peer of an unnamed type has no bucket. -/
def bucketOf (src : PeersInfoSource) (selfShardID : Nat) (p : PeerID) : Option Bucket :=
  match (src.GetPeerInfo p).PeerType with
  | .UnknownPeer => if src.IsSeeder p then some .seeder else some .unknown
  | .ValidatorPeer =>
    if (src.GetPeerInfo p).ShardID = selfShardID then some .intraShardValidator
    else some .crossShardValidator
  | .ObserverPeer =>
    if (src.GetPeerInfo p).PeerSubType = .FullHistoryObserver then some .fullHistoryObserver
    else if (src.GetPeerInfo p).ShardID = selfShardID then some .intraShardObserver
    else some .crossShardObserver
  | .other _ => none

/-- The connection strings of the peers of a list that fall in bucket `b` on shard
`shard`, in the order of the list. -/
def inBucketOnShard (src : PeersInfoSource) (selfShardID : Nat) (b : Bucket) (shard : Nat)
    (peers : List PeerID) : List String :=
  (peers.filter (fun p =>
    decide (bucketOf src selfShardID p = some b ∧ (src.GetPeerInfo p).ShardID = shard))).map
    src.connString

/-- The connection strings of the peers of a list that fall in bucket `b`. -/
def inBucket (src : PeersInfoSource) (selfShardID : Nat) (b : Bucket)
    (peers : List PeerID) : List String :=
  (peers.filter (fun p => decide (bucketOf src selfShardID p = some b))).map src.connString

/-- The total length of the lists held in a map of connection strings. -/
def ShardMap.total (m : ShardMap (List String)) : Nat :=
  (m.keys.map (fun k => (m.get k).length)).sum

/-- Agreement of the counters of a connected-peers information with its lists, for the
own shard `selfShardID` and `n` peers put in buckets so far: the keys of each map are
distinct, each of the five counters is the total length of the map of the same name, the
per-shard counters are the sums of the per-shard list lengths, the intra-shard maps have
no key but the own shard, and the seven buckets hold `n` entries together. -/
structure ConnectedPeersInfo.Agrees (info : ConnectedPeersInfo) (selfShardID n : Nat) :
    Prop where
  nodupIV : info.IntraShardValidators.keys.Nodup
  nodupIO : info.IntraShardObservers.keys.Nodup
  nodupCV : info.CrossShardValidators.keys.Nodup
  nodupCO : info.CrossShardObservers.keys.Nodup
  nodupFH : info.FullHistoryObservers.keys.Nodup
  numIV : info.NumIntraShardValidators = info.IntraShardValidators.total
  numIO : info.NumIntraShardObservers = info.IntraShardObservers.total
  numCV : info.NumCrossShardValidators = info.CrossShardValidators.total
  numCO : info.NumCrossShardObservers = info.CrossShardObservers.total
  numFH : info.NumFullHistoryObservers = info.FullHistoryObservers.total
  validatorsOnShard : ∀ s, info.NumValidatorsOnShard.get s
    = (info.IntraShardValidators.get s).length + (info.CrossShardValidators.get s).length
  observersOnShard : ∀ s, info.NumObserversOnShard.get s
    = (info.IntraShardObservers.get s).length + (info.CrossShardObservers.get s).length
      + (info.FullHistoryObservers.get s).length
  keysIV : ∀ k ∈ info.IntraShardValidators.keys, k = selfShardID
  keysIO : ∀ k ∈ info.IntraShardObservers.keys, k = selfShardID
  buckets : info.UnknownPeers.length + info.Seeders.length
    + info.IntraShardValidators.total + info.CrossShardValidators.total
    + info.IntraShardObservers.total + info.CrossShardObservers.total
    + info.FullHistoryObservers.total = n

/-- The buckets of `result` are those of `start` followed by the connection strings of
the peers of `peers`, each in the bucket (and, for the five maps, under the shard) that
`bucketOf` gives it, in the order of `peers`. -/
structure ConnectedPeersInfo.Collects (start result : ConnectedPeersInfo)
    (src : PeersInfoSource) (selfShardID : Nat) (peers : List PeerID) : Prop where
  unknown : result.UnknownPeers
    = start.UnknownPeers ++ inBucket src selfShardID .unknown peers
  seeders : result.Seeders = start.Seeders ++ inBucket src selfShardID .seeder peers
  intraV : ∀ s, result.IntraShardValidators.get s
    = start.IntraShardValidators.get s
      ++ inBucketOnShard src selfShardID .intraShardValidator s peers
  crossV : ∀ s, result.CrossShardValidators.get s
    = start.CrossShardValidators.get s
      ++ inBucketOnShard src selfShardID .crossShardValidator s peers
  intraO : ∀ s, result.IntraShardObservers.get s
    = start.IntraShardObservers.get s
      ++ inBucketOnShard src selfShardID .intraShardObserver s peers
  crossO : ∀ s, result.CrossShardObservers.get s
    = start.CrossShardObservers.get s
      ++ inBucketOnShard src selfShardID .crossShardObserver s peers
  fullHistory : ∀ s, result.FullHistoryObservers.get s
    = start.FullHistoryObservers.get s
      ++ inBucketOnShard src selfShardID .fullHistoryObserver s peers

/-! ## Concrete collaborators for the worked examples -/

/-- A denial evaluator that keeps every upserted peer, with its ban duration, in a list
and denies exactly the listed peers. -/
def listEvaluator : PeerDenialEvaluator (List (PeerID × Duration)) where
  IsDenied := fun s pid => s.any (fun entry => decide (entry.1 = pid))
  UpsertPeerID := fun s pid banDuration => ((pid, banDuration) :: s, none)

/-- Big-endian value of a byte string. -/
def beValue (bs : List Byte) : Nat :=
  bs.foldl (fun acc b => acc * 256 + b.val) 0

/-- The `width` low-order bytes of `n`, most significant first. -/
def beBytes : Nat → Nat → List Byte
  | 0, _ => []
  | width + 1, n => beBytes width (n / 256) ++ [Fin.ofNat (n % 256)]

/-- A fixed-layout marshaller: one version byte, eight big-endian timestamp bytes, then
the payload. It refuses envelopes that do not fit the layout and inputs shorter than
nine bytes. -/
def fixedMarshalizer : Marshalizer where
  Marshal := fun m =>
    if m.Version < 256 ∧ 0 ≤ m.Timestamp ∧ m.Timestamp < 2 ^ 63 then
      .ok (Fin.ofNat m.Version :: (beBytes 8 m.Timestamp.toNat ++ m.Payload))
    else
      .error (.collaborator 1)
  Unmarshal := fun data =>
    match data with
    | [] => .error (.collaborator 2)
    | version :: rest =>
      if rest.length < 8 then
        .error (.collaborator 2)
      else
        .ok { Version := version.val,
              Payload := rest.drop 8,
              Timestamp := (beValue (rest.take 8) : Int) }

/-- A marshaller that is total and exactly invertible: the envelope is numbered by the
standard encoding of its three fields and written as that many zero bytes. -/
def unaryMarshalizer : Marshalizer where
  Marshal := fun m =>
    .ok (List.replicate (Encodable.encode (m.Version, m.Payload, m.Timestamp)) 0)
  Unmarshal := fun data =>
    match (Encodable.decode data.length : Option (Nat × List Byte × Int)) with
    | some (version, payload, timestamp) =>
      .ok { Version := version, Payload := payload, Timestamp := timestamp }
    | none => .error (.collaborator 2)

/-- Modelled from the spec: the envelope decoder `NewMessage`, whose source file is not
among the modelled ones. It unmarshals the envelope carried in the data of the raw
pubsub message and fails with the marshaller's error when that fails. -/
def NewMessage (pbMsg : PubsubMessage) (marshalizer : Marshalizer) : Except GoError Message :=
  match marshalizer.Unmarshal pbMsg.Data with
  | .error err => .error err
  | .ok topicMessage =>
    .ok { From := pbMsg.From,
          Data := topicMessage.Payload,
          SeqNo := pbMsg.Seqno,
          Topic := pbMsg.Topic,
          Timestamp := topicMessage.Timestamp,
          Peer := pbMsg.From }

/-- A messenger with identity `0x01`, the list-backed denial evaluator, the fixed-layout
marshaller, a ban of 7200 s and the sync clock stopped at `now`. -/
def demoMessenger (now : Time) : networkMessenger (List (PeerID × Duration)) Nat where
  ID := [1]
  marshalizer := fixedMarshalizer
  syncTimer := ⟨now⟩
  connMonitorWrapper := { network := ⟨[]⟩, peerDenialEvaluator := listEvaluator }
  NewMessage := NewMessage
  UnmarshalSecp256k1PrivateKey := fun skBytes =>
    if skBytes.length = 32 then .ok skBytes else .error (.collaborator 3)
  currentTopicMessageVersion := 1
  WrongP2PMessageBlacklistDuration := 7200 * Second

/-- A world with nothing denied, no message handled yet, an idle throttler of capacity
1000 and an empty log. -/
def demoWorld : World (List (PeerID × Duration)) Nat where
  denial := []
  app := 0
  throttler := ⟨1000, 0⟩
  log := []

/-- The demo world with all 1000 throttler slots taken. -/
def saturatedWorld : World (List (PeerID × Duration)) Nat :=
  { demoWorld with throttler := ⟨1000, 1000⟩ }

/-- The demo messenger with the total, exactly invertible marshaller. -/
def unaryMessenger (now : Time) : networkMessenger (List (PeerID × Duration)) Nat :=
  { demoMessenger now with marshalizer := unaryMarshalizer }

/-- A connection-monitor wrapper over a host connected to peers `0x02`, `0x03`, `0x04`
and `0x05`, with the list-backed denial evaluator. -/
def demoWrapper : connectionMonitorWrapper (List (PeerID × Duration)) where
  network := ⟨[[2], [3], [4], [5]]⟩
  peerDenialEvaluator := listEvaluator

/-- The demo world in which peers `0x03` and `0x05` are denied. -/
def deniedWorld : World (List (PeerID × Duration)) Nat :=
  { demoWorld with denial := [([3], 7200 * Second), ([5], 7200 * Second)] }

/-- A raw pubsub message of topic `t` from originator `origin` carrying `data`. -/
def demoRaw (origin : PeerID) (data : List Byte) : PubsubMessage where
  From := origin
  Data := data
  Seqno := [0]
  Topic := "t"
  Signature := []

/-- A message processor that counts the messages it has seen in the application state
and fails, with a collaborator error, exactly when `fails` is set. -/
def countingProcessor (fails : Bool) : MessageProcessor Nat where
  ProcessReceivedMessage := fun seen _ _ =>
    (seen + 1, if fails then some (.collaborator 7) else none)

/-- The fixed-layout envelope with version 1, timestamp 1_700_000_000 and payload `0x00`. -/
def envelope1700000000 : List Byte := [1, 0, 0, 0, 0, 101, 83, 241, 0, 0]

/-- A pubsub whose context is cancelled: every request returns the context's error and
changes nothing. -/
def cancelledPubSub : PubSub (List String) where
  RegisterTopicValidator := fun validators _ => (validators, some (.collaborator 12))
  UnregisterTopicValidator := fun validators _ => (validators, some (.collaborator 12))

/-- The registry of a messenger on which nothing is registered yet. -/
def emptyTopics : TopicsState Nat (List String) where
  processors := GoMap.empty
  pb := []

/-- The registry after `Register(t, a)` and `Unregister(t, a)` on the empty registry. -/
def registeredThenUnregistered : TopicsState Nat (List String) :=
  (UnregisterMessageProcessor gossipSub "t" "a"
    (RegisterMessageProcessor gossipSub "t" "a" (some (countingProcessor false))
      emptyTopics).2).2

/-- The registry after `Register(t, a)`, `Register(u, b)` and `Unregister(t, a)` on the
empty registry. -/
def twoTopicsOneUnregistered : TopicsState Nat (List String) :=
  (UnregisterMessageProcessor gossipSub "t" "a"
    (RegisterMessageProcessor gossipSub "u" "b" (some (countingProcessor false))
      (RegisterMessageProcessor gossipSub "t" "a" (some (countingProcessor false))
        emptyTopics).2).2).2

/-- Close results in which nothing fails. -/
def allClosed : CloseResults := ⟨none, none, none, none, none, none, none⟩

/-- A peers-on-channel cache with no entry, a refresh interval of 3 s and a time to live
of 10 s, whose surroundings are the pair of the peers pubsub lists on every topic and the
current time. -/
def demoPoc : peersOnChannel (List PeerID × Time) where
  peers := GoMap.empty
  lastUpdated := GoMap.empty
  refreshInterval := 3 * Second
  ttlInterval := 10 * Second
  fetchPeersHandler := fun env _ => env.1
  getTimeHandler := fun env => env.2

/-- A stand-in for `fmt.Sprintf(template, port)` on a template with `%d` markups: every
markup is replaced by the decimal port. -/
def sprintfPort (template : String) (port : Int) : String :=
  String.intercalate (toString port) (template.splitOn "%d")

/-- Pubsub and load balancer in which `topic.Subscribe` fails. -/
def subscribeFails : TopicCollaborators where
  Join := fun _ => .ok 1
  Subscribe := fun _ => .error (.collaborator 20)
  AddChannel := fun _ => none

/-- Pubsub and load balancer in which `AddChannel` fails. -/
def addChannelFails : TopicCollaborators where
  Join := fun _ => .ok 1
  Subscribe := fun _ => .ok 2
  AddChannel := fun _ => some (.collaborator 21)

/-- Pubsub and load balancer in which every call succeeds. -/
def topicsWork : TopicCollaborators where
  Join := fun _ => .ok 3
  Subscribe := fun _ => .ok 4
  AddChannel := fun _ => none

/-- A messenger that has joined no topic. -/
def noTopics : JoinedTopics := ⟨GoMap.empty, GoMap.empty⟩

/-- A direct sender whose `Send` always succeeds. -/
def demoDirectSender : DirectSender where
  Send := fun _ _ _ => none
  NextSequenceNumber := [0, 0, 0, 1]

/-- A processors map with one succeeding handler `a` on topic `t`. -/
def demoProcessors : GoMap (Option (topicProcessors Nat)) :=
  GoMap.empty.store "t" (some ⟨(["a"], [countingProcessor false])⟩)

/-- The cache after `t` was fetched at time 100 and `u` at time 105, pubsub listing the
peers `0x02` and `0x03` both times. -/
def agedPoc : peersOnChannel (List PeerID × Time) :=
  ((demoPoc.ConnectedPeersOnChannel ([[2], [3]], ⟨100, 0⟩) "t").2.1.ConnectedPeersOnChannel
    ([[2], [3]], ⟨105, 0⟩) "u").2.1

/-- A host in shard 0 (own id `0x01`, a validator) connected to six peers: `0x02` an
unknown peer that is a seeder, `0x03` an unknown peer, `0x04` a validator of shard 0,
`0x05` a validator of shard 1, `0x06` a full-history observer of shard 0 and `0x07` an
observer of shard 1. Only `0x04` has no open connection; `0x05` is a preferred peer. -/
def demoPeers : PeersInfoSource :=
  { Peers := [[2], [3], [4], [5], [6], [7]],
    ConnsToPeer := fun p => if p = [4] then [] else ["/ip4/10.0.0.9/tcp/21"],
    peerString := fun p =>
      if p = [2] then "two" else if p = [3] then "three" else if p = [5] then "five"
      else if p = [6] then "six" else "seven",
    GetPeerInfo := fun p =>
      if p = [2] ∨ p = [3] then unknownPeerShardResolver.GetPeerInfo p
      else if p = [5] then ⟨.ValidatorPeer, .RegularPeer, 1⟩
      else if p = [6] then ⟨.ObserverPeer, .FullHistoryObserver, 0⟩
      else if p = [7] then ⟨.ObserverPeer, .RegularPeer, 1⟩
      else ⟨.ValidatorPeer, .RegularPeer, 0⟩,
    IsSeeder := fun p => decide (p = [2]),
    Contains := fun p => decide (p = [5]) }

/-- A host connected to the single peer `0x02`, for which the resolver answers with the
peer type value 7, which has no name. -/
def unnamedTypePeers : PeersInfoSource :=
  { Peers := [[2]],
    ConnsToPeer := fun _ => ["/ip4/10.0.0.9/tcp/21"],
    peerString := fun _ => "two",
    GetPeerInfo := fun p =>
      if p = [2] then ⟨.other 7, .RegularPeer, 0⟩ else ⟨.ValidatorPeer, .RegularPeer, 0⟩,
    IsSeeder := fun _ => false,
    Contains := fun _ => false }

/-! ## Auxiliary facts -/

theorem Time.Unix_Add_acceptMessagesInAdvance (now : Time) :
    (now.Add acceptMessagesInAdvanceDuration).Unix = now.Unix + 20 := by
  have h := now.nsec.isLt
  simp only [Time.Add, Time.Unix, acceptMessagesInAdvanceDuration, Second]
  omega

theorem pubsubTimeCacheDuration_Seconds : pubsubTimeCacheDuration.Seconds = 600 := by
  decide

theorem wrap64_of_inRange (x : Int) (hlo : -(2 : Int) ^ 63 ≤ x) (hhi : x < 2 ^ 63) :
    wrap64 x = x := by
  unfold wrap64
  norm_num at hlo hhi ⊢
  omega

theorem maxSendBuffSize_eq : maxSendBuffSize = 2031616 := by decide

/-- The freshness check in closed form, for a clock inside the `int64` range where
neither the addition of 20 s nor the subtraction of 600 s leaves the range. -/
theorem validMessageByTimestamp_eq (now : Time) (timestamp : Int)
    (hlo : -(2 : Int) ^ 63 + 600 ≤ now.Unix) (hhi : now.Unix + 20 < 2 ^ 63) :
    validMessageByTimestamp now timestamp =
      if now.Unix + 20 < timestamp then
        some (.wrapped .ErrMessageTooNew [now.Unix, timestamp])
      else if timestamp < now.Unix - 600 then
        some (.wrapped .ErrMessageTooOld [now.Unix, timestamp])
      else none := by
  have hw : wrap64 (now.Unix - 600) = now.Unix - 600 :=
    wrap64_of_inRange _ (by norm_num at hlo hhi ⊢; omega) (by norm_num at hlo hhi ⊢; omega)
  simp only [validMessageByTimestamp, Time.Unix_Add_acceptMessagesInAdvance,
    pubsubTimeCacheDuration_Seconds, hw]
  by_cases h1 : now.Unix + 20 < timestamp
  · simp [h1]
  · simp [h1]

/-! ## Envelope freshness (C1, C2) -/

/-- C1: for a sync clock reading `now` inside the `int64` working range and a message
timestamp `ts` in seconds, `validMessageByTimestamp` fails with an error wrapping
`ErrMessageTooNew` when `ts > now + 20`, with an error wrapping `ErrMessageTooOld` when
`ts < now - 600`, and returns no error otherwise. -/
theorem validMessageByTimestamp_cases (now : Time) (ts : Int)
    (hlo : -(2 : Int) ^ 63 + 600 ≤ now.Unix) (hhi : now.Unix + 20 < 2 ^ 63) :
    (now.Unix + 20 < ts →
      validMessageByTimestamp now ts = some (.wrapped .ErrMessageTooNew [now.Unix, ts])) ∧
    (ts < now.Unix - 600 →
      validMessageByTimestamp now ts = some (.wrapped .ErrMessageTooOld [now.Unix, ts])) ∧
    (now.Unix - 600 ≤ ts → ts ≤ now.Unix + 20 → validMessageByTimestamp now ts = none) := by
  rw [validMessageByTimestamp_eq now ts hlo hhi]
  refine ⟨fun h => ?_, fun h => ?_, fun h1 h2 => ?_⟩
  · simp [h]
  · have h1 : ¬ now.Unix + 20 < ts := by omega
    simp [h, h1]
  · have h3 : ¬ now.Unix + 20 < ts := by omega
    have h4 : ¬ ts < now.Unix - 600 := by omega
    simp [h3, h4]

/-- C1, worked scenarios: clock 1_700_000_601 with timestamp 1_700_000_000 is too old,
clock 1_700_000_000 with timestamp 1_700_000_030 is too new. -/
theorem validMessageByTimestamp_cases_witness :
    validMessageByTimestamp ⟨1700000601, 0⟩ 1700000000
        = some (.wrapped .ErrMessageTooOld [1700000601, 1700000000]) ∧
    validMessageByTimestamp ⟨1700000000, 0⟩ 1700000030
        = some (.wrapped .ErrMessageTooNew [1700000000, 1700000030]) :=
  ⟨(validMessageByTimestamp_cases ⟨1700000601, 0⟩ 1700000000 (by decide) (by decide)).2.1
      (by decide),
   (validMessageByTimestamp_cases ⟨1700000000, 0⟩ 1700000030 (by decide) (by decide)).1
      (by decide)⟩

/-- C7: `checkSendableData` returns nil iff `0 < len(buf) ≤ 2_031_616` (2 MiB - 64 KiB),
`ErrEmptyBufferToSend` iff `len(buf) = 0`, and an error wrapping `ErrMessageTooLarge`
iff `len(buf) > 2_031_616`. -/
theorem checkSendableData_spec (buff : List Byte) :
    maxSendBuffSize = 2 * 1024 * 1024 - 64 * 1024 ∧
    (checkSendableData buff = none ↔ 0 < buff.length ∧ buff.length ≤ 2031616) ∧
    (checkSendableData buff = some (.sentinel .ErrEmptyBufferToSend) ↔ buff.length = 0) ∧
    ((∃ e, checkSendableData buff = some e ∧ e.Is .ErrMessageTooLarge = true)
      ↔ buff.length > 2031616) := by
  refine ⟨by decide, ?_, ?_, ?_⟩
  · unfold checkSendableData
    rw [maxSendBuffSize_eq]
    by_cases h1 : buff.length > 2031616
    · simp [h1]
    · by_cases h2 : buff.length = 0
      · simp [h2]
      · simp [h1, h2]; omega
  · unfold checkSendableData
    rw [maxSendBuffSize_eq]
    by_cases h1 : buff.length > 2031616
    · have h2 : buff.length ≠ 0 := by omega
      simp [h1, h2]
    · by_cases h2 : buff.length = 0
      · simp [h2]
      · simp [h1, h2]
  · unfold checkSendableData
    rw [maxSendBuffSize_eq]
    by_cases h1 : buff.length > 2031616
    · simp [h1, GoError.Is]
    · by_cases h2 : buff.length = 0
      · simp [h2, GoError.Is]
      · simp [h1, h2]

/-! ## Denial on envelope failure (C3, C4) -/

theorem blacklistPid_log {σ τ : Type} (netMes : networkMessenger σ τ) (pid : PeerID)
    (d : Duration) (w : World σ τ) :
    (blacklistPid netMes pid d w).log = w.log ++
      (if netMes.connMonitorWrapper.PeerDenialEvaluator.IsDenied w.denial pid = true
          ∨ pid.length = 0 then []
       else [Event.UpsertPeerID pid d]) := by
  unfold blacklistPid
  by_cases h1 : netMes.connMonitorWrapper.PeerDenialEvaluator.IsDenied w.denial pid = true
  · simp [h1]
  · by_cases h2 : pid.length = 0
    · simp [h1, h2]
    · simp [h1, h2]

theorem blacklistPid_denied {σ τ : Type} (netMes : networkMessenger σ τ) (pid : PeerID)
    (d : Duration) (w : World σ τ)
    (hUp : ∀ s p t, netMes.connMonitorWrapper.PeerDenialEvaluator.IsDenied
      (netMes.connMonitorWrapper.PeerDenialEvaluator.UpsertPeerID s p t).1 p = true)
    (hne : pid ≠ []) :
    netMes.connMonitorWrapper.PeerDenialEvaluator.IsDenied
      (blacklistPid netMes pid d w).denial pid = true := by
  unfold blacklistPid
  by_cases h1 : netMes.connMonitorWrapper.PeerDenialEvaluator.IsDenied w.denial pid = true
  · simp [h1]
  · have h2 : pid.length ≠ 0 := by
      intro h
      exact hne (List.length_eq_zero.mp h)
    simp only [h1, h2, if_false, Bool.false_eq_true]
    exact hUp _ _ _

theorem blacklistPid_keeps_denied {σ τ : Type} (netMes : networkMessenger σ τ)
    (pid q : PeerID) (d : Duration) (w : World σ τ)
    (hKeep : ∀ s p t r, netMes.connMonitorWrapper.PeerDenialEvaluator.IsDenied s r = true →
      netMes.connMonitorWrapper.PeerDenialEvaluator.IsDenied
        (netMes.connMonitorWrapper.PeerDenialEvaluator.UpsertPeerID s p t).1 r = true)
    (hq : netMes.connMonitorWrapper.PeerDenialEvaluator.IsDenied w.denial q = true) :
    netMes.connMonitorWrapper.PeerDenialEvaluator.IsDenied
      (blacklistPid netMes pid d w).denial q = true := by
  unfold blacklistPid
  by_cases h1 : netMes.connMonitorWrapper.PeerDenialEvaluator.IsDenied w.denial pid = true
  · simpa [h1] using hq
  · by_cases h2 : pid.length = 0
    · simpa [h1, h2] using hq
    · simp only [h1, h2, if_false, Bool.false_eq_true]
      exact hKeep _ _ _ _ hq

/-- C3, counterexample: a corrupt envelope `0xFF 0xFF 0xFF` with an empty originator and
delivering peer `0x02` makes `transformAndCheckMessage` return the unmarshalling error
with a single `UpsertPeerID`, for the delivering peer; none is made for the originator,
which is not denied afterwards. -/
theorem transformAndCheckMessage_empty_originator_not_denied :
    (transformAndCheckMessage (demoMessenger ⟨1700000000, 0⟩)
        (demoRaw [] [255, 255, 255]) [2] "t" demoWorld).1 = .error (.collaborator 2) ∧
    (transformAndCheckMessage (demoMessenger ⟨1700000000, 0⟩)
        (demoRaw [] [255, 255, 255]) [2] "t" demoWorld).2.log
      = [Event.UpsertPeerID [2] 7200000000000] ∧
    listEvaluator.IsDenied
      (transformAndCheckMessage (demoMessenger ⟨1700000000, 0⟩)
        (demoRaw [] [255, 255, 255]) [2] "t" demoWorld).2.denial [] = false :=
  ⟨by rfl, by decide, by decide⟩

/-- C3 (amended): when the envelope fails to unmarshal, `transformAndCheckMessage` returns
the unmarshalling error and calls `UpsertPeerID` with `WrongP2PMessageBlacklistDuration`
first for the delivering peer and then for the originator, each only if it is non-empty
and not denied at that moment; with an evaluator in which an upserted peer is denied and
a denied peer stays denied, every non-empty one of the two is denied afterwards. -/
theorem transformAndCheckMessage_unmarshal_failure {σ τ : Type}
    (netMes : networkMessenger σ τ) (pbMsg : PubsubMessage) (pid : PeerID) (topic : String)
    (w : World σ τ) (errUnmarshal : GoError)
    (hfail : netMes.NewMessage pbMsg netMes.marshalizer = .error errUnmarshal) :
    (transformAndCheckMessage netMes pbMsg pid topic w).1 = .error errUnmarshal ∧
    (transformAndCheckMessage netMes pbMsg pid topic w).2.log = w.log ++
      (if netMes.connMonitorWrapper.PeerDenialEvaluator.IsDenied w.denial pid = true
          ∨ pid.length = 0 then []
       else [Event.UpsertPeerID pid netMes.WrongP2PMessageBlacklistDuration]) ++
      (if netMes.connMonitorWrapper.PeerDenialEvaluator.IsDenied
            (blacklistPid netMes pid netMes.WrongP2PMessageBlacklistDuration w).denial
            pbMsg.From = true
          ∨ pbMsg.From.length = 0 then []
       else [Event.UpsertPeerID pbMsg.From netMes.WrongP2PMessageBlacklistDuration]) ∧
    ((∀ s p t, netMes.connMonitorWrapper.PeerDenialEvaluator.IsDenied
        (netMes.connMonitorWrapper.PeerDenialEvaluator.UpsertPeerID s p t).1 p = true) →
     (∀ s p t r, netMes.connMonitorWrapper.PeerDenialEvaluator.IsDenied s r = true →
        netMes.connMonitorWrapper.PeerDenialEvaluator.IsDenied
          (netMes.connMonitorWrapper.PeerDenialEvaluator.UpsertPeerID s p t).1 r = true) →
     (pid ≠ [] → netMes.connMonitorWrapper.PeerDenialEvaluator.IsDenied
        (transformAndCheckMessage netMes pbMsg pid topic w).2.denial pid = true) ∧
     (pbMsg.From ≠ [] → netMes.connMonitorWrapper.PeerDenialEvaluator.IsDenied
        (transformAndCheckMessage netMes pbMsg pid topic w).2.denial pbMsg.From = true)) := by
  have hres : transformAndCheckMessage netMes pbMsg pid topic w =
      (.error errUnmarshal,
        blacklistPid netMes pbMsg.From netMes.WrongP2PMessageBlacklistDuration
          (blacklistPid netMes pid netMes.WrongP2PMessageBlacklistDuration w)) := by
    unfold transformAndCheckMessage
    simp [hfail]
  rw [hres]
  refine ⟨rfl, ?_, fun hUp hKeep => ⟨fun hp => ?_, fun hf => ?_⟩⟩
  · simp only [blacklistPid_log, List.append_assoc]
  · exact blacklistPid_keeps_denied netMes _ _ _ _ hKeep
      (blacklistPid_denied netMes pid _ w hUp hp)
  · exact blacklistPid_denied netMes pbMsg.From _ _ hUp hf

/-- C3 (amended), worked scenario: corrupt envelope `0xFF 0xFF 0xFF`, originator `0x03`,
delivering peer `0x02`; both are denied afterwards. -/
theorem transformAndCheckMessage_unmarshal_failure_witness :
    listEvaluator.IsDenied
      (transformAndCheckMessage (demoMessenger ⟨1700000000, 0⟩)
        (demoRaw [3] [255, 255, 255]) [2] "t" demoWorld).2.denial [2] = true ∧
    listEvaluator.IsDenied
      (transformAndCheckMessage (demoMessenger ⟨1700000000, 0⟩)
        (demoRaw [3] [255, 255, 255]) [2] "t" demoWorld).2.denial [3] = true :=
  have h := (transformAndCheckMessage_unmarshal_failure (demoMessenger ⟨1700000000, 0⟩)
    (demoRaw [3] [255, 255, 255]) [2] "t" demoWorld (.collaborator 2) (by rfl)).2.2
    (fun s p t => by
      simp [demoMessenger, connectionMonitorWrapper.PeerDenialEvaluator, listEvaluator])
    (fun s p t r hr => by
      simp only [demoMessenger, connectionMonitorWrapper.PeerDenialEvaluator, listEvaluator,
        List.any_cons] at hr ⊢
      simp [hr])
  ⟨h.1 (by decide), h.2 (by decide)⟩

/-- C4: when the envelope unmarshals but fails the freshness check,
`transformAndCheckMessage` returns the freshness error, leaves the denial evaluator's
state unchanged and makes no `UpsertPeerID` call: the only call is one rejected debug
record. -/
theorem transformAndCheckMessage_freshness_failure {σ τ : Type}
    (netMes : networkMessenger σ τ) (pbMsg : PubsubMessage) (pid : PeerID) (topic : String)
    (w : World σ τ) (msg : Message) (err : GoError)
    (hmsg : netMes.NewMessage pbMsg netMes.marshalizer = .ok msg)
    (hstale : validMessageByTimestamp netMes.syncTimer.CurrentTime msg.Timestamp = some err) :
    (transformAndCheckMessage netMes pbMsg pid topic w).1 = .error err ∧
    (transformAndCheckMessage netMes pbMsg pid topic w).2.denial = w.denial ∧
    (transformAndCheckMessage netMes pbMsg pid topic w).2.log
      = w.log ++ [debugRecord netMes.ID topic pid msg.Data.length true] ∧
    (∀ p d, Event.UpsertPeerID p d ∈ (transformAndCheckMessage netMes pbMsg pid topic w).2.log →
      Event.UpsertPeerID p d ∈ w.log) := by
  have hres : transformAndCheckMessage netMes pbMsg pid topic w =
      (.error err, processDebugMessage netMes topic pid msg.Data.length true w) := by
    unfold transformAndCheckMessage
    simp [hmsg, hstale]
  rw [hres]
  by_cases hself : pid = netMes.ID
  · simp [processDebugMessage, debugRecord, World.emit, hself]
  · simp [processDebugMessage, debugRecord, World.emit, hself]

/-- C4, worked scenarios: clock 1_700_000_601 against an envelope stamped 1_700_000_000
is too old, and nothing is denied afterwards. -/
theorem transformAndCheckMessage_freshness_failure_witness :
    (transformAndCheckMessage (demoMessenger ⟨1700000601, 0⟩)
        (demoRaw [3] envelope1700000000) [2] "t" demoWorld).1
      = .error (.wrapped .ErrMessageTooOld [1700000601, 1700000000]) ∧
    (transformAndCheckMessage (demoMessenger ⟨1700000601, 0⟩)
        (demoRaw [3] envelope1700000000) [2] "t" demoWorld).2.denial = [] :=
  have h := transformAndCheckMessage_freshness_failure (demoMessenger ⟨1700000601, 0⟩)
    (demoRaw [3] envelope1700000000) [2] "t" demoWorld
    ⟨[3], [0], [0], "t", 1700000000, [3]⟩
    (.wrapped .ErrMessageTooOld [1700000601, 1700000000]) (by rfl) (by decide)
  ⟨h.1, h.2.1⟩

/-! ## Validator fan-out of the pubsub callback (C5) -/

theorem processDebugMessage_eq {σ τ : Type} (netMes : networkMessenger σ τ)
    (topic : String) (pid : PeerID) (size : Nat) (isRejected : Bool) (w : World σ τ) :
    processDebugMessage netMes topic pid size isRejected w
      = w.emit (debugRecord netMes.ID topic pid size isRejected) := by
  unfold processDebugMessage debugRecord
  by_cases hself : pid = netMes.ID
  · simp [hself]
  · simp [hself]

theorem handlerOutcomes_length {τ : Type} (msg : Message) (pid : PeerID) :
    ∀ (handlers : List (MessageProcessor τ)) (app : τ),
      (handlerOutcomes msg pid app handlers).length = handlers.length
  | [], _ => rfl
  | handler :: rest, app => by
    simp [handlerOutcomes, handlerOutcomes_length msg pid rest]

theorem processHandlers_spec {σ τ : Type} (msg : Message) (pid : PeerID) :
    ∀ (handlers : List (MessageProcessor τ)) (index : Nat) (messageOk : Bool)
      (w : World σ τ),
      (processHandlers msg pid index handlers messageOk w).1
        = (messageOk && (handlerOutcomes msg pid w.app handlers).all Option.isNone) ∧
      (processHandlers msg pid index handlers messageOk w).2.log
        = w.log ++ ((handlerOutcomes msg pid w.app handlers).enumFrom index).map
            (fun ie => Event.ProcessReceivedMessage ie.1 msg pid ie.2) ∧
      (processHandlers msg pid index handlers messageOk w).2.denial = w.denial ∧
      (processHandlers msg pid index handlers messageOk w).2.throttler = w.throttler
  | [], index, messageOk, w => by
    simp [processHandlers, handlerOutcomes]
  | handler :: rest, index, messageOk, w => by
    have ih := processHandlers_spec msg pid rest (index + 1)
      (if (handler.ProcessReceivedMessage w.app msg pid).2.isSome then false else messageOk)
      { w with app := (handler.ProcessReceivedMessage w.app msg pid).1,
               log := w.log ++ [Event.ProcessReceivedMessage index msg pid
                 (handler.ProcessReceivedMessage w.app msg pid).2] }
    obtain ⟨ih1, ih2, ih3, ih4⟩ := ih
    refine ⟨?_, ?_, ?_, ?_⟩
    · simp only [processHandlers, handlerOutcomes, List.all_cons]
      rw [ih1]
      cases (handler.ProcessReceivedMessage w.app msg pid).2 <;> cases messageOk <;> simp
    · simp only [processHandlers, handlerOutcomes, List.enumFrom_cons, List.map_cons]
      rw [ih2]
      simp
    · simp only [processHandlers]
      rw [ih3]
    · simp only [processHandlers]
      rw [ih4]

theorem transformAndCheckMessage_ok_world {σ τ : Type} (netMes : networkMessenger σ τ)
    (pbMsg : PubsubMessage) (pid : PeerID) (topic : String) (w w1 : World σ τ)
    (msg : Message)
    (hacc : transformAndCheckMessage netMes pbMsg pid topic w = (.ok msg, w1)) :
    w1 = w := by
  unfold transformAndCheckMessage at hacc
  cases hn : netMes.NewMessage pbMsg netMes.marshalizer with
  | error e => simp [hn] at hacc
  | ok m =>
    simp only [hn] at hacc
    cases hv : validMessageByTimestamp netMes.syncTimer.CurrentTime m.Timestamp with
    | some err => simp [hv] at hacc
    | none =>
      simp only [hv, Prod.mk.injEq] at hacc
      exact hacc.2.symm

/-- C5: for a pubsub message that passes the envelope decode and freshness check, the
callback calls every handler of the topic's list exactly once, in list order, with the
decoded message and the delivering peer, also after an earlier handler failed; it
returns true iff no handler returned an error; after the handler calls it emits one debug
record that is marked rejected iff the callback returns false, and then calls
`IncreaseRating` on the delivering peer iff it returns true. -/
theorem pubsubCallback_fanout {σ τ : Type} (netMes : networkMessenger σ τ)
    (topicProcs : topicProcessors τ) (topic : String) (pid : PeerID)
    (message : PubsubMessage) (w w1 : World σ τ) (msg : Message)
    (hacc : transformAndCheckMessage netMes message pid topic w = (.ok msg, w1)) :
    (handlerOutcomes msg pid w.app topicProcs.getList.2).length
      = topicProcs.getList.2.length ∧
    ((pubsubCallback netMes topicProcs topic pid message w).1 = true ↔
      ∀ e ∈ handlerOutcomes msg pid w.app topicProcs.getList.2, e = none) ∧
    (pubsubCallback netMes topicProcs topic pid message w).2.log
      = w.log ++
        (handlerOutcomes msg pid w.app topicProcs.getList.2).enum.map
          (fun ie => Event.ProcessReceivedMessage ie.1 msg pid ie.2) ++
        [debugRecord netMes.ID topic pid message.Data.length
          (!(pubsubCallback netMes topicProcs topic pid message w).1)] ++
        (if (pubsubCallback netMes topicProcs topic pid message w).1 = true
          then [Event.IncreaseRating pid] else []) ∧
    (pubsubCallback netMes topicProcs topic pid message w).2.denial = w.denial := by
  have hw : w1 = w := transformAndCheckMessage_ok_world netMes message pid topic w w1 msg hacc
  subst hw
  obtain ⟨h1, h2, h3, _⟩ :=
    processHandlers_spec (σ := σ) msg pid topicProcs.getList.2 0 true w1
  have hret : (pubsubCallback netMes topicProcs topic pid message w1).1
      = (handlerOutcomes msg pid w1.app topicProcs.getList.2).all Option.isNone := by
    simp only [pubsubCallback, hacc]
    rw [h1]
    simp
  refine ⟨handlerOutcomes_length msg pid _ _, ?_, ?_, ?_⟩
  · rw [hret, List.all_eq_true]
    constructor
    · intro h e he
      have := h e he
      cases e with
      | none => rfl
      | some x => simp at this
    · intro h e he
      rw [h e he]
      rfl
  · rw [hret]
    simp only [pubsubCallback, hacc, processDebugMessage_eq]
    rw [h1]
    simp only [Bool.true_and]
    by_cases hall : (handlerOutcomes msg pid w1.app topicProcs.getList.2).all Option.isNone
        = true
    · simp [hall, World.emit, h2, List.enum]
    · simp [hall, World.emit, h2, List.enum]
  · simp only [pubsubCallback, hacc, processDebugMessage_eq]
    by_cases hok : (processHandlers (σ := σ) msg pid 0 topicProcs.getList.2 true w1).1 = true
    · simp [hok, World.emit, h3]
    · simp [hok, World.emit, h3]

/-- C5, worked instance: a fresh envelope delivered by peer `0x02` to a topic with a
failing handler followed by a succeeding one: both are called, the callback returns
false, the debug record is rejected and no rating is credited. -/
theorem pubsubCallback_fanout_witness :
    (pubsubCallback (demoMessenger ⟨1700000000, 0⟩)
        ⟨(["a", "b"], [countingProcessor true, countingProcessor false])⟩ "t" [2]
        (demoRaw [3] envelope1700000000) demoWorld).1 = false ∧
    (pubsubCallback (demoMessenger ⟨1700000000, 0⟩)
        ⟨(["a", "b"], [countingProcessor true, countingProcessor false])⟩ "t" [2]
        (demoRaw [3] envelope1700000000) demoWorld).2.log
      = [Event.ProcessReceivedMessage 0 ⟨[3], [0], [0], "t", 1700000000, [3]⟩ [2]
            (some (.collaborator 7)),
         Event.ProcessReceivedMessage 1 ⟨[3], [0], [0], "t", 1700000000, [3]⟩ [2] none,
         Event.AddIncomingMessage "t" 10 true] :=
  have h := pubsubCallback_fanout (demoMessenger ⟨1700000000, 0⟩)
    ⟨(["a", "b"], [countingProcessor true, countingProcessor false])⟩ "t" [2]
    (demoRaw [3] envelope1700000000) demoWorld demoWorld
    ⟨[3], [0], [0], "t", 1700000000, [3]⟩ (by rfl)
  And.intro
    (Bool.eq_false_iff.mpr (fun hr =>
      Option.noConfusion ((h.2.1.mp hr) (some (.collaborator 7)) (by decide))))
    (h.2.2.1.trans (by decide))

/-! ## Broadcast admission (C6) -/

/-- C6, counterexample: with all throttler slots taken, broadcasting an empty buffer
returns `ErrEmptyBufferToSend`, not `ErrTooManyGoroutines`. -/
theorem BroadcastOnChannelBlocking_saturated_empty_buffer :
    saturatedWorld.throttler.CanProcess = false ∧
    (BroadcastOnChannelBlocking (demoMessenger ⟨1700000000, 0⟩) "c" "t" [] saturatedWorld).1
      = some (.sentinel .ErrEmptyBufferToSend) ∧
    (BroadcastOnChannelBlocking (demoMessenger ⟨1700000000, 0⟩) "c" "t" [] saturatedWorld).1
      ≠ some (.sentinel .ErrTooManyGoroutines) :=
  ⟨by decide, by decide, by decide⟩

/-- C6 (amended): while the throttler is saturated, `BroadcastOnChannelBlocking` and
`BroadcastOnChannelBlockingUsingPrivateKey` enqueue nothing and change nothing, and they
return an error: the error of the validation that precedes the throttler check (key
decoding for the private-key variant, then `checkSendableData`) when there is one, and
`ErrTooManyGoroutines` otherwise. -/
theorem Broadcast_saturated {σ τ : Type} (netMes : networkMessenger σ τ)
    (channel topic : String) (buff : List Byte) (pid : PeerID) (skBytes : List Byte)
    (w : World σ τ) (hsat : w.throttler.CanProcess = false) :
    (BroadcastOnChannelBlocking netMes channel topic buff w).2 = w ∧
    (BroadcastOnChannelBlocking netMes channel topic buff w).1
      = some ((checkSendableData buff).getD (.sentinel .ErrTooManyGoroutines)) ∧
    (BroadcastOnChannelBlockingUsingPrivateKey netMes channel topic buff pid skBytes w).2
      = w ∧
    (BroadcastOnChannelBlockingUsingPrivateKey netMes channel topic buff pid skBytes w).1
      = some (match netMes.UnmarshalSecp256k1PrivateKey skBytes with
              | .error err => err
              | .ok _ => (checkSendableData buff).getD (.sentinel .ErrTooManyGoroutines)) := by
  refine ⟨?_, ?_, ?_, ?_⟩
  · unfold BroadcastOnChannelBlocking
    cases hc : checkSendableData buff <;> simp [hsat]
  · unfold BroadcastOnChannelBlocking
    cases hc : checkSendableData buff <;> simp [hsat]
  · unfold BroadcastOnChannelBlockingUsingPrivateKey
    cases hk : netMes.UnmarshalSecp256k1PrivateKey skBytes with
    | error e => simp
    | ok sk => cases hc : checkSendableData buff <;> simp [hsat]
  · unfold BroadcastOnChannelBlockingUsingPrivateKey
    cases hk : netMes.UnmarshalSecp256k1PrivateKey skBytes with
    | error e => simp
    | ok sk => cases hc : checkSendableData buff <;> simp [hsat]

/-- C6 (amended), worked scenario: with every throttler slot taken, broadcasting the
valid buffer `0x01` returns `ErrTooManyGoroutines` and logs no enqueue. -/
theorem Broadcast_saturated_witness :
    (BroadcastOnChannelBlocking (demoMessenger ⟨1700000000, 0⟩) "c" "t" [1]
        saturatedWorld).1 = some (.sentinel .ErrTooManyGoroutines) ∧
    (BroadcastOnChannelBlocking (demoMessenger ⟨1700000000, 0⟩) "c" "t" [1]
        saturatedWorld).2.log = [] :=
  have h := Broadcast_saturated (demoMessenger ⟨1700000000, 0⟩) "c" "t" [1] [1] []
    saturatedWorld (by decide)
  ⟨h.2.1.trans (by decide), (congrArg World.log h.1).trans (by rfl)⟩

/-! ## Envelope round trip (C8) -/

theorem unaryMarshalizer_inverts (m : TopicMessage) :
    ∃ b, unaryMarshalizer.Marshal m = .ok b ∧ unaryMarshalizer.Unmarshal b = .ok m :=
  ⟨List.replicate (Encodable.encode (m.Version, m.Payload, m.Timestamp)) 0, rfl, by
    simp [unaryMarshalizer, Encodable.encodek]⟩

/-- C8: with a marshaller whose `Unmarshal` inverts its `Marshal`, unmarshalling the
bytes of `createMessageBytes(p)` yields the envelope with the current version, the
sync clock's Unix second as timestamp and the payload `p` unchanged. -/
theorem createMessageBytes_roundtrip {σ τ : Type} (netMes : networkMessenger σ τ)
    (p : List Byte)
    (hinv : ∀ m : TopicMessage, ∃ b, netMes.marshalizer.Marshal m = .ok b ∧
      netMes.marshalizer.Unmarshal b = .ok m) :
    netMes.marshalizer.Unmarshal (createMessageBytes netMes p)
      = .ok { Version := netMes.currentTopicMessageVersion,
              Payload := p,
              Timestamp := netMes.syncTimer.CurrentTime.Unix } := by
  obtain ⟨b, hb, hu⟩ := hinv { Version := netMes.currentTopicMessageVersion,
                               Payload := p,
                               Timestamp := netMes.syncTimer.CurrentTime.Unix }
  unfold createMessageBytes
  simp only [hb]
  exact hu

/-- C8, worked scenario: payload `0x01 0x02 0x03` at clock 1_700_000_000 decodes to the
envelope with timestamp 1_700_000_000 and payload `0x01 0x02 0x03`. -/
theorem createMessageBytes_roundtrip_witness :
    (unaryMessenger ⟨1700000000, 0⟩).marshalizer.Unmarshal
        (createMessageBytes (unaryMessenger ⟨1700000000, 0⟩) [1, 2, 3])
      = .ok { Version := 1, Payload := [1, 2, 3], Timestamp := 1700000000 } :=
  (createMessageBytes_roundtrip (unaryMessenger ⟨1700000000, 0⟩) [1, 2, 3]
    (unaryMarshalizer_inverts)).trans rfl

/-! ## Connection-monitor wrapper (C9, C10) -/

theorem sweepPeers_spec {σ τ : Type} (ev : PeerDenialEvaluator σ) :
    ∀ (peers : List PeerID) (w : World σ τ),
      (sweepPeers ev peers w).log
        = w.log ++ (peers.filter (fun pid => ev.IsDenied w.denial pid)).map Event.ClosePeer ∧
      (sweepPeers ev peers w).denial = w.denial
  | [], w => by simp [sweepPeers]
  | pid :: rest, w => by
    by_cases hd : ev.IsDenied w.denial pid = true
    · obtain ⟨h1, h2⟩ := sweepPeers_spec ev rest (w.emit (.ClosePeer pid))
      simp only [sweepPeers, hd, if_true, List.filter_cons_of_pos, List.map_cons]
      rw [h1, h2]
      simp [World.emit]
    · obtain ⟨h1, h2⟩ := sweepPeers_spec ev rest w
      simp only [sweepPeers, hd, if_false, Bool.false_eq_true]
      rw [h1, h2]
      simp [hd]

theorem Connected_lemma {σ τ : Type} (cmw : connectionMonitorWrapper σ) (conn : Conn)
    (w : World σ τ) :
    (cmw.Connected conn w).log = w.log ++
      [if cmw.peerDenialEvaluator.IsDenied w.denial conn.RemotePeer = true
        then Event.ConnClose conn else Event.MonitorConnected conn] ∧
    (cmw.Connected conn w).denial = w.denial := by
  unfold connectionMonitorWrapper.Connected
  by_cases hd : cmw.peerDenialEvaluator.IsDenied w.denial conn.RemotePeer = true
  · simp [hd, World.emit]
  · simp [hd, World.emit]

/-- C9: `Connected` makes exactly one call: it closes the connection, without forwarding
to the inner monitor, when the current denial evaluator denies the remote peer, and it
forwards the event to the inner monitor, without closing, otherwise. -/
theorem Connected_spec {σ τ : Type} (cmw : connectionMonitorWrapper σ) (conn : Conn)
    (w : World σ τ) :
    (cmw.Connected conn w).log = w.log ++
      [if cmw.PeerDenialEvaluator.IsDenied w.denial conn.RemotePeer = true
        then Event.ConnClose conn else Event.MonitorConnected conn] ∧
    (cmw.Connected conn w).denial = w.denial := by
  unfold connectionMonitorWrapper.Connected connectionMonitorWrapper.PeerDenialEvaluator
  by_cases hd : cmw.peerDenialEvaluator.IsDenied w.denial conn.RemotePeer = true
  · simp [hd, World.emit]
  · simp [hd, World.emit]

/-- C10: `CheckConnectionsBlocking` calls `ClosePeer` once for every entry of
`network.Peers()` that the current denial evaluator denies, in the order of the peer
list, and for no other peer. -/
theorem CheckConnectionsBlocking_spec {σ τ : Type} (cmw : connectionMonitorWrapper σ)
    (w : World σ τ) :
    (cmw.CheckConnectionsBlocking w).log = w.log ++
      (cmw.network.Peers.filter
        (fun pid => cmw.PeerDenialEvaluator.IsDenied w.denial pid)).map Event.ClosePeer ∧
    (cmw.CheckConnectionsBlocking w).denial = w.denial := by
  unfold connectionMonitorWrapper.CheckConnectionsBlocking
    connectionMonitorWrapper.PeerDenialEvaluator
  exact sweepPeers_spec cmw.peerDenialEvaluator cmw.network.Peers w

/-- C9, worked instance: with peers `0x03` and `0x05` denied, a connection from `0x03`
is closed and not forwarded, and a connection from `0x02` is forwarded and not closed. -/
theorem Connected_spec_witness :
    (demoWrapper.Connected ⟨[3], 7⟩ deniedWorld).log = [Event.ConnClose ⟨[3], 7⟩] ∧
    (demoWrapper.Connected ⟨[2], 8⟩ deniedWorld).log = [Event.MonitorConnected ⟨[2], 8⟩] :=
  ⟨(Connected_spec demoWrapper ⟨[3], 7⟩ deniedWorld).1.trans (by decide),
   (Connected_spec demoWrapper ⟨[2], 8⟩ deniedWorld).1.trans (by decide)⟩

/-- C10, worked instance: with the host connected to `0x02`, `0x03`, `0x04`, `0x05` and
peers `0x03` and `0x05` denied, the sweep closes `0x03` and `0x05` and nothing else. -/
theorem CheckConnectionsBlocking_spec_witness :
    (demoWrapper.CheckConnectionsBlocking deniedWorld).log
      = [Event.ClosePeer [3], Event.ClosePeer [5]] :=
  (CheckConnectionsBlocking_spec demoWrapper deniedWorld).1.trans (by decide)

/-! ## Topic-processor registry: what the code does at the failing inputs (C11, C13) -/

/-- C11: the code at two call sequences that leave a topic in the processors map without
a topic validator. First, `Register(t, a)` then `Unregister(t, a)`, both returning nil,
leave the key `t` in the map, holding nil, while pubsub has no validator. Second,
`Register(t, a)` on a pubsub whose `RegisterTopicValidator` fails returns that error and
leaves a processor set under `t`, again with no validator registered. -/
theorem processors_entry_without_validator :
    ((RegisterMessageProcessor gossipSub "t" "a" (some (countingProcessor false))
        emptyTopics).1 = none ∧
     (UnregisterMessageProcessor gossipSub "t" "a"
        (RegisterMessageProcessor gossipSub "t" "a" (some (countingProcessor false))
          emptyTopics).2).1 = none ∧
     registeredThenUnregistered.processors.keys = ["t"] ∧
     (registeredThenUnregistered.processorsAt "t").isSome = false ∧
     registeredThenUnregistered.pb = []) ∧
    ((RegisterMessageProcessor cancelledPubSub "t" "a" (some (countingProcessor false))
        emptyTopics).1 = some (.collaborator 12) ∧
     (RegisterMessageProcessor cancelledPubSub "t" "a" (some (countingProcessor false))
        emptyTopics).2.processors.keys = ["t"] ∧
     ((RegisterMessageProcessor cancelledPubSub "t" "a" (some (countingProcessor false))
        emptyTopics).2.processorsAt "t").isSome = true ∧
     (RegisterMessageProcessor cancelledPubSub "t" "a" (some (countingProcessor false))
        emptyTopics).2.pb = []) :=
  ⟨⟨by decide, by decide, by decide, by decide, by decide⟩,
   ⟨by decide, by decide, by decide, by decide⟩⟩

/-- C13: the code after `Register(t, a)` and `Unregister(t, a)`: the key `t` is still in
the processors map, so `UnregisterAllMessageProcessors` asks pubsub to unregister a
validator that does not exist, returns that error and leaves the map non-empty. With a
second topic `u` registered and `t` visited first, the validator of `u` stays
registered as well. -/
theorem UnregisterAllMessageProcessors_after_unregister :
    ((UnregisterAllMessageProcessors gossipSub registeredThenUnregistered).1
        = some (.collaborator 11) ∧
     (UnregisterAllMessageProcessors gossipSub registeredThenUnregistered).2.processors.keys
        = ["t"]) ∧
    ((UnregisterAllMessageProcessors gossipSub twoTopicsOneUnregistered).1
        = some (.collaborator 11) ∧
     (UnregisterAllMessageProcessors gossipSub twoTopicsOneUnregistered).2.processors.keys
        = ["t", "u"] ∧
     (UnregisterAllMessageProcessors gossipSub twoTopicsOneUnregistered).2.pb = ["u"]) :=
  ⟨⟨by decide, by decide⟩, ⟨by decide, by decide, by decide⟩⟩

/-! ## Shutdown (C14, C15, C16) -/

/-- C14, counterexample: when the host close fails with one error and the peerstore
close with another, `Close` returns the peerstore's error, which is the last and not the
first non-nil one. -/
theorem Close_returns_not_first :
    (networkMessenger.Close
        { allClosed with errHost := some (.collaborator 1),
                         errPeerStore := some (.collaborator 2) }).1
      = some (.collaborator 2) ∧
    firstNonNil (CloseResults.inOrder
        { allClosed with errHost := some (.collaborator 1),
                         errPeerStore := some (.collaborator 2) })
      = some (.collaborator 1) :=
  ⟨by decide, by decide⟩

/-- C14 (amended): for every combination of subcomponent close results in which the
peers-on-channel cache and the connection monitor close without error, `Close` returns
the last non-nil subcomponent error in shutdown order, and nil when all succeed. -/
theorem Close_returns_last (r : CloseResults) (hpoc : r.errPoc = none)
    (hmon : r.errConnMonitor = none) :
    (networkMessenger.Close r).1 = lastNonNil r.inOrder ∧
    ((∀ e ∈ r.inOrder, e = none) → (networkMessenger.Close r).1 = none) := by
  obtain ⟨eh, ew, eo, ep, em, ed, es⟩ := r
  simp only at hpoc hmon
  subst hpoc hmon
  constructor
  · cases eh <;> cases ew <;> cases eo <;> cases ed <;> cases es <;>
      simp [networkMessenger.Close, CloseState.record, CloseState.invoke,
        CloseResults.inOrder, lastNonNil]
  · intro h
    simp only [CloseResults.inOrder, List.mem_cons, List.mem_singleton, forall_eq_or_imp,
      forall_eq] at h
    obtain ⟨h1, h2, h3, _, _, h6, h7, _⟩ := h
    subst h1 h2 h3 h6 h7
    simp [networkMessenger.Close, CloseState.record, CloseState.invoke]

/-- C14 (amended), worked instances: host and peerstore failing gives the peerstore's
error; nothing failing gives nil. -/
theorem Close_returns_last_witness :
    (networkMessenger.Close
        { allClosed with errHost := some (.collaborator 1),
                         errPeerStore := some (.collaborator 2) }).1
      = some (.collaborator 2) ∧
    (networkMessenger.Close allClosed).1 = none :=
  ⟨(Close_returns_last
      { allClosed with errHost := some (.collaborator 1),
                       errPeerStore := some (.collaborator 2) } rfl rfl).1.trans (by decide),
   (Close_returns_last allClosed rfl rfl).2 (by decide)⟩

/-- C15: the code when only the connection monitor's close fails: `Close` returns nil,
although the last non-nil subcomponent error is the monitor's; and when the host fails
before the monitor, `Close` returns the host's error, not the later one. -/
theorem Close_drops_connMonitor_error :
    ((networkMessenger.Close { allClosed with errConnMonitor := some (.collaborator 5) }).1
        = none ∧
     lastNonNil (CloseResults.inOrder
        { allClosed with errConnMonitor := some (.collaborator 5) })
        = some (.collaborator 5)) ∧
    ((networkMessenger.Close
        { allClosed with errHost := some (.collaborator 1),
                         errConnMonitor := some (.collaborator 5) }).1
        = some (.collaborator 1) ∧
     lastNonNil (CloseResults.inOrder
        { allClosed with errHost := some (.collaborator 1),
                         errConnMonitor := some (.collaborator 5) })
        = some (.collaborator 5)) :=
  ⟨⟨by decide, by decide⟩, ⟨by decide, by decide⟩⟩

/-- C16, counterexample: the steps `Close` invokes contain no close of pubsub and none of
the direct sender. -/
theorem Close_skips_pubsub_and_directSender :
    ShutdownStep.pubsub ∉ (networkMessenger.Close allClosed).2 ∧
    ShutdownStep.directSender ∉ (networkMessenger.Close allClosed).2 :=
  ⟨by decide, by decide⟩

/-- C16 (amended): whatever the subcomponent closes return, `Close` invokes, in this
order and once each, the close of the host, the connections watcher, the outgoing load
balancer, the peers-on-channel cache and the connection monitor, the cancellation
signal, and the close of the debugger and the peerstore. -/
theorem Close_invokes_every_step (r : CloseResults) :
    (networkMessenger.Close r).2
      = [.host, .connectionsWatcher, .outgoingPLB, .peersOnChannel, .connMonitor,
         .cancelFunc, .debugger, .peerstore] := by
  simp [networkMessenger.Close, CloseState.record, CloseState.invoke]

/-! ## Replacing the denial evaluator (C17, C18) -/

/-- C17: `SetPeerDenialEvaluator` fails with `ErrNilPeerDenialEvaluator` for a nil
handler and leaves the wrapper as it was; for a non-nil handler it returns nil,
`PeerDenialEvaluator()` then returns exactly that handler, and `Connected` and
`CheckConnectionsBlocking` decide with it. -/
theorem SetPeerDenialEvaluator_spec {σ τ : Type} (cmw : connectionMonitorWrapper σ)
    (handler : PeerDenialEvaluator σ) (conn : Conn) (w : World σ τ) :
    cmw.SetPeerDenialEvaluator none = (some (.sentinel .ErrNilPeerDenialEvaluator), cmw) ∧
    (cmw.SetPeerDenialEvaluator (some handler)).1 = none ∧
    (cmw.SetPeerDenialEvaluator (some handler)).2.PeerDenialEvaluator = handler ∧
    (cmw.SetPeerDenialEvaluator (some handler)).2.network = cmw.network ∧
    ((cmw.SetPeerDenialEvaluator (some handler)).2.Connected conn w).log = w.log ++
      [if handler.IsDenied w.denial conn.RemotePeer = true
        then Event.ConnClose conn else Event.MonitorConnected conn] ∧
    ((cmw.SetPeerDenialEvaluator (some handler)).2.CheckConnectionsBlocking w).log = w.log ++
      (cmw.network.Peers.filter (fun pid => handler.IsDenied w.denial pid)).map
        Event.ClosePeer := by
  refine ⟨rfl, rfl, rfl, rfl, ?_, ?_⟩
  · exact (Connected_lemma (cmw.SetPeerDenialEvaluator (some handler)).2 conn w).1
  · exact (sweepPeers_spec handler cmw.network.Peers w).1

/-- C18: the default evaluator denies nothing. After any sequence of `UpsertPeerID`
calls, `UpsertPeerID` returns nil and `IsDenied` returns false for every peer and
duration; so the wrapper that `createConnectionMonitor` installs forwards every
`Connected` event and closes no peer in `CheckConnectionsBlocking`. -/
theorem disabled_PeerDenialEvaluator_denies_nothing {τ : Type}
    (calls : List (PeerID × Duration)) (pid : PeerID) (banDuration : Duration)
    (network : Network) (conn : Conn) (w : World Unit τ) :
    (disabled.PeerDenialEvaluator.UpsertPeerID
      (calls.foldl (fun st c => (disabled.PeerDenialEvaluator.UpsertPeerID st c.1 c.2).1) ())
      pid banDuration).2 = none ∧
    disabled.PeerDenialEvaluator.IsDenied
      (calls.foldl (fun st c => (disabled.PeerDenialEvaluator.UpsertPeerID st c.1 c.2).1) ())
      pid = false ∧
    (createConnectionMonitor network).PeerDenialEvaluator = disabled.PeerDenialEvaluator ∧
    ((createConnectionMonitor network).Connected conn w).log
      = w.log ++ [Event.MonitorConnected conn] ∧
    ((createConnectionMonitor network).CheckConnectionsBlocking w).log = w.log := by
  refine ⟨rfl, rfl, rfl, ?_, ?_⟩
  · simp [createConnectionMonitor, newConnectionMonitorWrapper,
      connectionMonitorWrapper.Connected, disabled.PeerDenialEvaluator, World.emit]
  · have h := (sweepPeers_spec (τ := τ) disabled.PeerDenialEvaluator network.Peers w).1
    simpa [connectionMonitorWrapper.CheckConnectionsBlocking, createConnectionMonitor,
      newConnectionMonitorWrapper, disabled.PeerDenialEvaluator] using h

/-! ## Which peers are ever denial-listed (C19) -/

theorem convertPeers_spec : ∀ (list : List PeerID),
    (convertPeers list).1 = list ∧ (convertPeers list).2 = list.map Event.AddPeer
  | [] => ⟨rfl, rfl⟩
  | pid :: rest => by
    obtain ⟨h1, h2⟩ := convertPeers_spec rest
    simp [convertPeers, h1, h2]

theorem GoMap.lookup_store_self {α : Type} (m : GoMap α) (k : String) (v : α) :
    (m.store k v).lookup k = some v := by
  unfold GoMap.lookup GoMap.store
  by_cases h : k ∈ m.keys
  · simp [h]
  · simp [h]

theorem GoMap.lookup_store_ne {α : Type} (m : GoMap α) (k j : String) (v : α)
    (hne : j ≠ k) : (m.store k v).lookup j = m.lookup j := by
  unfold GoMap.lookup GoMap.store
  by_cases h : k ∈ m.keys
  · simp [h, Function.update_noteq hne]
  · simp [h, Function.update_noteq hne, List.mem_append, hne]

/-- C20: for a topic with no cached entry, `ConnectedPeersOnChannel` calls the fetch
delegate once, returns the fetched peers as they are, calls `AddPeer` for each of them in
order, stores the list under the topic and stamps `lastUpdated` with the current time;
the other topics keep their entries, and a later call for the topic returns the cached
list without fetching, whatever the delegate would answer then. -/
theorem ConnectedPeersOnChannel_miss {ν : Type} (poc : peersOnChannel ν) (env env2 : ν)
    (topic other : String) (hmiss : poc.peers.lookup topic = none) (hother : other ≠ topic) :
    (poc.ConnectedPeersOnChannel env topic).1 = poc.fetchPeersHandler env topic ∧
    (poc.ConnectedPeersOnChannel env topic).2.2
      = Event.FetchPeersOnTopic topic ::
          (poc.fetchPeersHandler env topic).map Event.AddPeer ∧
    (poc.ConnectedPeersOnChannel env topic).2.1.peers.lookup topic
      = some (poc.fetchPeersHandler env topic) ∧
    (poc.ConnectedPeersOnChannel env topic).2.1.lastUpdated.lookup topic
      = some (poc.getTimeHandler env) ∧
    (poc.ConnectedPeersOnChannel env topic).2.1.peers.lookup other = poc.peers.lookup other ∧
    (poc.ConnectedPeersOnChannel env topic).2.1.lastUpdated.lookup other
      = poc.lastUpdated.lookup other ∧
    (poc.ConnectedPeersOnChannel env topic).2.1.ConnectedPeersOnChannel env2 topic
      = (poc.fetchPeersHandler env topic, (poc.ConnectedPeersOnChannel env topic).2.1, []) := by
  have hres : poc.ConnectedPeersOnChannel env topic
      = (poc.fetchPeersHandler env topic,
          poc.updateConnectedPeersOnTopic env topic (poc.fetchPeersHandler env topic),
          Event.FetchPeersOnTopic topic :: (poc.fetchPeersHandler env topic).map Event.AddPeer) := by
    unfold peersOnChannel.ConnectedPeersOnChannel peersOnChannel.refreshPeersOnTopic
    simp only [hmiss]
    rw [(convertPeers_spec _).1, (convertPeers_spec _).2]
  rw [hres]
  refine ⟨rfl, rfl, ?_, ?_, ?_, ?_, ?_⟩
  · exact GoMap.lookup_store_self _ _ _
  · exact GoMap.lookup_store_self _ _ _
  · exact GoMap.lookup_store_ne _ _ _ _ hother
  · exact GoMap.lookup_store_ne _ _ _ _ hother
  · unfold peersOnChannel.ConnectedPeersOnChannel
    have hl : (poc.updateConnectedPeersOnTopic env topic
        (poc.fetchPeersHandler env topic)).peers.lookup topic
        = some (poc.fetchPeersHandler env topic) := GoMap.lookup_store_self _ _ _
    simp only [hl]

/-- C20, worked instance: on the empty cache, with pubsub listing peers `0x02` and `0x03`
at time 100, the first call fetches and rates both peers; a second call, when pubsub
would list only `0x04`, still returns `0x02` and `0x03` and makes no call. -/
theorem ConnectedPeersOnChannel_miss_witness :
    (demoPoc.ConnectedPeersOnChannel ([[2], [3]], ⟨100, 0⟩) "t").1 = [[2], [3]] ∧
    (demoPoc.ConnectedPeersOnChannel ([[2], [3]], ⟨100, 0⟩) "t").2.2
      = [Event.FetchPeersOnTopic "t", Event.AddPeer [2], Event.AddPeer [3]] ∧
    ((demoPoc.ConnectedPeersOnChannel ([[2], [3]], ⟨100, 0⟩) "t").2.1.ConnectedPeersOnChannel
        ([[4]], ⟨200, 0⟩) "t").1 = [[2], [3]] ∧
    ((demoPoc.ConnectedPeersOnChannel ([[2], [3]], ⟨100, 0⟩) "t").2.1.ConnectedPeersOnChannel
        ([[4]], ⟨200, 0⟩) "t").2.2 = [] :=
  have h := ConnectedPeersOnChannel_miss demoPoc ([[2], [3]], ⟨100, 0⟩) ([[4]], ⟨200, 0⟩)
    "t" "u" (by rfl) (by decide)
  ⟨h.1, h.2.1, congrArg Prod.fst h.2.2.2.2.2.2,
   congrArg (fun r => r.2.2) h.2.2.2.2.2.2⟩

/-! ## Unregistering a processor (C12) -/

theorem processorsAt_store_self {τ π : Type} (s : TopicsState τ π) (k : String)
    (v : Option (topicProcessors τ)) :
    ({ s with processors := s.processors.store k v } : TopicsState τ π).processorsAt k = v := by
  simp [TopicsState.processorsAt, GoMap.lookup_store_self]

theorem processorsAt_store_ne {τ π : Type} (s : TopicsState τ π) (k j : String)
    (v : Option (topicProcessors τ)) (hne : j ≠ k) :
    ({ s with processors := s.processors.store k v } : TopicsState τ π).processorsAt j
      = s.processorsAt j := by
  simp [TopicsState.processorsAt, GoMap.lookup_store_ne _ _ _ _ hne]

/-- C21: `newPeersOnChannel` returns `ErrNilPeersRatingHandler` for a nil rating handler,
then `ErrNilFetchPeersOnTopicHandler` for a nil fetch delegate, then
`ErrInvalidDurationProvided` when `refreshInterval` is zero and when `ttlInterval` is
zero; when all four are given it returns, with no error, a cache without entries that
holds the two intervals and the delegate. -/
theorem newPeersOnChannel_spec {ν : Type} (handler : PeersRatingHandler)
    (fetch : ν → String → List PeerID) (anyFetch : Option (ν → String → List PeerID))
    (refreshInterval ttlInterval : Duration) (clockTime : ν → Time) :
    newPeersOnChannel none anyFetch refreshInterval ttlInterval clockTime
      = .error (.sentinel .ErrNilPeersRatingHandler) ∧
    newPeersOnChannel (some handler) none refreshInterval ttlInterval clockTime
      = .error (.sentinel .ErrNilFetchPeersOnTopicHandler) ∧
    (refreshInterval = 0 ∨ ttlInterval = 0 →
      newPeersOnChannel (some handler) (some fetch) refreshInterval ttlInterval clockTime
        = .error (.sentinel .ErrInvalidDurationProvided)) ∧
    (refreshInterval ≠ 0 → ttlInterval ≠ 0 →
      ∃ poc, newPeersOnChannel (some handler) (some fetch) refreshInterval ttlInterval
          clockTime = .ok poc ∧
        poc.peers.keys = [] ∧ poc.lastUpdated.keys = [] ∧
        (∀ topic, poc.peers.lookup topic = none ∧ poc.lastUpdated.lookup topic = none) ∧
        poc.refreshInterval = refreshInterval ∧ poc.ttlInterval = ttlInterval ∧
        poc.fetchPeersHandler = fetch ∧ poc.getTimeHandler = clockTime) := by
  refine ⟨rfl, rfl, fun h => ?_, fun h1 h2 => ?_⟩
  · unfold newPeersOnChannel
    rcases h with h | h
    · simp [h]
    · by_cases hr : refreshInterval = 0
      · simp [hr]
      · simp [hr, h]
  · refine ⟨{ peers := GoMap.empty, lastUpdated := GoMap.empty,
               refreshInterval := refreshInterval, ttlInterval := ttlInterval,
               fetchPeersHandler := fetch, getTimeHandler := clockTime },
      by simp [newPeersOnChannel, h1, h2], rfl, rfl, fun topic => ?_, rfl, rfl, rfl, rfl⟩
    simp [GoMap.lookup, GoMap.empty]

/-- C21, worked instances: with a rating handler, a delegate, a refresh interval of 3 s
and a time to live of 10 s the constructor succeeds with an empty cache; with a zero
time to live it fails with `ErrInvalidDurationProvided`. -/
theorem newPeersOnChannel_spec_witness :
    (∃ poc, newPeersOnChannel (some ⟨1⟩) (some demoPoc.fetchPeersHandler) (3 * Second)
        (10 * Second) demoPoc.getTimeHandler = .ok poc ∧ poc.peers.keys = []) ∧
    newPeersOnChannel (some ⟨1⟩) (some demoPoc.fetchPeersHandler) (3 * Second) 0
        demoPoc.getTimeHandler = .error (.sentinel .ErrInvalidDurationProvided) :=
  have h := newPeersOnChannel_spec ⟨1⟩ demoPoc.fetchPeersHandler none (3 * Second)
    (10 * Second) demoPoc.getTimeHandler
  have h0 := newPeersOnChannel_spec ⟨1⟩ demoPoc.fetchPeersHandler none (3 * Second) 0
    demoPoc.getTimeHandler
  ⟨(h.2.2.2 (by decide) (by decide)).imp (fun _ hp => ⟨hp.1, hp.2.1⟩),
   h0.2.2.1 (Or.inr rfl)⟩

/-! ## Listen-address templates (C22, C23) -/

theorem string_length_pos_iff (s : String) : s.length > 0 ↔ s ≠ "" := by
  cases s with
  | mk data =>
    cases data with
    | nil => simp [String.length]
    | cons c cs =>
      simp only [String.length, List.length_cons, gt_iff_lt, Nat.zero_lt_succ, ne_eq,
        true_iff]
      intro h
      have := congrArg String.data h
      simp at this

theorem parseTransportOptions_finish_cons (options : List TransportOption)
    (addresses : List String) (a : String) :
    parseTransportOptions.finish options (addresses ++ [a]) = .ok (options, addresses ++ [a]) := by
  simp [parseTransportOptions.finish]

/-- The outcome of `parseTransportOptions` in closed form, by the state of each template:
empty, accepted by the markup check, or refused by it. -/
theorem parseTransportOptions_eq (sprintf : String → Int → String) (configs : TransportConfig)
    (port : Int) :
    parseTransportOptions sprintf configs port =
      if configs.TCP.ListenAddress ≠ "" ∧
          strictCheckStringForIntMarkup configs.TCP.ListenAddress = false then
        .error (.sentinel .ErrInvalidTCPAddress)
      else if configs.QUICAddress ≠ "" ∧
          strictCheckStringForIntMarkup configs.QUICAddress = false then
        .error (.sentinel .ErrInvalidQUICAddress)
      else if configs.WebSocketAddress ≠ "" ∧
          strictCheckStringForIntMarkup configs.WebSocketAddress = false then
        .error (.sentinel .ErrInvalidWSAddress)
      else if configs.WebTransportAddress ≠ "" ∧
          strictCheckStringForIntMarkup configs.WebTransportAddress = false then
        .error (.sentinel .ErrInvalidWebTransportAddress)
      else if configs.TCP.ListenAddress = "" ∧ configs.QUICAddress = "" ∧
          configs.WebSocketAddress = "" ∧ configs.WebTransportAddress = "" then
        .error (.sentinel .ErrNoTransportsDefined)
      else
        .ok ((if configs.TCP.ListenAddress ≠ "" then
                [TransportOption.tcp configs.TCP.PreventPortReuse] else []) ++
             (if configs.QUICAddress ≠ "" then [TransportOption.quic] else []) ++
             (if configs.WebSocketAddress ≠ "" then [TransportOption.websocket] else []) ++
             (if configs.WebTransportAddress ≠ "" then [TransportOption.webtransport]
                else []),
             (if configs.TCP.ListenAddress ≠ "" then
                [sprintf configs.TCP.ListenAddress port] else []) ++
             (if configs.QUICAddress ≠ "" then [sprintf configs.QUICAddress port] else []) ++
             (if configs.WebSocketAddress ≠ "" then
                [sprintf configs.WebSocketAddress port] else []) ++
             (if configs.WebTransportAddress ≠ "" then
                [sprintf configs.WebTransportAddress port] else [])) := by
  unfold parseTransportOptions parseTransportOptions.fromQUIC
    parseTransportOptions.fromWebSocket parseTransportOptions.fromWebTransport
  simp only [string_length_pos_iff]
  by_cases t1 : configs.TCP.ListenAddress = "" <;>
  by_cases t2 : configs.QUICAddress = "" <;>
  by_cases t3 : configs.WebSocketAddress = "" <;>
  by_cases t4 : configs.WebTransportAddress = "" <;>
  cases c1 : strictCheckStringForIntMarkup configs.TCP.ListenAddress <;>
  cases c2 : strictCheckStringForIntMarkup configs.QUICAddress <;>
  cases c3 : strictCheckStringForIntMarkup configs.WebSocketAddress <;>
  cases c4 : strictCheckStringForIntMarkup configs.WebTransportAddress <;>
  simp [t1, t2, t3, t4, parseTransportOptions.finish]

/-- C22: each listen-address template is checked by counting the markup `%d`: a non-empty
template is accepted iff the count is one. The first non-empty template, in the order
TCP, QUIC, WebSocket, WebTransport, that the check refuses makes `parseTransportOptions`
fail with the error of its transport; when every non-empty template is accepted and there
is at least one, the result holds one formatted address and one transport option for each
non-empty template, in that order. -/
theorem parseTransportOptions_templates (sprintf : String → Int → String)
    (configs : TransportConfig) (port : Int) :
    (∀ str, strictCheckStringForIntMarkup str = true ↔ countIntMarkup str.toList = 1) ∧
    (configs.TCP.ListenAddress ≠ "" →
      strictCheckStringForIntMarkup configs.TCP.ListenAddress = false →
      parseTransportOptions sprintf configs port = .error (.sentinel .ErrInvalidTCPAddress)) ∧
    ((configs.TCP.ListenAddress = "" ∨
        strictCheckStringForIntMarkup configs.TCP.ListenAddress = true) →
      configs.QUICAddress ≠ "" →
      strictCheckStringForIntMarkup configs.QUICAddress = false →
      parseTransportOptions sprintf configs port = .error (.sentinel .ErrInvalidQUICAddress)) ∧
    ((configs.TCP.ListenAddress = "" ∨
        strictCheckStringForIntMarkup configs.TCP.ListenAddress = true) →
      (configs.QUICAddress = "" ∨
        strictCheckStringForIntMarkup configs.QUICAddress = true) →
      configs.WebSocketAddress ≠ "" →
      strictCheckStringForIntMarkup configs.WebSocketAddress = false →
      parseTransportOptions sprintf configs port = .error (.sentinel .ErrInvalidWSAddress)) ∧
    ((configs.TCP.ListenAddress = "" ∨
        strictCheckStringForIntMarkup configs.TCP.ListenAddress = true) →
      (configs.QUICAddress = "" ∨
        strictCheckStringForIntMarkup configs.QUICAddress = true) →
      (configs.WebSocketAddress = "" ∨
        strictCheckStringForIntMarkup configs.WebSocketAddress = true) →
      configs.WebTransportAddress ≠ "" →
      strictCheckStringForIntMarkup configs.WebTransportAddress = false →
      parseTransportOptions sprintf configs port
        = .error (.sentinel .ErrInvalidWebTransportAddress)) ∧
    ((configs.TCP.ListenAddress = "" ∨
        strictCheckStringForIntMarkup configs.TCP.ListenAddress = true) →
      (configs.QUICAddress = "" ∨
        strictCheckStringForIntMarkup configs.QUICAddress = true) →
      (configs.WebSocketAddress = "" ∨
        strictCheckStringForIntMarkup configs.WebSocketAddress = true) →
      (configs.WebTransportAddress = "" ∨
        strictCheckStringForIntMarkup configs.WebTransportAddress = true) →
      ¬ (configs.TCP.ListenAddress = "" ∧ configs.QUICAddress = "" ∧
          configs.WebSocketAddress = "" ∧ configs.WebTransportAddress = "") →
      parseTransportOptions sprintf configs port =
        .ok ((if configs.TCP.ListenAddress ≠ "" then
                [TransportOption.tcp configs.TCP.PreventPortReuse] else []) ++
             (if configs.QUICAddress ≠ "" then [TransportOption.quic] else []) ++
             (if configs.WebSocketAddress ≠ "" then [TransportOption.websocket] else []) ++
             (if configs.WebTransportAddress ≠ "" then [TransportOption.webtransport]
                else []),
             (if configs.TCP.ListenAddress ≠ "" then
                [sprintf configs.TCP.ListenAddress port] else []) ++
             (if configs.QUICAddress ≠ "" then [sprintf configs.QUICAddress port] else []) ++
             (if configs.WebSocketAddress ≠ "" then
                [sprintf configs.WebSocketAddress port] else []) ++
             (if configs.WebTransportAddress ≠ "" then
                [sprintf configs.WebTransportAddress port] else []))) ∧
    (∀ r, parseTransportOptions sprintf configs port = .ok r →
      (configs.TCP.ListenAddress = "" ∨
        strictCheckStringForIntMarkup configs.TCP.ListenAddress = true) ∧
      (configs.QUICAddress = "" ∨
        strictCheckStringForIntMarkup configs.QUICAddress = true) ∧
      (configs.WebSocketAddress = "" ∨
        strictCheckStringForIntMarkup configs.WebSocketAddress = true) ∧
      (configs.WebTransportAddress = "" ∨
        strictCheckStringForIntMarkup configs.WebTransportAddress = true)) := by
  rw [parseTransportOptions_eq]
  refine ⟨fun str => by simp [strictCheckStringForIntMarkup], ?_, ?_, ?_, ?_, ?_, ?_⟩
  · intro h1 h2
    simp [h1, h2]
  · intro h1 h2 h3
    rcases h1 with h1 | h1 <;> simp [h1, h2, h3]
  · intro h1 h2 h3 h4
    rcases h1 with h1 | h1 <;> rcases h2 with h2 | h2 <;> simp [h1, h2, h3, h4]
  · intro h1 h2 h3 h4 h5
    rcases h1 with h1 | h1 <;> rcases h2 with h2 | h2 <;> rcases h3 with h3 | h3 <;>
      simp [h1, h2, h3, h4, h5]
  · intro h1 h2 h3 h4 h5
    have e1 : ¬ (configs.TCP.ListenAddress ≠ "" ∧
        strictCheckStringForIntMarkup configs.TCP.ListenAddress = false) := by
      rcases h1 with h | h <;> simp [h]
    have e2 : ¬ (configs.QUICAddress ≠ "" ∧
        strictCheckStringForIntMarkup configs.QUICAddress = false) := by
      rcases h2 with h | h <;> simp [h]
    have e3 : ¬ (configs.WebSocketAddress ≠ "" ∧
        strictCheckStringForIntMarkup configs.WebSocketAddress = false) := by
      rcases h3 with h | h <;> simp [h]
    have e4 : ¬ (configs.WebTransportAddress ≠ "" ∧
        strictCheckStringForIntMarkup configs.WebTransportAddress = false) := by
      rcases h4 with h | h <;> simp [h]
    rw [if_neg e1, if_neg e2, if_neg e3, if_neg e4, if_neg h5]
  · intro r hr
    by_cases e1 : configs.TCP.ListenAddress ≠ "" ∧
        strictCheckStringForIntMarkup configs.TCP.ListenAddress = false
    · rw [if_pos e1] at hr
      cases hr
    by_cases e2 : configs.QUICAddress ≠ "" ∧
        strictCheckStringForIntMarkup configs.QUICAddress = false
    · rw [if_neg e1, if_pos e2] at hr
      cases hr
    by_cases e3 : configs.WebSocketAddress ≠ "" ∧
        strictCheckStringForIntMarkup configs.WebSocketAddress = false
    · rw [if_neg e1, if_neg e2, if_pos e3] at hr
      cases hr
    by_cases e4 : configs.WebTransportAddress ≠ "" ∧
        strictCheckStringForIntMarkup configs.WebTransportAddress = false
    · rw [if_neg e1, if_neg e2, if_neg e3, if_pos e4] at hr
      cases hr
    refine ⟨?_, ?_, ?_, ?_⟩
    · by_cases h : configs.TCP.ListenAddress = ""
      · exact Or.inl h
      · right
        cases hc : strictCheckStringForIntMarkup configs.TCP.ListenAddress
        · exact absurd ⟨h, hc⟩ e1
        · rfl
    · by_cases h : configs.QUICAddress = ""
      · exact Or.inl h
      · right
        cases hc : strictCheckStringForIntMarkup configs.QUICAddress
        · exact absurd ⟨h, hc⟩ e2
        · rfl
    · by_cases h : configs.WebSocketAddress = ""
      · exact Or.inl h
      · right
        cases hc : strictCheckStringForIntMarkup configs.WebSocketAddress
        · exact absurd ⟨h, hc⟩ e3
        · rfl
    · by_cases h : configs.WebTransportAddress = ""
      · exact Or.inl h
      · right
        cases hc : strictCheckStringForIntMarkup configs.WebTransportAddress
        · exact absurd ⟨h, hc⟩ e4
        · rfl

/-- C22, worked instances: a TCP and a WebSocket template with one `%d` each give two
addresses and two options in that order; a TCP template with two `%d` is refused with
`ErrInvalidTCPAddress`, one with none as well. -/
theorem parseTransportOptions_templates_witness :
    parseTransportOptions sprintfPort
        ⟨⟨"/ip4/0.0.0.0/tcp/%d", false⟩, "", "/ip4/0.0.0.0/tcp/%d/ws", ""⟩ 4000
      = .ok ([TransportOption.tcp false, TransportOption.websocket],
             [sprintfPort "/ip4/0.0.0.0/tcp/%d" 4000,
              sprintfPort "/ip4/0.0.0.0/tcp/%d/ws" 4000]) ∧
    parseTransportOptions sprintfPort ⟨⟨"/ip4/%d/tcp/%d", false⟩, "", "", ""⟩ 4000
      = .error (.sentinel .ErrInvalidTCPAddress) ∧
    parseTransportOptions sprintfPort ⟨⟨"/ip4/0.0.0.0/tcp/4000", false⟩, "", "", ""⟩ 4000
      = .error (.sentinel .ErrInvalidTCPAddress) :=
  ⟨(parseTransportOptions_templates sprintfPort
      ⟨⟨"/ip4/0.0.0.0/tcp/%d", false⟩, "", "/ip4/0.0.0.0/tcp/%d/ws", ""⟩ 4000).2.2.2.2.2.1
      (Or.inr (by decide)) (Or.inl rfl) (Or.inr (by decide)) (Or.inl rfl) (by decide),
   (parseTransportOptions_templates sprintfPort
      ⟨⟨"/ip4/%d/tcp/%d", false⟩, "", "", ""⟩ 4000).2.1 (by decide) (by decide),
   (parseTransportOptions_templates sprintfPort
      ⟨⟨"/ip4/0.0.0.0/tcp/4000", false⟩, "", "", ""⟩ 4000).2.1 (by decide) (by decide)⟩

/-- C23: `parseTransportOptions` fails with `ErrNoTransportsDefined` iff all four
listen-address templates are empty. -/
theorem parseTransportOptions_noTransports (sprintf : String → Int → String)
    (configs : TransportConfig) (port : Int) :
    parseTransportOptions sprintf configs port = .error (.sentinel .ErrNoTransportsDefined) ↔
      (configs.TCP.ListenAddress = "" ∧ configs.QUICAddress = "" ∧
        configs.WebSocketAddress = "" ∧ configs.WebTransportAddress = "") := by
  rw [parseTransportOptions_eq]
  constructor
  · intro h
    by_cases e1 : configs.TCP.ListenAddress ≠ "" ∧
        strictCheckStringForIntMarkup configs.TCP.ListenAddress = false
    · rw [if_pos e1] at h
      simp at h
    by_cases e2 : configs.QUICAddress ≠ "" ∧
        strictCheckStringForIntMarkup configs.QUICAddress = false
    · rw [if_neg e1, if_pos e2] at h
      simp at h
    by_cases e3 : configs.WebSocketAddress ≠ "" ∧
        strictCheckStringForIntMarkup configs.WebSocketAddress = false
    · rw [if_neg e1, if_neg e2, if_pos e3] at h
      simp at h
    by_cases e4 : configs.WebTransportAddress ≠ "" ∧
        strictCheckStringForIntMarkup configs.WebTransportAddress = false
    · rw [if_neg e1, if_neg e2, if_neg e3, if_pos e4] at h
      simp at h
    by_cases e5 : configs.TCP.ListenAddress = "" ∧ configs.QUICAddress = "" ∧
        configs.WebSocketAddress = "" ∧ configs.WebTransportAddress = ""
    · exact e5
    · rw [if_neg e1, if_neg e2, if_neg e3, if_neg e4, if_neg e5] at h
      cases h
  · intro h
    obtain ⟨h1, h2, h3, h4⟩ := h
    simp [h1, h2, h3, h4]

/-- C23, worked instance: a configuration with no template at all. -/
theorem parseTransportOptions_noTransports_witness :
    parseTransportOptions sprintfPort ⟨⟨"", false⟩, "", "", ""⟩ 4000
      = .error (.sentinel .ErrNoTransportsDefined) :=
  (parseTransportOptions_noTransports sprintfPort ⟨⟨"", false⟩, "", "", ""⟩ 4000).mpr
    ⟨rfl, rfl, rfl, rfl⟩

/-! ## Node construction with port retry (C24) -/

theorem constructNodeLoop_bind_prefix (constructNode : Nat → Except GoError Node)
    (isBindError : GoError → Bool) :
    ∀ (k remaining i : Nat) (lastErr : Option GoError),
      k ≤ remaining →
      (∀ j, j < k → ∃ e, constructNode (i + j) = .error e ∧ isBindError e = true) →
      constructNodeLoop constructNode isBindError remaining i lastErr =
        constructNodeLoop constructNode isBindError (remaining - k) (i + k)
          (if k = 0 then lastErr
           else match constructNode (i + k - 1) with
                | .error e => some e
                | .ok _ => none)
  | 0, remaining, i, lastErr, _, _ => by simp
  | k + 1, 0, i, lastErr, hk, _ => by omega
  | k + 1, remaining + 1, i, lastErr, hk, hbind => by
    obtain ⟨e, he, hb⟩ := hbind 0 (by omega)
    simp only [Nat.add_zero] at he
    have ih := constructNodeLoop_bind_prefix constructNode isBindError k remaining (i + 1)
      (some e) (by omega) (fun j hj => by
        have := hbind (j + 1) (by omega)
        rwa [show i + (j + 1) = i + 1 + j by omega] at this)
    rw [constructNodeLoop, he]
    simp only [hb, Bool.not_true, Bool.false_eq_true, if_false]
    rw [ih]
    have h1 : remaining + 1 - (k + 1) = remaining - k := by omega
    have h2 : i + 1 + k = i + (k + 1) := by omega
    rw [h1, h2]
    congr 1
    by_cases hk0 : k = 0
    · subst hk0
      simp [he]
    · have h3 : i + 1 + k - 1 = i + (k + 1) - 1 := by omega
      simp [hk0, h3]

/-- C24: `constructNodeWithPortRetry` calls `constructNode` at most ten times. If the
first `k < 10` calls fail with bind errors and call `k` succeeds, it returns that node
after `k + 1` calls; if call `k` fails with another error, it returns that error after
`k + 1` calls; if all ten calls fail with bind errors, it returns the error of the tenth
call after ten calls. -/
theorem constructNodeWithPortRetry_spec (constructNode : Nat → Except GoError Node)
    (isBindError : GoError → Bool) (k : Nat)
    (hbind : ∀ j, j < k → ∃ e, constructNode j = .error e ∧ isBindError e = true) :
    (constructNodeWithPortRetry constructNode isBindError).2 ≤ 10 ∧
    (k < 10 → ∀ node, constructNode k = .ok node →
      constructNodeWithPortRetry constructNode isBindError = ((some node, none), k + 1)) ∧
    (k < 10 → ∀ err, constructNode k = .error err → isBindError err = false →
      constructNodeWithPortRetry constructNode isBindError = ((none, some err), k + 1)) ∧
    (k = 10 → ∀ err, constructNode 9 = .error err →
      constructNodeWithPortRetry constructNode isBindError = ((none, some err), 10)) := by
  have hmax : ∀ (remaining i : Nat) (lastErr : Option GoError),
      (constructNodeLoop constructNode isBindError remaining i lastErr).2 ≤ i + remaining := by
    intro remaining
    induction remaining with
    | zero => intro i lastErr; simp [constructNodeLoop]
    | succ n ih =>
      intro i lastErr
      rw [constructNodeLoop]
      cases hc : constructNode i with
      | ok node => simp
      | error e =>
        by_cases hb : isBindError e = true
        · simp only [hb, Bool.not_true, Bool.false_eq_true, if_false]
          have := ih (i + 1) (some e)
          omega
        · simp [hb]
  refine ⟨?_, fun hk node hnode => ?_, fun hk err herr hnb => ?_, fun hk err herr => ?_⟩
  · have := hmax maxRetriesIfBindError 0 none
    simpa [constructNodeWithPortRetry, maxRetriesIfBindError] using this
  · have h := constructNodeLoop_bind_prefix constructNode isBindError k 10 0 none (by omega)
      (fun j hj => by simpa using hbind j hj)
    unfold constructNodeWithPortRetry maxRetriesIfBindError
    rw [h]
    obtain ⟨m, hm⟩ : ∃ m, 10 - k = m + 1 := ⟨10 - k - 1, by omega⟩
    rw [hm, constructNodeLoop]
    simp [hnode]
  · have h := constructNodeLoop_bind_prefix constructNode isBindError k 10 0 none (by omega)
      (fun j hj => by simpa using hbind j hj)
    unfold constructNodeWithPortRetry maxRetriesIfBindError
    rw [h]
    obtain ⟨m, hm⟩ : ∃ m, 10 - k = m + 1 := ⟨10 - k - 1, by omega⟩
    rw [hm, constructNodeLoop]
    simp [herr, hnb]
  · subst hk
    have h := constructNodeLoop_bind_prefix constructNode isBindError 10 10 0 none
      (by omega) (fun j hj => by simpa using hbind j hj)
    unfold constructNodeWithPortRetry maxRetriesIfBindError
    rw [h]
    simp [constructNodeLoop, herr]

/-- C24, worked instances: two bind errors followed by a success give the node of the
third call; a bind error followed by another error gives that error after two calls;
bind errors on every call give the tenth error after ten calls. -/
theorem constructNodeWithPortRetry_spec_witness :
    constructNodeWithPortRetry
        (fun i => if i < 2 then .error (.collaborator (100 + i)) else .ok ⟨4000 + i⟩)
        (fun e => decide (e ≠ .collaborator 7))
      = ((some ⟨4002⟩, none), 3) ∧
    constructNodeWithPortRetry
        (fun i => if i < 1 then .error (.collaborator (100 + i)) else .error (.collaborator 7))
        (fun e => decide (e ≠ .collaborator 7))
      = ((none, some (.collaborator 7)), 2) ∧
    constructNodeWithPortRetry (fun i => .error (.collaborator (100 + i)))
        (fun e => decide (e ≠ .collaborator 7))
      = ((none, some (.collaborator 109)), 10) :=
  ⟨(constructNodeWithPortRetry_spec _ _ 2
      (fun j hj => ⟨.collaborator (100 + j), by simp [hj], by simp; omega⟩)).2.1
      (by decide) ⟨4002⟩ (by rfl),
   (constructNodeWithPortRetry_spec _ _ 1
      (fun j hj => ⟨.collaborator (100 + j), by simp [hj], by simp; omega⟩)).2.2.1
      (by decide) (.collaborator 7) (by rfl) (by rfl),
   (constructNodeWithPortRetry_spec _ _ 10
      (fun j _ => ⟨.collaborator (100 + j), rfl, by simp; omega⟩)).2.2.2 rfl
      (.collaborator 109) (by rfl)⟩

/-! ## Topic creation (C27) -/

/-- C27, counterexample: when `topic.Subscribe` fails and when `AddChannel` fails,
`CreateTopic` returns the error, but the topic stays in the `topics` map (and, in the
second case, its subscription in `subscriptions`), so `HasTopic` is true afterwards; a
later `CreateTopic` for the name then returns nil at once and changes nothing. -/
theorem CreateTopic_keeps_topic_on_error :
    ((CreateTopic subscribeFails "t" false noTopics).1 = some (.collaborator 20) ∧
     HasTopic (CreateTopic subscribeFails "t" false noTopics).2 "t" = true ∧
     (CreateTopic subscribeFails "t" false noTopics).2.subscriptions.keys = []) ∧
    ((CreateTopic addChannelFails "t" true noTopics).1 = some (.collaborator 21) ∧
     HasTopic (CreateTopic addChannelFails "t" true noTopics).2 "t" = true ∧
     (CreateTopic addChannelFails "t" true noTopics).2.subscriptions.keys = ["t"]) ∧
    ((CreateTopic topicsWork "t" false
        (CreateTopic subscribeFails "t" false noTopics).2).1 = none ∧
     (CreateTopic topicsWork "t" false
        (CreateTopic subscribeFails "t" false noTopics).2).2.subscriptions.keys = []) :=
  ⟨⟨by decide, by decide, by decide⟩, ⟨by decide, by decide, by decide⟩,
   ⟨by decide, by decide⟩⟩

theorem GoMap.mem_keys_store {α : Type} (m : GoMap α) (k : String) (v : α) :
    k ∈ (m.store k v).keys := by
  unfold GoMap.store
  by_cases h : k ∈ m.keys
  · simp [h]
  · simp [h]

/-- C27 (amended): `CreateTopic` leaves the maps as they were only when the topic is
already known (it returns nil) and when `Join` fails (it returns the error, and `HasTopic`
stays false). When `Join` succeeds and `Subscribe` fails it returns the error with the
joined topic stored in `topics` and `subscriptions` unchanged; when both succeed it
stores the topic and the subscription and returns the error of `AddChannel` if a channel
was asked for, nil otherwise, so a failure of `AddChannel` leaves both entries. In these
cases `HasTopic` is true afterwards and every later `CreateTopic` for the name returns
nil and changes nothing. The entries of other names are never touched. -/
theorem CreateTopic_spec (c : TopicCollaborators) (name : String)
    (createChannelForTopic : Bool) (s : JoinedTopics) :
    (name ∈ s.topics.keys → CreateTopic c name createChannelForTopic s = (none, s)) ∧
    (name ∉ s.topics.keys → ∀ err, c.Join name = .error err →
      CreateTopic c name createChannelForTopic s = (some err, s) ∧
      HasTopic (CreateTopic c name createChannelForTopic s).2 name = false) ∧
    (name ∉ s.topics.keys → ∀ topic err, c.Join name = .ok topic →
      c.Subscribe topic = .error err →
      (CreateTopic c name createChannelForTopic s).1 = some err ∧
      (CreateTopic c name createChannelForTopic s).2.topics = s.topics.store name topic ∧
      (CreateTopic c name createChannelForTopic s).2.topics.lookup name = some topic ∧
      (CreateTopic c name createChannelForTopic s).2.subscriptions = s.subscriptions ∧
      HasTopic (CreateTopic c name createChannelForTopic s).2 name = true ∧
      ∀ c2 flag2, CreateTopic c2 name flag2 (CreateTopic c name createChannelForTopic s).2
        = (none, (CreateTopic c name createChannelForTopic s).2)) ∧
    (name ∉ s.topics.keys → ∀ topic subscrRequest, c.Join name = .ok topic →
      c.Subscribe topic = .ok subscrRequest →
      (CreateTopic c name createChannelForTopic s).1
        = (if createChannelForTopic then c.AddChannel name else none) ∧
      (CreateTopic c name createChannelForTopic s).2.topics = s.topics.store name topic ∧
      (CreateTopic c name createChannelForTopic s).2.topics.lookup name = some topic ∧
      (CreateTopic c name createChannelForTopic s).2.subscriptions
        = s.subscriptions.store name subscrRequest ∧
      (CreateTopic c name createChannelForTopic s).2.subscriptions.lookup name
        = some subscrRequest ∧
      HasTopic (CreateTopic c name createChannelForTopic s).2 name = true ∧
      ∀ c2 flag2, CreateTopic c2 name flag2 (CreateTopic c name createChannelForTopic s).2
        = (none, (CreateTopic c name createChannelForTopic s).2)) ∧
    (∀ other, other ≠ name →
      (CreateTopic c name createChannelForTopic s).2.topics.lookup other
        = s.topics.lookup other ∧
      (CreateTopic c name createChannelForTopic s).2.subscriptions.lookup other
        = s.subscriptions.lookup other) := by
  refine ⟨fun hin => ?_, fun hnot err hj => ?_, fun hnot topic err hj hs => ?_,
    fun hnot topic subscrRequest hj hs => ?_, fun other hne => ?_⟩
  · simp [CreateTopic, hin]
  · have hres : CreateTopic c name createChannelForTopic s = (some err, s) := by
      simp [CreateTopic, hnot, hj]
    rw [hres]
    exact ⟨rfl, by simp [HasTopic, hnot]⟩
  · have hres : CreateTopic c name createChannelForTopic s
        = (some err, { s with topics := s.topics.store name topic }) := by
      simp [CreateTopic, hnot, hj, hs]
    have hmem := GoMap.mem_keys_store s.topics name topic
    rw [hres]
    refine ⟨rfl, rfl, GoMap.lookup_store_self _ _ _, rfl, ?_, fun c2 flag2 => ?_⟩
    · simp [HasTopic, hmem]
    · simp [CreateTopic, hmem]
  · have hres : CreateTopic c name createChannelForTopic s
        = ((if createChannelForTopic then c.AddChannel name else none),
           { topics := s.topics.store name topic,
             subscriptions := s.subscriptions.store name subscrRequest }) := by
      simp [CreateTopic, hnot, hj, hs]
    have hmem := GoMap.mem_keys_store s.topics name topic
    rw [hres]
    refine ⟨rfl, rfl, GoMap.lookup_store_self _ _ _, rfl, GoMap.lookup_store_self _ _ _, ?_,
      fun c2 flag2 => ?_⟩
    · simp [HasTopic, hmem]
    · simp [CreateTopic, hmem]
  · by_cases hin : name ∈ s.topics.keys
    · simp [CreateTopic, hin]
    · cases hj : c.Join name with
      | error err => simp [CreateTopic, hin, hj]
      | ok topic =>
        cases hs : c.Subscribe topic with
        | error err => simp [CreateTopic, hin, hj, hs, GoMap.lookup_store_ne _ _ _ _ hne]
        | ok subscrRequest =>
          simp [CreateTopic, hin, hj, hs, GoMap.lookup_store_ne _ _ _ _ hne]

/-- C27 (amended), worked instances: on a messenger without topics, a failing `Join`
leaves no entry for `t`; a failing `Subscribe` returns its error and leaves the topic
handle 1 under `t` with no subscription; a failing `AddChannel` returns its error and
leaves both the topic handle 1 and the subscription 2 under `t`. -/
theorem CreateTopic_spec_witness :
    (CreateTopic ⟨fun _ => .error (.collaborator 19), fun _ => .ok 2, fun _ => none⟩ "t"
        true noTopics = (some (.collaborator 19), noTopics)) ∧
    ((CreateTopic subscribeFails "t" false noTopics).1 = some (.collaborator 20) ∧
      (CreateTopic subscribeFails "t" false noTopics).2.topics.lookup "t" = some 1 ∧
      (CreateTopic subscribeFails "t" false noTopics).2.subscriptions.lookup "t" = none ∧
      HasTopic (CreateTopic subscribeFails "t" false noTopics).2 "t" = true) ∧
    ((CreateTopic addChannelFails "t" true noTopics).1 = some (.collaborator 21) ∧
      (CreateTopic addChannelFails "t" true noTopics).2.topics.lookup "t" = some 1 ∧
      (CreateTopic addChannelFails "t" true noTopics).2.subscriptions.lookup "t" = some 2 ∧
      HasTopic (CreateTopic addChannelFails "t" true noTopics).2 "t" = true) :=
  have hj := (CreateTopic_spec
    ⟨fun _ => .error (.collaborator 19), fun _ => .ok 2, fun _ => none⟩ "t" true
    noTopics).2.1 (by decide) (.collaborator 19) rfl
  have hs := (CreateTopic_spec subscribeFails "t" false noTopics).2.2.1 (by decide) 1
    (.collaborator 20) rfl rfl
  have ha := (CreateTopic_spec addChannelFails "t" true noTopics).2.2.2.1 (by decide) 1 2
    rfl rfl
  ⟨hj.1, ⟨hs.1, hs.2.2.1, (congrArg (fun m => GoMap.lookup m "t") hs.2.2.2.1).trans rfl,
    hs.2.2.2.2.1⟩,
   ⟨ha.1.trans rfl, ha.2.2.1, ha.2.2.2.2.1, ha.2.2.2.2.2.1⟩⟩

/-! ## Direct sending (C25) -/

/-- C25, counterexample: the messenger `0x01` sends the valid buffer `0x07` to itself on
topic `t`. The envelope goes through the local handler, which records one incoming debug
message of the payload size; no outgoing debug message is recorded. -/
theorem SendToConnectedPeer_self_records_no_outgoing :
    (SendToConnectedPeer (demoMessenger ⟨1700000000, 0⟩) demoDirectSender demoProcessors
        "t" [7] [1] demoWorld).1 = none ∧
    (SendToConnectedPeer (demoMessenger ⟨1700000000, 0⟩) demoDirectSender demoProcessors
        "t" [7] [1] demoWorld).2.log
      = [Event.ProcessReceivedMessage 0
            ⟨[1], [7], [0, 0, 0, 1], "t", 1700000000, [1]⟩ [1] none,
         Event.AddIncomingMessage "t" 1 false,
         Event.IncreaseRating [1]] ∧
    (createMessageBytes (demoMessenger ⟨1700000000, 0⟩) [7]).length = 10 :=
  ⟨by decide, by decide, by decide⟩

/-- C25 (amended): for a valid buffer whose envelope encodes to a non-empty byte string,
`SendToConnectedPeer` hands the encoded envelope to the direct sender when the peer is not
the messenger itself, records one outgoing debug message for the topic with the encoded
size, rejected iff `Send` failed, and returns the error of `Send`. When the peer is the
messenger itself it hands the encoded envelope, as a message from and delivered by the
messenger, to the local direct-message handler and returns what that returns, without a
call of the direct sender and without the outgoing record of the encoded size:
if the envelope decodes to a fresh message and the topic has a processor set, every
handler is called in order and then one incoming debug message with the decoded payload
size is recorded, rejected iff a handler failed, the rating is increased iff none failed,
and nil is returned; if the topic has no processor set, `ErrNilValidator` is returned and
nothing is recorded; if the decoded message fails the freshness check, its error is
returned and the one record is a rejected outgoing debug message with the decoded payload
size; if the envelope does not decode, the error is returned and nothing is recorded but
the upsert of the own id by `blacklistPid`. -/
theorem SendToConnectedPeer_routes {σ τ : Type} (netMes : networkMessenger σ τ)
    (ds : DirectSender) (processors : GoMap (Option (topicProcessors τ)))
    (topic : String) (buff : List Byte) (peerID : PeerID) (w : World σ τ)
    (hvalid : checkSendableData buff = none)
    (hencoded : createMessageBytes netMes buff ≠ []) :
    (peerID ≠ netMes.ID →
      (SendToConnectedPeer netMes ds processors topic buff peerID w).1
        = ds.Send topic (createMessageBytes netMes buff) peerID ∧
      (SendToConnectedPeer netMes ds processors topic buff peerID w).2.log
        = w.log ++
          [Event.DirectSend topic (createMessageBytes netMes buff) peerID,
           Event.AddOutgoingMessage topic (createMessageBytes netMes buff).length
             (ds.Send topic (createMessageBytes netMes buff) peerID).isSome] ∧
      (SendToConnectedPeer netMes ds processors topic buff peerID w).2.denial = w.denial) ∧
    (peerID = netMes.ID →
      SendToConnectedPeer netMes ds processors topic buff peerID w
        = directMessageHandler netMes processors
            { From := netMes.ID,
              Data := createMessageBytes netMes buff,
              Seqno := ds.NextSequenceNumber,
              Topic := topic,
              Signature := netMes.ID } netMes.ID w ∧
      (∀ msg tp,
        netMes.NewMessage
          { From := netMes.ID,
            Data := createMessageBytes netMes buff,
            Seqno := ds.NextSequenceNumber,
            Topic := topic,
            Signature := netMes.ID } netMes.marshalizer = .ok msg →
        validMessageByTimestamp netMes.syncTimer.CurrentTime msg.Timestamp = none →
        (processors.lookup topic).join = some tp →
        (SendToConnectedPeer netMes ds processors topic buff peerID w).1 = none ∧
        (SendToConnectedPeer netMes ds processors topic buff peerID w).2.log
          = w.log ++
            ((handlerOutcomes msg netMes.ID w.app tp.getList.2).enumFrom 0).map
              (fun ie => Event.ProcessReceivedMessage ie.1 msg netMes.ID ie.2) ++
            [Event.AddIncomingMessage msg.Topic msg.Data.length
              (!(handlerOutcomes msg netMes.ID w.app tp.getList.2).all Option.isNone)] ++
            (if (handlerOutcomes msg netMes.ID w.app tp.getList.2).all Option.isNone
              then [Event.IncreaseRating netMes.ID] else [])) ∧
      (∀ msg,
        netMes.NewMessage
          { From := netMes.ID,
            Data := createMessageBytes netMes buff,
            Seqno := ds.NextSequenceNumber,
            Topic := topic,
            Signature := netMes.ID } netMes.marshalizer = .ok msg →
        validMessageByTimestamp netMes.syncTimer.CurrentTime msg.Timestamp = none →
        (processors.lookup topic).join = none →
        SendToConnectedPeer netMes ds processors topic buff peerID w
          = (some (.wrapped .ErrNilValidator []), w)) ∧
      (∀ msg err,
        netMes.NewMessage
          { From := netMes.ID,
            Data := createMessageBytes netMes buff,
            Seqno := ds.NextSequenceNumber,
            Topic := topic,
            Signature := netMes.ID } netMes.marshalizer = .ok msg →
        validMessageByTimestamp netMes.syncTimer.CurrentTime msg.Timestamp = some err →
        (SendToConnectedPeer netMes ds processors topic buff peerID w).1 = some err ∧
        (SendToConnectedPeer netMes ds processors topic buff peerID w).2.log
          = w.log ++ [Event.AddOutgoingMessage topic msg.Data.length true]) ∧
      (∀ errUnmarshal,
        netMes.NewMessage
          { From := netMes.ID,
            Data := createMessageBytes netMes buff,
            Seqno := ds.NextSequenceNumber,
            Topic := topic,
            Signature := netMes.ID } netMes.marshalizer = .error errUnmarshal →
        (SendToConnectedPeer netMes ds processors topic buff peerID w).1
          = some errUnmarshal ∧
        (SendToConnectedPeer netMes ds processors topic buff peerID w).2
          = blacklistPid netMes netMes.ID netMes.WrongP2PMessageBlacklistDuration
              (blacklistPid netMes netMes.ID netMes.WrongP2PMessageBlacklistDuration w) ∧
        ∃ upserts, (SendToConnectedPeer netMes ds processors topic buff peerID w).2.log
            = w.log ++ upserts ∧
          ∀ ev ∈ upserts,
            ev = Event.UpsertPeerID netMes.ID netMes.WrongP2PMessageBlacklistDuration)) := by
  have hlen : ¬ (createMessageBytes netMes buff).length = 0 := by
    intro h
    exact hencoded (List.length_eq_zero.mp h)
  refine ⟨fun hne => ?_, fun heq => ?_⟩
  · simp [SendToConnectedPeer, hvalid, hlen, hne, World.emit]
  · have hself : SendToConnectedPeer netMes ds processors topic buff peerID w
        = directMessageHandler netMes processors
            { From := netMes.ID,
              Data := createMessageBytes netMes buff,
              Seqno := ds.NextSequenceNumber,
              Topic := topic,
              Signature := netMes.ID } netMes.ID w := by
      simp [SendToConnectedPeer, hvalid, hlen, heq, sendDirectToSelf]
    refine ⟨hself, fun msg tp hn hv htp => ?_, fun msg hn hv htp => ?_,
      fun msg err hn hv => ?_, fun errUnmarshal hn => ?_⟩
    · obtain ⟨p1, p2, _, _⟩ :=
        processHandlers_spec (σ := σ) msg netMes.ID tp.getList.2 0 true w
      rw [hself]
      simp only [directMessageHandler, transformAndCheckMessage, hn, hv, htp]
      rw [Bool.true_and] at p1
      refine ⟨trivial, ?_⟩
      by_cases hok : (handlerOutcomes msg netMes.ID w.app tp.getList.2).all Option.isNone
          = true
      · rw [p1, hok]
        simp [World.emit, p2]
      · rw [p1]
        simp only [hok, World.emit, p2]
        simp
    · rw [hself]
      simp only [directMessageHandler, transformAndCheckMessage, hn, hv, htp]
    · rw [hself]
      simp [directMessageHandler, transformAndCheckMessage, hn, hv, processDebugMessage,
        World.emit]
    · rw [hself]
      simp only [directMessageHandler, transformAndCheckMessage, hn]
      refine ⟨trivial, trivial, ?_⟩
      rw [blacklistPid_log, blacklistPid_log, List.append_assoc]
      refine ⟨_, rfl, fun ev hev => ?_⟩
      simp only [List.mem_append] at hev
      rcases hev with hev | hev
      · split at hev
        · cases hev
        · exact List.mem_singleton.mp hev
      · split at hev
        · cases hev
        · exact List.mem_singleton.mp hev

/-- C25 (amended), worked instances: the messenger `0x01` sends the buffer `0x07` to peer
`0x02`: one call of the direct sender and one accepted outgoing debug message of the
encoded size 10. Sending it to itself on topic `t`, which has one processor, the handler
is called once and one accepted incoming debug message of the payload size 1 is
recorded. -/
theorem SendToConnectedPeer_routes_witness :
    (SendToConnectedPeer (demoMessenger ⟨1700000000, 0⟩) demoDirectSender demoProcessors
        "t" [7] [2] demoWorld).2.log
      = [Event.DirectSend "t" [1, 0, 0, 0, 0, 101, 83, 241, 0, 7] [2],
         Event.AddOutgoingMessage "t" 10 false] ∧
    (SendToConnectedPeer (demoMessenger ⟨1700000000, 0⟩) demoDirectSender demoProcessors
        "t" [7] [1] demoWorld).2.log
      = [Event.ProcessReceivedMessage 0
            ⟨[1], [7], [0, 0, 0, 1], "t", 1700000000, [1]⟩ [1] none,
         Event.AddIncomingMessage "t" 1 false,
         Event.IncreaseRating [1]] :=
  ⟨((SendToConnectedPeer_routes (demoMessenger ⟨1700000000, 0⟩) demoDirectSender
      demoProcessors "t" [7] [2] demoWorld (by decide) (by decide)).1 (by decide)).2.1.trans
    (by decide),
   (((SendToConnectedPeer_routes (demoMessenger ⟨1700000000, 0⟩) demoDirectSender
      demoProcessors "t" [7] [1] demoWorld (by decide) (by decide)).2 (by decide)).2.1
      ⟨[1], [7], [0, 0, 0, 1], "t", 1700000000, [1]⟩
      ⟨(["a"], [countingProcessor false])⟩ (by rfl)
      (by decide) (by rfl)).2.trans (by rfl)⟩

/-! ## One pass of the background refresh (C28) -/

theorem refreshPeersOnTopic_eq {ν : Type} (poc : peersOnChannel ν) (env : ν)
    (topic : String) :
    poc.refreshPeersOnTopic env topic
      = (poc.fetchPeersHandler env topic,
          poc.updateConnectedPeersOnTopic env topic (poc.fetchPeersHandler env topic),
          Event.FetchPeersOnTopic topic ::
            (poc.fetchPeersHandler env topic).map Event.AddPeer) := by
  unfold peersOnChannel.refreshPeersOnTopic
  simp only
  rw [(convertPeers_spec _).1, (convertPeers_spec _).2]

theorem refreshTopics_spec {ν : Type} (env : ν) :
    ∀ (topics : List String) (poc : peersOnChannel ν) (calls : List Event),
      (refreshTopics env topics poc calls).2
        = calls ++ (topics.map (fun t =>
            Event.FetchPeersOnTopic t :: (poc.fetchPeersHandler env t).map Event.AddPeer)).flatten ∧
      (∀ t, t ∈ topics →
        (refreshTopics env topics poc calls).1.peers.lookup t
          = some (poc.fetchPeersHandler env t) ∧
        (refreshTopics env topics poc calls).1.lastUpdated.lookup t
          = some (poc.getTimeHandler env)) ∧
      (∀ t, t ∉ topics →
        (refreshTopics env topics poc calls).1.peers.lookup t = poc.peers.lookup t ∧
        (refreshTopics env topics poc calls).1.lastUpdated.lookup t
          = poc.lastUpdated.lookup t)
  | [], poc, calls => by simp [refreshTopics]
  | a :: rest, poc, calls => by
    have ih := refreshTopics_spec env rest
      (poc.updateConnectedPeersOnTopic env a (poc.fetchPeersHandler env a))
      (calls ++ Event.FetchPeersOnTopic a :: (poc.fetchPeersHandler env a).map Event.AddPeer)
    obtain ⟨ih1, ih2, ih3⟩ := ih
    have hstep : refreshTopics env (a :: rest) poc calls
        = refreshTopics env rest
            (poc.updateConnectedPeersOnTopic env a (poc.fetchPeersHandler env a))
            (calls ++ Event.FetchPeersOnTopic a ::
              (poc.fetchPeersHandler env a).map Event.AddPeer) := by
      rw [refreshTopics, refreshPeersOnTopic_eq]
    rw [hstep]
    refine ⟨?_, fun t ht => ?_, fun t ht => ?_⟩
    · rw [ih1]
      simp [peersOnChannel.updateConnectedPeersOnTopic]
    · by_cases hr : t ∈ rest
      · exact ih2 t hr
      · have hta : t = a := by
          rcases List.mem_cons.mp ht with h | h
          · exact h
          · exact absurd h hr
        subst hta
        obtain ⟨h1, h2⟩ := ih3 t hr
        rw [h1, h2]
        exact ⟨GoMap.lookup_store_self _ _ _, GoMap.lookup_store_self _ _ _⟩
    · have hne : t ≠ a := fun h => ht (h ▸ List.mem_cons_self _ _)
      have hr : t ∉ rest := fun h => ht (List.mem_cons_of_mem _ h)
      obtain ⟨h1, h2⟩ := ih3 t hr
      rw [h1, h2]
      exact ⟨GoMap.lookup_store_ne _ _ _ _ hne, GoMap.lookup_store_ne _ _ _ _ hne⟩

theorem mem_listTopicsToBeRefreshed {ν : Type} (poc : peersOnChannel ν) (env : ν)
    (topic : String) :
    topic ∈ poc.listTopicsToBeRefreshed env ↔
      ∃ last, poc.lastUpdated.lookup topic = some last ∧
        (poc.getTimeHandler env).Sub last > poc.ttlInterval := by
  unfold peersOnChannel.listTopicsToBeRefreshed
  rw [List.mem_filter]
  constructor
  · rintro ⟨_, h⟩
    cases hl : poc.lastUpdated.lookup topic with
    | none => simp [hl] at h
    | some last =>
      simp only [hl, decide_eq_true_eq] at h
      exact ⟨last, rfl, h⟩
  · rintro ⟨last, hl, hgt⟩
    refine ⟨?_, by simp [hl, hgt]⟩
    by_contra hk
    simp [GoMap.lookup, hk] at hl

/-- C28: one pass of the background refresh, at the time `now` the time handler reads,
re-fetches exactly the topics of `lastUpdated` for which `now.Sub(lastUpdated)` is
strictly greater than `ttlInterval`, in the order of the map's keys, rating the fetched
peers: each such topic gets the delegate's list and the stamp `now`. An entry that is
not older than `ttlInterval` keeps its peer list and its stamp, and no entry is created
for a topic without one. `Sub` is the difference in nanoseconds whenever that fits in a
`time.Duration`. -/
theorem refreshPeersOnAllKnownTopics_spec {ν : Type} (poc : peersOnChannel ν) (env : ν)
    (topic : String) :
    (∀ last, poc.lastUpdated.lookup topic = some last →
      (poc.getTimeHandler env).Sub last > poc.ttlInterval →
      (poc.refreshPeersOnAllKnownTopics env).1.peers.lookup topic
        = some (poc.fetchPeersHandler env topic) ∧
      (poc.refreshPeersOnAllKnownTopics env).1.lastUpdated.lookup topic
        = some (poc.getTimeHandler env)) ∧
    (∀ last, poc.lastUpdated.lookup topic = some last →
      (poc.getTimeHandler env).Sub last ≤ poc.ttlInterval →
      (poc.refreshPeersOnAllKnownTopics env).1.peers.lookup topic = poc.peers.lookup topic ∧
      (poc.refreshPeersOnAllKnownTopics env).1.lastUpdated.lookup topic = some last) ∧
    (poc.lastUpdated.lookup topic = none →
      (poc.refreshPeersOnAllKnownTopics env).1.peers.lookup topic = poc.peers.lookup topic ∧
      (poc.refreshPeersOnAllKnownTopics env).1.lastUpdated.lookup topic = none) ∧
    (poc.refreshPeersOnAllKnownTopics env).2
      = ((poc.lastUpdated.keys.filter (fun t =>
            match poc.lastUpdated.lookup t with
            | some last => decide ((poc.getTimeHandler env).Sub last > poc.ttlInterval)
            | none => false)).map (fun t =>
          Event.FetchPeersOnTopic t ::
            (poc.fetchPeersHandler env t).map Event.AddPeer)).flatten ∧
    (∀ t u : Time,
      -(2 : Int) ^ 63 ≤ (t.sec - u.sec) * 1000000000 + ((t.nsec.val : Int) - u.nsec.val) →
      (t.sec - u.sec) * 1000000000 + ((t.nsec.val : Int) - u.nsec.val) ≤ 2 ^ 63 - 1 →
      t.Sub u = (t.sec - u.sec) * 1000000000 + ((t.nsec.val : Int) - u.nsec.val)) := by
  obtain ⟨h1, h2, h3⟩ := refreshTopics_spec env (poc.listTopicsToBeRefreshed env) poc []
  refine ⟨fun last hl hgt => ?_, fun last hl hle => ?_, fun hl => ?_, ?_, fun t u hlo hhi => ?_⟩
  · exact h2 topic ((mem_listTopicsToBeRefreshed poc env topic).mpr ⟨last, hl, hgt⟩)
  · have hnot : topic ∉ poc.listTopicsToBeRefreshed env := by
      intro hin
      obtain ⟨last2, hl2, hgt⟩ := (mem_listTopicsToBeRefreshed poc env topic).mp hin
      rw [hl] at hl2
      cases hl2
      exact absurd hgt (not_lt.mpr hle)
    have := h3 topic hnot
    rw [hl] at this
    exact this
  · have hnot : topic ∉ poc.listTopicsToBeRefreshed env := by
      intro hin
      obtain ⟨last2, hl2, _⟩ := (mem_listTopicsToBeRefreshed poc env topic).mp hin
      rw [hl] at hl2
      cases hl2
    have := h3 topic hnot
    rw [hl] at this
    exact this
  · have := h1
    simpa [peersOnChannel.refreshPeersOnAllKnownTopics,
      peersOnChannel.listTopicsToBeRefreshed] using this
  · unfold Time.Sub clamp64
    generalize (t.sec - u.sec) * 1000000000 + ((t.nsec.val : Int) - u.nsec.val) = d at hlo hhi
    split_ifs with a b
    · omega
    · omega
    · rfl

/-- C28, worked instance: at time 111 with a time to live of 10 s, the entry of `t`
stamped 100 is re-fetched (pubsub now lists only `0x04`) and re-stamped, and the entry of
`u` stamped 105 is left as it was. -/
theorem refreshPeersOnAllKnownTopics_spec_witness :
    ((agedPoc.refreshPeersOnAllKnownTopics ([[4]], ⟨111, 0⟩)).1.peers.lookup "t" = some [[4]] ∧
     (agedPoc.refreshPeersOnAllKnownTopics ([[4]], ⟨111, 0⟩)).1.lastUpdated.lookup "t"
        = some ⟨111, 0⟩) ∧
    ((agedPoc.refreshPeersOnAllKnownTopics ([[4]], ⟨111, 0⟩)).1.peers.lookup "u"
        = some [[2], [3]] ∧
     (agedPoc.refreshPeersOnAllKnownTopics ([[4]], ⟨111, 0⟩)).1.lastUpdated.lookup "u"
        = some ⟨105, 0⟩) ∧
    (agedPoc.refreshPeersOnAllKnownTopics ([[4]], ⟨111, 0⟩)).2
      = [Event.FetchPeersOnTopic "t", Event.AddPeer [4]] :=
  have ht := (refreshPeersOnAllKnownTopics_spec agedPoc ([[4]], ⟨111, 0⟩) "t").1
    ⟨100, 0⟩ (by decide) (by decide)
  have hu := (refreshPeersOnAllKnownTopics_spec agedPoc ([[4]], ⟨111, 0⟩) "u").2.1
    ⟨105, 0⟩ (by decide) (by decide)
  ⟨ht, ⟨hu.1.trans (by decide), hu.2⟩,
   (refreshPeersOnAllKnownTopics_spec agedPoc ([[4]], ⟨111, 0⟩) "t").2.2.2.1.trans
     (by decide)⟩

/-! ## Connected-peers information (C26, C29) -/

theorem ShardMap.get_modify_self {α : Type} [Inhabited α] (m : ShardMap α) (k : Nat)
    (f : α → α) : (m.modify k f).get k = f (m.get k) := by
  unfold ShardMap.modify
  by_cases h : k ∈ m.keys
  · simp [ShardMap.get, h]
  · simp [ShardMap.get, h]

theorem ShardMap.get_modify_ne {α : Type} [Inhabited α] (m : ShardMap α) (k j : Nat)
    (f : α → α) (hne : j ≠ k) : (m.modify k f).get j = m.get j := by
  unfold ShardMap.modify
  by_cases h : k ∈ m.keys
  · simp [ShardMap.get, h, Function.update_noteq hne]
  · simp [ShardMap.get, h, Function.update_noteq hne, List.mem_append, hne]

theorem ShardMap.mem_keys_modify {α : Type} [Inhabited α] (m : ShardMap α) (k j : Nat)
    (f : α → α) : j ∈ (m.modify k f).keys ↔ j ∈ m.keys ∨ j = k := by
  unfold ShardMap.modify
  by_cases h : k ∈ m.keys
  · simp only [h, if_true]
    constructor
    · exact Or.inl
    · rintro (h1 | h1)
      · exact h1
      · exact h1 ▸ h
  · simp [h]

theorem ShardMap.nodup_keys_modify {α : Type} [Inhabited α] (m : ShardMap α) (k : Nat)
    (f : α → α) (hnd : m.keys.Nodup) : (m.modify k f).keys.Nodup := by
  unfold ShardMap.modify
  by_cases h : k ∈ m.keys
  · simpa [h] using hnd
  · simp only [h, if_false]
    exact List.Nodup.append hnd (List.nodup_singleton _) (by simpa using h)

theorem sum_map_congr_of_forall {l : List Nat} {f g : Nat → Nat}
    (h : ∀ j ∈ l, f j = g j) : (l.map f).sum = (l.map g).sum := by
  rw [List.map_congr_left h]

theorem sum_map_bump : ∀ (l : List Nat) (k : Nat) (f g : Nat → Nat),
    l.Nodup → k ∈ l → g k = f k + 1 → (∀ j, j ≠ k → g j = f j) →
    (l.map g).sum = (l.map f).sum + 1
  | [], _, _, _, _, hk, _, _ => by cases hk
  | a :: rest, k, f, g, hnd, hk, hgk, hg => by
    obtain ⟨ha, hrest⟩ := List.nodup_cons.mp hnd
    by_cases hak : a = k
    · subst hak
      have : (rest.map g).sum = (rest.map f).sum :=
        sum_map_congr_of_forall (fun j hj => hg j (fun h => ha (h ▸ hj)))
      simp only [List.map_cons, List.sum_cons, this, hgk]
      omega
    · have hk' : k ∈ rest := by
        rcases List.mem_cons.mp hk with h | h
        · exact absurd h.symm hak
        · exact h
      have ih := sum_map_bump rest k f g hrest hk' hgk hg
      simp only [List.map_cons, List.sum_cons, ih, hg a hak]
      omega

theorem ShardMap.total_modify_append (m : ShardMap (List String)) (k : Nat) (x : String)
    (hnd : m.keys.Nodup) :
    (m.modify k (fun l => l ++ [x])).total = m.total + 1 := by
  unfold ShardMap.total
  by_cases h : k ∈ m.keys
  · have hkeys : (m.modify k (fun l => l ++ [x])).keys = m.keys := by
      simp [ShardMap.modify, h]
    rw [hkeys]
    apply sum_map_bump m.keys k _ _ hnd h
    · rw [ShardMap.get_modify_self]
      simp
    · intro j hj
      rw [ShardMap.get_modify_ne _ _ _ _ hj]
  · have hkeys : (m.modify k (fun l => l ++ [x])).keys = m.keys ++ [k] := by
      simp [ShardMap.modify, h]
    rw [hkeys, List.map_append, List.sum_append]
    have h1 : (m.keys.map (fun j => ((m.modify k (fun l => l ++ [x])).get j).length)).sum
        = (m.keys.map (fun j => (m.get j).length)).sum :=
      sum_map_congr_of_forall (fun j hj => by
        have hjk : j ≠ k := fun e => h (by rw [← e]; exact hj)
        rw [ShardMap.get_modify_ne _ _ _ _ hjk])
    rw [h1, List.map_singleton, List.sum_singleton, ShardMap.get_modify_self]
    simp [ShardMap.get, h]
    rfl

theorem ShardMap.get_bump (num : ShardMap Nat) (m : ShardMap (List String)) (k s : Nat)
    (x : String) (c : Nat) (h : num.get s = (m.get s).length + c) :
    (num.modify k (fun n => n + 1)).get s
      = ((m.modify k (fun l => l ++ [x])).get s).length + c := by
  by_cases hs : s = k
  · subst hs
    rw [ShardMap.get_modify_self, ShardMap.get_modify_self, h]
    simp
    omega
  · rw [ShardMap.get_modify_ne _ _ _ _ hs, ShardMap.get_modify_ne _ _ _ _ hs, h]

theorem switchPeerType_agrees (src : PeersInfoSource) (selfShardID : Nat)
    (info : ConnectedPeersInfo) (p : PeerID) (n : Nat) (h : info.Agrees selfShardID n) :
    (GetConnectedPeersInfo.switchPeerType src selfShardID info p).Agrees selfShardID
      (n + if (bucketOf src selfShardID p).isSome then 1 else 0) := by
  cases hT : (src.GetPeerInfo p).PeerType with
  | other code =>
    simp only [GetConnectedPeersInfo.switchPeerType, bucketOf, hT]
    simpa using h
  | UnknownPeer =>
    simp only [GetConnectedPeersInfo.switchPeerType, bucketOf, hT]
    by_cases hseed : src.IsSeeder p = true
    · simp only [hseed, if_true, Option.isSome_some]
      exact { h with buckets := by have := h.buckets; simp; omega }
    · simp only [hseed, if_false, Option.isSome_some, if_true, Bool.false_eq_true]
      exact { h with buckets := by have := h.buckets; simp; omega }
  | ValidatorPeer =>
    simp only [GetConnectedPeersInfo.switchPeerType, bucketOf, hT]
    by_cases hshard : selfShardID ≠ (src.GetPeerInfo p).ShardID
    · have hne : ¬ (src.GetPeerInfo p).ShardID = selfShardID := fun e => hshard e.symm
      rw [if_pos hshard, if_neg hne]
      simp only [Option.isSome_some, if_true]
      exact { h with
        nodupCV := ShardMap.nodup_keys_modify _ _ _ h.nodupCV
        numCV := by
          show _ + 1 = _
          rw [ShardMap.total_modify_append _ _ _ h.nodupCV, h.numCV]
        validatorsOnShard := fun s => by
          show _ = _
          have := ShardMap.get_bump info.NumValidatorsOnShard info.CrossShardValidators
            (src.GetPeerInfo p).ShardID s (src.connString p)
            (info.IntraShardValidators.get s).length
            (by rw [h.validatorsOnShard s]; omega)
          simp only at this ⊢
          omega
        buckets := by
          show _ = _
          have := h.buckets
          rw [ShardMap.total_modify_append _ _ _ h.nodupCV]
          simp only at this ⊢
          omega }
    · have heq : (src.GetPeerInfo p).ShardID = selfShardID := by
        by_contra e
        exact hshard (fun e2 => e e2.symm)
      rw [if_neg hshard, if_pos heq]
      simp only [Option.isSome_some, if_true]
      exact { h with
        nodupIV := ShardMap.nodup_keys_modify _ _ _ h.nodupIV
        numIV := by
          show _ + 1 = _
          rw [ShardMap.total_modify_append _ _ _ h.nodupIV, h.numIV]
        keysIV := fun k hk => by
          rcases (ShardMap.mem_keys_modify _ _ _ _).mp hk with h1 | h1
          · exact h.keysIV k h1
          · exact h1.trans heq
        validatorsOnShard := fun s => by
          show _ = _
          have := ShardMap.get_bump info.NumValidatorsOnShard info.IntraShardValidators
            (src.GetPeerInfo p).ShardID s (src.connString p)
            (info.CrossShardValidators.get s).length
            (by rw [h.validatorsOnShard s])
          simp only at this ⊢
          omega
        buckets := by
          show _ = _
          have := h.buckets
          rw [ShardMap.total_modify_append _ _ _ h.nodupIV]
          simp only at this ⊢
          omega }
  | ObserverPeer =>
    simp only [GetConnectedPeersInfo.switchPeerType, bucketOf, hT]
    by_cases hfh : (src.GetPeerInfo p).PeerSubType = .FullHistoryObserver
    · rw [if_pos hfh, if_pos hfh]
      simp only [Option.isSome_some, if_true]
      exact { h with
        nodupFH := ShardMap.nodup_keys_modify _ _ _ h.nodupFH
        numFH := by
          show _ + 1 = _
          rw [ShardMap.total_modify_append _ _ _ h.nodupFH, h.numFH]
        observersOnShard := fun s => by
          show _ = _
          have := ShardMap.get_bump info.NumObserversOnShard info.FullHistoryObservers
            (src.GetPeerInfo p).ShardID s (src.connString p)
            ((info.IntraShardObservers.get s).length + (info.CrossShardObservers.get s).length)
            (by rw [h.observersOnShard s]; omega)
          simp only at this ⊢
          omega
        buckets := by
          show _ = _
          have := h.buckets
          rw [ShardMap.total_modify_append _ _ _ h.nodupFH]
          simp only at this ⊢
          omega }
    · by_cases hshard : selfShardID ≠ (src.GetPeerInfo p).ShardID
      · have hne : ¬ (src.GetPeerInfo p).ShardID = selfShardID := fun e => hshard e.symm
        rw [if_neg hfh, if_neg hfh, if_pos hshard, if_neg hne]
        simp only [Option.isSome_some, if_true]
        exact { h with
          nodupCO := ShardMap.nodup_keys_modify _ _ _ h.nodupCO
          numCO := by
            show _ + 1 = _
            rw [ShardMap.total_modify_append _ _ _ h.nodupCO, h.numCO]
          observersOnShard := fun s => by
            show _ = _
            have := ShardMap.get_bump info.NumObserversOnShard info.CrossShardObservers
              (src.GetPeerInfo p).ShardID s (src.connString p)
              ((info.IntraShardObservers.get s).length
                + (info.FullHistoryObservers.get s).length)
              (by rw [h.observersOnShard s]; omega)
            simp only at this ⊢
            omega
          buckets := by
            show _ = _
            have := h.buckets
            rw [ShardMap.total_modify_append _ _ _ h.nodupCO]
            simp only at this ⊢
            omega }
      · have heq : (src.GetPeerInfo p).ShardID = selfShardID := by
          by_contra e
          exact hshard (fun e2 => e e2.symm)
        rw [if_neg hfh, if_neg hfh, if_neg hshard, if_pos heq]
        simp only [Option.isSome_some, if_true]
        exact { h with
          nodupIO := ShardMap.nodup_keys_modify _ _ _ h.nodupIO
          numIO := by
            show _ + 1 = _
            rw [ShardMap.total_modify_append _ _ _ h.nodupIO, h.numIO]
          keysIO := fun k hk => by
            rcases (ShardMap.mem_keys_modify _ _ _ _).mp hk with h1 | h1
            · exact h.keysIO k h1
            · exact h1.trans heq
          observersOnShard := fun s => by
            show _ = _
            have := ShardMap.get_bump info.NumObserversOnShard info.IntraShardObservers
              (src.GetPeerInfo p).ShardID s (src.connString p)
              ((info.CrossShardObservers.get s).length
                + (info.FullHistoryObservers.get s).length)
              (by rw [h.observersOnShard s]; omega)
            simp only at this ⊢
            omega
          buckets := by
            show _ = _
            have := h.buckets
            rw [ShardMap.total_modify_append _ _ _ h.nodupIO]
            simp only at this ⊢
            omega }

theorem inBucket_append (src : PeersInfoSource) (selfShardID : Nat) (b : Bucket)
    (ps qs : List PeerID) :
    inBucket src selfShardID b (ps ++ qs)
      = inBucket src selfShardID b ps ++ inBucket src selfShardID b qs := by
  simp [inBucket]

theorem inBucketOnShard_append (src : PeersInfoSource) (selfShardID : Nat) (b : Bucket)
    (s : Nat) (ps qs : List PeerID) :
    inBucketOnShard src selfShardID b s (ps ++ qs)
      = inBucketOnShard src selfShardID b s ps ++ inBucketOnShard src selfShardID b s qs := by
  simp [inBucketOnShard]

theorem ConnectedPeersInfo.Collects.refl (info : ConnectedPeersInfo) (src : PeersInfoSource)
    (selfShardID : Nat) : info.Collects info src selfShardID [] := by
  constructor <;> simp [inBucket, inBucketOnShard]

theorem ConnectedPeersInfo.Collects.trans {a b c : ConnectedPeersInfo}
    {src : PeersInfoSource} {selfShardID : Nat} {ps qs : List PeerID}
    (h1 : a.Collects b src selfShardID ps) (h2 : b.Collects c src selfShardID qs) :
    a.Collects c src selfShardID (ps ++ qs) := by
  constructor
  · rw [h2.unknown, h1.unknown, inBucket_append, List.append_assoc]
  · rw [h2.seeders, h1.seeders, inBucket_append, List.append_assoc]
  · intro s
    rw [h2.intraV, h1.intraV, inBucketOnShard_append, List.append_assoc]
  · intro s
    rw [h2.crossV, h1.crossV, inBucketOnShard_append, List.append_assoc]
  · intro s
    rw [h2.intraO, h1.intraO, inBucketOnShard_append, List.append_assoc]
  · intro s
    rw [h2.crossO, h1.crossO, inBucketOnShard_append, List.append_assoc]
  · intro s
    rw [h2.fullHistory, h1.fullHistory, inBucketOnShard_append, List.append_assoc]

theorem ShardMap.get_modify_append (m : ShardMap (List String)) (k s : Nat) (x : String) :
    (m.modify k (fun l => l ++ [x])).get s = m.get s ++ (if k = s then [x] else []) := by
  by_cases hs : s = k
  · subst hs
    rw [ShardMap.get_modify_self]
    simp
  · rw [ShardMap.get_modify_ne _ _ _ _ hs, if_neg (fun e => hs e.symm)]
    simp

theorem switchPeerType_collects (src : PeersInfoSource) (selfShardID : Nat)
    (info : ConnectedPeersInfo) (p : PeerID) :
    info.Collects (GetConnectedPeersInfo.switchPeerType src selfShardID info p)
      src selfShardID [p] := by
  cases hT : (src.GetPeerInfo p).PeerType with
  | other code =>
    constructor <;>
      simp [GetConnectedPeersInfo.switchPeerType, bucketOf, hT, inBucket, inBucketOnShard]
  | UnknownPeer =>
    by_cases hseed : src.IsSeeder p = true
    · constructor <;>
        simp [GetConnectedPeersInfo.switchPeerType, bucketOf, hT, inBucket, inBucketOnShard,
          hseed]
    · constructor <;>
        simp [GetConnectedPeersInfo.switchPeerType, bucketOf, hT, inBucket, inBucketOnShard,
          hseed]
  | ValidatorPeer =>
    by_cases hshard : selfShardID = (src.GetPeerInfo p).ShardID
    · have heq : (src.GetPeerInfo p).ShardID = selfShardID := hshard.symm
      constructor
      all_goals simp [GetConnectedPeersInfo.switchPeerType, bucketOf, hT, inBucket,
        inBucketOnShard, heq, ShardMap.get_modify_append, List.filter_cons]
      all_goals (intro s; split <;> rfl)
    · have hne : ¬ (src.GetPeerInfo p).ShardID = selfShardID := fun e => hshard e.symm
      constructor
      all_goals simp [GetConnectedPeersInfo.switchPeerType, bucketOf, hT, inBucket,
        inBucketOnShard, hshard, hne, ShardMap.get_modify_append, List.filter_cons]
      all_goals (intro s; split <;> rfl)
  | ObserverPeer =>
    by_cases hfh : (src.GetPeerInfo p).PeerSubType = .FullHistoryObserver
    · constructor
      all_goals simp [GetConnectedPeersInfo.switchPeerType, bucketOf, hT, inBucket,
        inBucketOnShard, hfh, ShardMap.get_modify_append, List.filter_cons]
      all_goals (intro s; split <;> rfl)
    · by_cases hshard : selfShardID = (src.GetPeerInfo p).ShardID
      · have heq : (src.GetPeerInfo p).ShardID = selfShardID := hshard.symm
        constructor
        all_goals simp [GetConnectedPeersInfo.switchPeerType, bucketOf, hT, inBucket,
          inBucketOnShard, hfh, heq, ShardMap.get_modify_append, List.filter_cons]
        all_goals (intro s; split <;> rfl)
      · have hne : ¬ (src.GetPeerInfo p).ShardID = selfShardID := fun e => hshard e.symm
        constructor
        all_goals simp [GetConnectedPeersInfo.switchPeerType, bucketOf, hT, inBucket,
          inBucketOnShard, hfh, hshard, hne, ShardMap.get_modify_append,
          List.filter_cons]
        all_goals (intro s; split <;> rfl)

theorem step_collects (src : PeersInfoSource) (selfShardID : Nat)
    (info : ConnectedPeersInfo) (p : PeerID) :
    info.Collects (GetConnectedPeersInfo.step src selfShardID info p) src selfShardID [p] := by
  have h := switchPeerType_collects src selfShardID info p
  unfold GetConnectedPeersInfo.step
  by_cases hc : src.Contains p = true
  · simp only [hc, if_true]
    exact ⟨h.unknown, h.seeders, h.intraV, h.crossV, h.intraO, h.crossO, h.fullHistory⟩
  · simp only [hc, if_false, Bool.false_eq_true]
    exact h

theorem step_agrees (src : PeersInfoSource) (selfShardID : Nat)
    (info : ConnectedPeersInfo) (p : PeerID) (n : Nat) (h : info.Agrees selfShardID n) :
    (GetConnectedPeersInfo.step src selfShardID info p).Agrees selfShardID
      (n + if (bucketOf src selfShardID p).isSome then 1 else 0) := by
  have h1 := switchPeerType_agrees src selfShardID info p n h
  unfold GetConnectedPeersInfo.step
  by_cases hc : src.Contains p = true
  · simp only [hc, if_true]
    exact { h1 with }
  · simp only [hc, if_false, Bool.false_eq_true]
    exact h1

theorem switchPeerType_SelfShardID (src : PeersInfoSource) (selfShardID : Nat)
    (info : ConnectedPeersInfo) (p : PeerID) :
    (GetConnectedPeersInfo.switchPeerType src selfShardID info p).SelfShardID
      = info.SelfShardID := by
  unfold GetConnectedPeersInfo.switchPeerType
  simp only
  split
  · split <;> rfl
  · split <;> rfl
  · split
    · rfl
    · split <;> rfl
  · rfl

theorem step_SelfShardID (src : PeersInfoSource) (selfShardID : Nat)
    (info : ConnectedPeersInfo) (p : PeerID) :
    (GetConnectedPeersInfo.step src selfShardID info p).SelfShardID = info.SelfShardID := by
  have h := switchPeerType_SelfShardID src selfShardID info p
  unfold GetConnectedPeersInfo.step
  by_cases hc : src.Contains p = true
  · simp only [hc, if_true]
    exact h
  · simp only [hc, if_false, Bool.false_eq_true]
    exact h

theorem foldl_step_collects (src : PeersInfoSource) (selfShardID : Nat)
    (peers : List PeerID) (info : ConnectedPeersInfo) :
    info.Collects (peers.foldl (GetConnectedPeersInfo.step src selfShardID) info)
      src selfShardID peers := by
  induction peers generalizing info with
  | nil => exact ConnectedPeersInfo.Collects.refl info src selfShardID
  | cons p ps ih =>
    have h1 := step_collects src selfShardID info p
    have h2 := ih (GetConnectedPeersInfo.step src selfShardID info p)
    exact h1.trans h2

theorem foldl_step_agrees (src : PeersInfoSource) (selfShardID : Nat)
    (peers : List PeerID) (info : ConnectedPeersInfo) (n : Nat)
    (h : info.Agrees selfShardID n) :
    (peers.foldl (GetConnectedPeersInfo.step src selfShardID) info).Agrees selfShardID
      (n + (peers.filter (fun p => (bucketOf src selfShardID p).isSome)).length) := by
  induction peers generalizing info n with
  | nil => simpa using h
  | cons p ps ih =>
    have h1 := step_agrees src selfShardID info p n h
    have h2 := ih _ _ h1
    have hlen : ((p :: ps).filter (fun p => (bucketOf src selfShardID p).isSome)).length
        = (if (bucketOf src selfShardID p).isSome then 1 else 0)
          + (ps.filter (fun p => (bucketOf src selfShardID p).isSome)).length := by
      rw [List.filter_cons]
      split <;> simp [Nat.add_comm]
    rw [List.foldl_cons, hlen, ← Nat.add_assoc]
    exact h2

theorem foldl_step_SelfShardID (src : PeersInfoSource) (selfShardID : Nat)
    (peers : List PeerID) (info : ConnectedPeersInfo) :
    (peers.foldl (GetConnectedPeersInfo.step src selfShardID) info).SelfShardID
      = info.SelfShardID := by
  induction peers generalizing info with
  | nil => rfl
  | cons p ps ih => rw [List.foldl_cons, ih, step_SelfShardID]

theorem init_agrees (selfShardID : Nat) :
    (GetConnectedPeersInfo.init selfShardID).Agrees selfShardID 0 := by
  constructor <;>
    simp [GetConnectedPeersInfo.init, ShardMap.empty, ShardMap.total, ShardMap.get] <;>
    rfl

theorem bucketOf_isSome (src : PeersInfoSource) (selfShardID : Nat) (p : PeerID) :
    (bucketOf src selfShardID p).isSome = (src.GetPeerInfo p).PeerType.named := by
  unfold bucketOf
  cases h : (src.GetPeerInfo p).PeerType with
  | UnknownPeer =>
    simp only [P2PPeerType.named]
    split <;> rfl
  | ValidatorPeer =>
    simp only [P2PPeerType.named]
    split <;> rfl
  | ObserverPeer =>
    simp only [P2PPeerType.named]
    split
    · rfl
    · split <;> rfl
  | other code => rfl

theorem GetConnectedPeersInfo_collects (src : PeersInfoSource) (self : PeerID) :
    (GetConnectedPeersInfo.init (src.GetPeerInfo self).ShardID).Collects
      (GetConnectedPeersInfo src self) src (src.GetPeerInfo self).ShardID src.Peers :=
  foldl_step_collects src (src.GetPeerInfo self).ShardID src.Peers
    (GetConnectedPeersInfo.init (src.GetPeerInfo self).ShardID)

theorem GetConnectedPeersInfo_agrees (src : PeersInfoSource) (self : PeerID) :
    (GetConnectedPeersInfo src self).Agrees (src.GetPeerInfo self).ShardID
      (0 + (src.Peers.filter
        (fun p => (bucketOf src (src.GetPeerInfo self).ShardID p).isSome)).length) :=
  foldl_step_agrees src (src.GetPeerInfo self).ShardID src.Peers
    (GetConnectedPeersInfo.init (src.GetPeerInfo self).ShardID) 0
    (init_agrees (src.GetPeerInfo self).ShardID)

theorem GetConnectedPeersInfo_SelfShardID (src : PeersInfoSource) (self : PeerID) :
    (GetConnectedPeersInfo src self).SelfShardID = (src.GetPeerInfo self).ShardID :=
  foldl_step_SelfShardID src (src.GetPeerInfo self).ShardID src.Peers
    (GetConnectedPeersInfo.init (src.GetPeerInfo self).ShardID)

theorem ShardMap.get_empty_list (s : Nat) :
    (ShardMap.empty : ShardMap (List String)).get s = [] := rfl

/-- C26, counterexample: the host is connected to one peer, whose peer type the resolver
gives as the unnamed value 7. The `switch` of `GetConnectedPeersInfo` has no case for it,
so the peer lands in no bucket: all seven buckets are empty although one peer is
connected. -/
theorem GetConnectedPeersInfo_unnamed_type_in_no_bucket :
    unnamedTypePeers.Peers.length = 1 ∧
    (GetConnectedPeersInfo unnamedTypePeers [1]).UnknownPeers = [] ∧
    (GetConnectedPeersInfo unnamedTypePeers [1]).Seeders = [] ∧
    (GetConnectedPeersInfo unnamedTypePeers [1]).IntraShardValidators.keys = [] ∧
    (GetConnectedPeersInfo unnamedTypePeers [1]).CrossShardValidators.keys = [] ∧
    (GetConnectedPeersInfo unnamedTypePeers [1]).IntraShardObservers.keys = [] ∧
    (GetConnectedPeersInfo unnamedTypePeers [1]).CrossShardObservers.keys = [] ∧
    (GetConnectedPeersInfo unnamedTypePeers [1]).FullHistoryObservers.keys = [] ∧
    (GetConnectedPeersInfo unnamedTypePeers [1]).UnknownPeers.length
      + (GetConnectedPeersInfo unnamedTypePeers [1]).Seeders.length
      + (GetConnectedPeersInfo unnamedTypePeers [1]).IntraShardValidators.total
      + (GetConnectedPeersInfo unnamedTypePeers [1]).CrossShardValidators.total
      + (GetConnectedPeersInfo unnamedTypePeers [1]).IntraShardObservers.total
      + (GetConnectedPeersInfo unnamedTypePeers [1]).CrossShardObservers.total
      + (GetConnectedPeersInfo unnamedTypePeers [1]).FullHistoryObservers.total = 0 :=
  ⟨by decide, by decide, by decide, by decide, by decide, by decide, by decide, by decide,
   by decide⟩

/-- C26 (amended): `GetConnectedPeersInfo` puts each connected peer whose peer type is one
of `UnknownPeer`, `ValidatorPeer` and `ObserverPeer` in exactly one bucket, and a peer of
any other peer type value in none. `UnknownPeers` holds the connection strings of the
unknown peers the sharder does not call seeders and `Seeders` those of the unknown peers
it does; under each shard `s`, `IntraShardValidators` and `CrossShardValidators` hold the
validators of shard `s`, the former when `s` is the own shard and the latter otherwise,
`FullHistoryObservers` holds the observers of shard `s` of the full-history subtype
whatever the own shard, and `IntraShardObservers` and `CrossShardObservers` the other
observers of shard `s` by the same rule as the validators; all in the order of the peers.
The sizes of the seven buckets sum to the number of connected peers of a named type, which
is the number of connected peers when every connected peer has a named type. -/
theorem GetConnectedPeersInfo_buckets (src : PeersInfoSource) (self : PeerID) :
    (GetConnectedPeersInfo src self).UnknownPeers
      = inBucket src (src.GetPeerInfo self).ShardID .unknown src.Peers ∧
    (GetConnectedPeersInfo src self).Seeders
      = inBucket src (src.GetPeerInfo self).ShardID .seeder src.Peers ∧
    (∀ s, (GetConnectedPeersInfo src self).IntraShardValidators.get s
      = inBucketOnShard src (src.GetPeerInfo self).ShardID .intraShardValidator s src.Peers) ∧
    (∀ s, (GetConnectedPeersInfo src self).CrossShardValidators.get s
      = inBucketOnShard src (src.GetPeerInfo self).ShardID .crossShardValidator s src.Peers) ∧
    (∀ s, (GetConnectedPeersInfo src self).IntraShardObservers.get s
      = inBucketOnShard src (src.GetPeerInfo self).ShardID .intraShardObserver s src.Peers) ∧
    (∀ s, (GetConnectedPeersInfo src self).CrossShardObservers.get s
      = inBucketOnShard src (src.GetPeerInfo self).ShardID .crossShardObserver s src.Peers) ∧
    (∀ s, (GetConnectedPeersInfo src self).FullHistoryObservers.get s
      = inBucketOnShard src (src.GetPeerInfo self).ShardID .fullHistoryObserver s src.Peers) ∧
    (∀ p, (bucketOf src (src.GetPeerInfo self).ShardID p).isSome
      = (src.GetPeerInfo p).PeerType.named) ∧
    (GetConnectedPeersInfo src self).UnknownPeers.length
      + (GetConnectedPeersInfo src self).Seeders.length
      + (GetConnectedPeersInfo src self).IntraShardValidators.total
      + (GetConnectedPeersInfo src self).CrossShardValidators.total
      + (GetConnectedPeersInfo src self).IntraShardObservers.total
      + (GetConnectedPeersInfo src self).CrossShardObservers.total
      + (GetConnectedPeersInfo src self).FullHistoryObservers.total
      = (src.Peers.filter (fun p => (src.GetPeerInfo p).PeerType.named)).length ∧
    ((∀ p ∈ src.Peers, (src.GetPeerInfo p).PeerType = .UnknownPeer
        ∨ (src.GetPeerInfo p).PeerType = .ValidatorPeer
        ∨ (src.GetPeerInfo p).PeerType = .ObserverPeer) →
      (GetConnectedPeersInfo src self).UnknownPeers.length
        + (GetConnectedPeersInfo src self).Seeders.length
        + (GetConnectedPeersInfo src self).IntraShardValidators.total
        + (GetConnectedPeersInfo src self).CrossShardValidators.total
        + (GetConnectedPeersInfo src self).IntraShardObservers.total
        + (GetConnectedPeersInfo src self).CrossShardObservers.total
        + (GetConnectedPeersInfo src self).FullHistoryObservers.total
        = src.Peers.length) := by
  have hc := GetConnectedPeersInfo_collects src self
  have ha := (GetConnectedPeersInfo_agrees src self).buckets
  have hfilter : src.Peers.filter
      (fun p => (bucketOf src (src.GetPeerInfo self).ShardID p).isSome)
      = src.Peers.filter (fun p => (src.GetPeerInfo p).PeerType.named) := by
    congr 1
    funext p
    exact bucketOf_isSome src _ p
  rw [hfilter, Nat.zero_add] at ha
  refine ⟨hc.unknown.trans (List.nil_append _), hc.seeders.trans (List.nil_append _),
    fun s => ?_, fun s => ?_, fun s => ?_, fun s => ?_, fun s => ?_,
    fun p => bucketOf_isSome src _ p, ha, fun hnamed => ?_⟩
  · exact (hc.intraV s).trans (List.nil_append _)
  · exact (hc.crossV s).trans (List.nil_append _)
  · exact (hc.intraO s).trans (List.nil_append _)
  · exact (hc.crossO s).trans (List.nil_append _)
  · exact (hc.fullHistory s).trans (List.nil_append _)
  · rw [ha]
    congr 1
    apply List.filter_eq_self.mpr
    intro p hp
    rcases hnamed p hp with h | h | h <;> rw [h] <;> rfl

/-- C26 (amended), worked instance: of the six peers of `demoPeers`, all of a named type
and seen from shard 0, one lands in each of `Seeders`, `UnknownPeers`, the validators of
shard 0, the validators of shard 1, the full-history observers of shard 0 and the
cross-shard observers of shard 1, and the own shard has no intra-shard observer. -/
theorem GetConnectedPeersInfo_buckets_witness :
    (∀ p ∈ demoPeers.Peers, (demoPeers.GetPeerInfo p).PeerType = .UnknownPeer
      ∨ (demoPeers.GetPeerInfo p).PeerType = .ValidatorPeer
      ∨ (demoPeers.GetPeerInfo p).PeerType = .ObserverPeer) ∧
    (GetConnectedPeersInfo demoPeers [1]).UnknownPeers = ["/ip4/10.0.0.9/tcp/21/p2p/three"] ∧
    (GetConnectedPeersInfo demoPeers [1]).Seeders = ["/ip4/10.0.0.9/tcp/21/p2p/two"] ∧
    (GetConnectedPeersInfo demoPeers [1]).IntraShardValidators.get 0
      = ["[invalid connection string]"] ∧
    (GetConnectedPeersInfo demoPeers [1]).CrossShardValidators.get 1
      = ["/ip4/10.0.0.9/tcp/21/p2p/five"] ∧
    (GetConnectedPeersInfo demoPeers [1]).IntraShardObservers.get 0 = [] ∧
    (GetConnectedPeersInfo demoPeers [1]).CrossShardObservers.get 1
      = ["/ip4/10.0.0.9/tcp/21/p2p/seven"] ∧
    (GetConnectedPeersInfo demoPeers [1]).FullHistoryObservers.get 0
      = ["/ip4/10.0.0.9/tcp/21/p2p/six"] ∧
    (GetConnectedPeersInfo demoPeers [1]).UnknownPeers.length
      + (GetConnectedPeersInfo demoPeers [1]).Seeders.length
      + (GetConnectedPeersInfo demoPeers [1]).IntraShardValidators.total
      + (GetConnectedPeersInfo demoPeers [1]).CrossShardValidators.total
      + (GetConnectedPeersInfo demoPeers [1]).IntraShardObservers.total
      + (GetConnectedPeersInfo demoPeers [1]).CrossShardObservers.total
      + (GetConnectedPeersInfo demoPeers [1]).FullHistoryObservers.total = 6 :=
  have h := GetConnectedPeersInfo_buckets demoPeers [1]
  ⟨by decide, h.1.trans (by decide), h.2.1.trans (by decide),
   (h.2.2.1 0).trans (by decide), (h.2.2.2.1 1).trans (by decide),
   (h.2.2.2.2.1 0).trans (by decide), (h.2.2.2.2.2.1 1).trans (by decide),
   (h.2.2.2.2.2.2.1 0).trans (by decide), h.2.2.2.2.2.2.2.2.2 (by decide)⟩

/-- C29: in the result of `GetConnectedPeersInfo` the counters agree with the lists. Each
of `NumIntraShardValidators`, `NumCrossShardValidators`, `NumIntraShardObservers`,
`NumCrossShardObservers` and `NumFullHistoryObservers` is the total length of the lists of
the map of the same name (whose keys are distinct); for every shard `s`,
`NumValidatorsOnShard[s]` is the number of intra- plus cross-shard validators listed under
`s` and `NumObserversOnShard[s]` the number of intra-shard, cross-shard and full-history
observers listed under `s`; and the two intra-shard maps have no key other than
`SelfShardID`, which is the shard the resolver gives for the own id. -/
theorem GetConnectedPeersInfo_counters (src : PeersInfoSource) (self : PeerID) :
    ((GetConnectedPeersInfo src self).NumIntraShardValidators
        = (GetConnectedPeersInfo src self).IntraShardValidators.total ∧
      (GetConnectedPeersInfo src self).NumCrossShardValidators
        = (GetConnectedPeersInfo src self).CrossShardValidators.total ∧
      (GetConnectedPeersInfo src self).NumIntraShardObservers
        = (GetConnectedPeersInfo src self).IntraShardObservers.total ∧
      (GetConnectedPeersInfo src self).NumCrossShardObservers
        = (GetConnectedPeersInfo src self).CrossShardObservers.total ∧
      (GetConnectedPeersInfo src self).NumFullHistoryObservers
        = (GetConnectedPeersInfo src self).FullHistoryObservers.total) ∧
    ((GetConnectedPeersInfo src self).IntraShardValidators.keys.Nodup ∧
      (GetConnectedPeersInfo src self).CrossShardValidators.keys.Nodup ∧
      (GetConnectedPeersInfo src self).IntraShardObservers.keys.Nodup ∧
      (GetConnectedPeersInfo src self).CrossShardObservers.keys.Nodup ∧
      (GetConnectedPeersInfo src self).FullHistoryObservers.keys.Nodup) ∧
    (∀ s, (GetConnectedPeersInfo src self).NumValidatorsOnShard.get s
      = ((GetConnectedPeersInfo src self).IntraShardValidators.get s).length
        + ((GetConnectedPeersInfo src self).CrossShardValidators.get s).length) ∧
    (∀ s, (GetConnectedPeersInfo src self).NumObserversOnShard.get s
      = ((GetConnectedPeersInfo src self).IntraShardObservers.get s).length
        + ((GetConnectedPeersInfo src self).CrossShardObservers.get s).length
        + ((GetConnectedPeersInfo src self).FullHistoryObservers.get s).length) ∧
    (∀ k, k ∈ (GetConnectedPeersInfo src self).IntraShardValidators.keys
      ∨ k ∈ (GetConnectedPeersInfo src self).IntraShardObservers.keys →
      k = (GetConnectedPeersInfo src self).SelfShardID) ∧
    (GetConnectedPeersInfo src self).SelfShardID = (src.GetPeerInfo self).ShardID := by
  have ha := GetConnectedPeersInfo_agrees src self
  have hs := GetConnectedPeersInfo_SelfShardID src self
  refine ⟨⟨ha.numIV, ha.numCV, ha.numIO, ha.numCO, ha.numFH⟩,
    ⟨ha.nodupIV, ha.nodupCV, ha.nodupIO, ha.nodupCO, ha.nodupFH⟩,
    ha.validatorsOnShard, ha.observersOnShard, fun k hk => ?_, hs⟩
  rw [hs]
  rcases hk with hk | hk
  · exact ha.keysIV k hk
  · exact ha.keysIO k hk

/-- C29, worked instance: for the six peers of `demoPeers` every counter of a kind of
peer is 1 but that of the intra-shard observers, which is 0; shard 0 and shard 1 each
count one validator and one observer; and the only key of `IntraShardValidators` is the
own shard 0. -/
theorem GetConnectedPeersInfo_counters_witness :
    (GetConnectedPeersInfo demoPeers [1]).IntraShardValidators.total = 1 ∧
    (GetConnectedPeersInfo demoPeers [1]).CrossShardValidators.total = 1 ∧
    (GetConnectedPeersInfo demoPeers [1]).IntraShardObservers.total = 0 ∧
    (GetConnectedPeersInfo demoPeers [1]).CrossShardObservers.total = 1 ∧
    (GetConnectedPeersInfo demoPeers [1]).FullHistoryObservers.total = 1 ∧
    ((GetConnectedPeersInfo demoPeers [1]).IntraShardValidators.get 0).length
      + ((GetConnectedPeersInfo demoPeers [1]).CrossShardValidators.get 0).length = 1 ∧
    ((GetConnectedPeersInfo demoPeers [1]).IntraShardObservers.get 1).length
      + ((GetConnectedPeersInfo demoPeers [1]).CrossShardObservers.get 1).length
      + ((GetConnectedPeersInfo demoPeers [1]).FullHistoryObservers.get 1).length = 1 ∧
    (GetConnectedPeersInfo demoPeers [1]).IntraShardValidators.keys = [0] ∧
    (GetConnectedPeersInfo demoPeers [1]).SelfShardID = 0 :=
  have h := GetConnectedPeersInfo_counters demoPeers [1]
  ⟨h.1.1.symm.trans (by decide), h.1.2.1.symm.trans (by decide),
   h.1.2.2.1.symm.trans (by decide), h.1.2.2.2.1.symm.trans (by decide),
   h.1.2.2.2.2.symm.trans (by decide), (h.2.2.1 0).symm.trans (by decide),
   (h.2.2.2.1 1).symm.trans (by decide), by decide, h.2.2.2.2.2.trans (by decide)⟩

end P2P
